import Mathlib

/-!
# Subscription lifecycle and seat entitlement of the SaaS platform backend

A shallow embedding of the Express/Mongoose backend under `backend/routes` and
`backend/models`.  The document store is a record of three collections; every
route handler is a function from the store and the request to a response and
the store afterwards.  Library behaviour the handlers rely on (the e-mail
validator, the password hash, the clock, the outcome of each store write) is
collected in `Env`.

Conventions of the embedding
* JavaScript numbers that occur in the modelled paths are natural numbers,
  except the seat ceiling `maxUsers`, a rational number, and the counter
  `activeUsers`, an integer.
* `undefined` and `null` are `none`; a key that a validated request body
  lacks is the empty string.
* Dates are milliseconds since the epoch.
* Store reads always succeed, except that a query by `_id` throws when the
  request value does not cast to an ObjectId (`IdParam`, `castObjectId`); the
  k-th store write of a request succeeds when `Env.writeOk k` holds, the
  document passes the validators of its schema and, for a User, the unique
  index on `email` admits it.
* The signed token in the authentication responses is left out of the bodies.
-/

namespace SaaS

/-! ## Data model -/

/-- Document identifiers (`_id`). -/
abbrev Id := Nat

/-- A request value (path segment, body key or event metadata) that a query
uses as an `_id`: a string that casts to an ObjectId, or a value that does not
cast, on which the query throws a `CastError`.  The stores of the scenarios
number their documents; the path segment `99` of a request is
`malformed "99"`. -/
inductive IdParam where
  | objectId (id : Id)
  | malformed (raw : String)
deriving DecidableEq, Repr

/-- The closed role set. -/
inductive Role where
  | user
  | admin
  | superadmin
deriving DecidableEq, Repr

/-- Modelled from the spec: `models/User.js` is not among the sources; the
fields are those the route handlers read and write and section 3 of the
specification lists (identity, email, credential, names, role, organization
reference, active flag).  `isActive` defaults to `true`. -/
structure User where
  id : Id
  email : String
  password : String
  firstName : Option String
  lastName : Option String
  role : Role
  organizationId : Id
  isActive : Bool
deriving DecidableEq, Repr

/-- The `planSchema` of `models/Plan.js`. -/
structure Plan where
  id : Id
  name : String
  price : Nat
  billingCycle : String
  trialDays : Nat
  features : List String
  /-- A JavaScript number, at least 1 by the schema; it need not be an integer. -/
  maxUsers : ℚ
  storage : Nat
  stripePriceId : String
  isActive : Bool
  createdAt : Nat
  updatedAt : Nat
deriving DecidableEq, Repr

/-- The nested path `activePlan` of `organizationSchema`
(`models/Organization.js`, lines 17-23): five declared fields. -/
structure ActivePlan where
  name : Option String
  maxUsers : Option ℚ
  features : List String
  price : Option Nat
  billingCycle : Option String
deriving DecidableEq, Repr

/-- An object literal a handler assigns to `organization.activePlan`.  The
literals of the routes carry five or six keys; a key that is not written is
`none`. -/
structure SnapshotLiteral where
  name : Option String
  maxUsers : Option ℚ
  features : List String
  price : Option Nat
  billingCycle : Option String
  storage : Option Nat
deriving DecidableEq, Repr

/-- Casting a literal to the nested schema path: the declared keys are kept,
a key the schema does not declare (`storage`) is not stored. -/
def castActivePlan (l : SnapshotLiteral) : ActivePlan :=
  { name := l.name, maxUsers := l.maxUsers, features := l.features,
    price := l.price, billingCycle := l.billingCycle }

/-- The `organizationSchema` of `models/Organization.js`. -/
structure Organization where
  id : Id
  name : String
  email : String
  planId : Id
  activePlan : ActivePlan
  /-- `null` is `none`. -/
  subscriptionStatus : Option String
  subscriptionStartDate : Nat
  subscriptionEndDate : Nat
  stripeCustomerId : Option String
  stripeSubscriptionId : Option String
  activeUsers : Int
  isActive : Bool
  createdAt : Nat
  updatedAt : Nat
deriving DecidableEq, Repr

/-- The document store: the three collections and the identifier allocator. -/
structure Store where
  plans : List Plan
  organizations : List Organization
  users : List User
  nextId : Id
deriving DecidableEq, Repr

/-- What the handlers take from their environment. -/
structure Env where
  /-- The `isEmail` validator of express-validator. -/
  isEmail : String → Bool
  /-- The credential produced by `bcrypt.hash(password, 10)`. -/
  hash : String → String
  /-- The value of `Date.now()` during the request. -/
  now : Nat
  /-- Outcome of the k-th store write of the request. -/
  writeOk : Nat → Bool
  /-- The rendering of a number that is not an integer by a template string
  (`Number.prototype.toString`). -/
  showFraction : ℚ → String

/-! ## Responses -/

/-- The JSON bodies of the modelled responses. -/
inductive Body where
  | errors
  | message (m : String)
  | failure (m : String)
  | errorMessage
  | text (m : String)
  | limitReached (m : String) (currentUsers : Nat) (maxUsers : Option ℚ)
      (planName : Option String)
  | userCreated (u : User) (currentUsers : Nat) (maxUsers : Option ℚ)
      (planName : Option String)
  | registered (u : User) (o : Organization)
  | created (u : User)
  | userDoc (u : User)
  | organizationDoc (o : Organization) (planId : Option Plan)
  | planDoc (p : Plan)
  | session (id : String)
  | toggled (m : String) (isActive : Bool)
  | unauthenticated
  | forbidden
  | received
deriving DecidableEq, Repr

/-- A response: status code and body. -/
structure Response where
  status : Nat
  body : Body
deriving DecidableEq, Repr

/-! ## JavaScript operators -/

/-- The operator `a || b` on possibly-undefined numbers: `0` and `undefined`
are falsy. -/
def jsOrNum (a b : Option ℚ) : Option ℚ :=
  match a with
  | some n => if n = 0 then b else some n
  | none => b

/-- The operator `a || b` on possibly-undefined strings: the empty string and
`undefined` are falsy. -/
def jsOrStr (a b : Option String) : Option String :=
  match a with
  | some x => if x = "" then b else some x
  | none => b

/-- The comparison `a >= b` of a number with a possibly-undefined number:
comparing with `undefined` is `false`. -/
def jsGe (a : Nat) (b : Option ℚ) : Bool :=
  match b with
  | some m => decide (m ≤ (a : ℚ))
  | none => false

/-- Rendering of a possibly-undefined natural number inside a template
string. -/
def showNum (a : Option Nat) : String :=
  match a with
  | some n => toString n
  | none => "undefined"

/-- Rendering of a possibly-undefined number inside a template string: an
integer in decimal digits, a fraction as `Env.showFraction` renders it. -/
def showNumber (env : Env) (a : Option ℚ) : String :=
  match a with
  | some q => if q.den = 1 then toString q.num else env.showFraction q
  | none => "undefined"

/-! ## Queries -/

/-- `User.findOne({ email })`. -/
def findUserByEmail (s : Store) (email : String) : Option User :=
  s.users.find? (fun u => u.email == email)

/-- The cast of a request value to an ObjectId that a query by `_id` performs
before it reaches the collection; `none` is the `CastError`, which sends the
handler to its `catch` block. -/
def castObjectId : IdParam → Option Id
  | .objectId id => some id
  | .malformed _ => none

/-- Whether a query by the request value `id` throws: the value is present and
does not cast.  The queries resolve an absent value to no document. -/
def castFails (id : Option IdParam) : Bool :=
  match id with
  | some (.malformed _) => true
  | _ => false

/-- `Organization.findById(id)` for an ObjectId; a request value is cast
first (`castObjectId`). -/
def findOrganizationById (s : Store) (id : Id) : Option Organization :=
  s.organizations.find? (fun o => o.id == id)

/-- `Plan.findById(id)` for an ObjectId, also the document `populate('planId')`
resolves; a request value is cast first (`castObjectId`). -/
def findPlanById (s : Store) (id : Id) : Option Plan :=
  s.plans.find? (fun p => p.id == id)

/-- `Plan.findOne({ name })`. -/
def findPlanByName (s : Store) (name : String) : Option Plan :=
  s.plans.find? (fun p => p.name == name)

/-- `User.countDocuments({ organizationId, isActive: true, role: 'user' })`. -/
def countActiveUsers (s : Store) (organizationId : Id) : Nat :=
  s.users.countP (fun u => u.organizationId == organizationId && u.isActive && u.role == Role.user)

/-- `User.countDocuments({ organizationId, isActive: true })`. -/
def countActiveMembers (s : Store) (organizationId : Id) : Nat :=
  s.users.countP (fun u => u.organizationId == organizationId && u.isActive)

/-! ## Writes -/

/-- The validators of `organizationSchema`: `name` and `email` are required
strings; `subscriptionStatus` is not required, so its enumeration validator
runs on a string and lets `null` pass. -/
def validOrganization (o : Organization) : Bool :=
  o.name != "" && o.email != "" &&
    (o.subscriptionStatus == none ||
      o.subscriptionStatus == some "active" || o.subscriptionStatus == some "trialing" ||
      o.subscriptionStatus == some "canceled" || o.subscriptionStatus == some "expired")

/-- Modelled from the spec: `models/User.js` is not among the sources.
Section 3: `email` is globally unique across the whole system; the User
collection carries a unique index on `email`, which refuses the write of a
document whose e-mail another document carries. -/
def emailFree (s : Store) (u : User) : Bool :=
  s.users.all (fun v => v.id == u.id || v.email != u.email)

/-- `save()` of a new User document as the k-th write; the unique index on
`email` refuses a duplicate. -/
def insertUser (env : Env) (k : Nat) (s : Store) (u : User) : Option Store :=
  if env.writeOk k && emailFree s u then
    some { s with users := s.users ++ [u], nextId := s.nextId + 1 }
  else none

/-- `save()` of a loaded and modified User document as the k-th write; the
unique index on `email` refuses a duplicate. -/
def updateUser (env : Env) (k : Nat) (s : Store) (u : User) : Option Store :=
  if env.writeOk k && emailFree s u then
    some { s with users := s.users.map (fun v => if v.id == u.id then u else v) }
  else none

/-- `save()` of a new Organization document as the k-th write; the pre-save
hook stamps `updatedAt`. -/
def insertOrganization (env : Env) (k : Nat) (s : Store) (o : Organization) : Option Store :=
  if env.writeOk k && validOrganization o then
    some { s with organizations := s.organizations ++ [{ o with updatedAt := env.now }],
                  nextId := s.nextId + 1 }
  else none

/-- `save()` of a loaded and modified Organization document as the k-th write;
the pre-save hook stamps `updatedAt`. -/
def updateOrganization (env : Env) (k : Nat) (s : Store) (o : Organization) : Option Store :=
  if env.writeOk k && validOrganization o then
    some { s with organizations :=
      s.organizations.map (fun x => if x.id == o.id then { o with updatedAt := env.now } else x) }
  else none

/-! ## POST /auth/register-user -/

/-- The body of `POST /auth/register-user`. -/
structure RegisterUserBody where
  email : String
  password : String
  firstName : String
  lastName : String
deriving DecidableEq, Repr

/-- The length the validator `isLength` measures: the code points of the
string, the variation selectors U+FE0E and U+FE0F not counted. -/
def validatorLength (x : String) : Nat :=
  x.length - (x.data.filter (fun c => c.toNat == 0xFE0E || c.toNat == 0xFE0F)).length

/-- The validation chain of `POST /auth/register-user`. -/
def validRegisterUser (env : Env) (b : RegisterUserBody) : Bool :=
  env.isEmail b.email && decide (6 ≤ validatorLength b.password) && b.firstName != "" &&
    b.lastName != ""

/-- The ceiling `organization.activePlan?.maxUsers || organization.planId?.maxUsers`
with `planId` populated. -/
def seatCeiling (s : Store) (o : Organization) : Option ℚ :=
  jsOrNum o.activePlan.maxUsers ((findPlanById s o.planId).map (fun p => p.maxUsers))

/-- The name `organization.activePlan?.name || organization.planId?.name`. -/
def seatPlanName (s : Store) (o : Organization) : Option String :=
  jsOrStr o.activePlan.name ((findPlanById s o.planId).map (fun p => p.name))

/-- The message of the capacity denial:
"User limit reached (current/max). Please upgrade your plan to add more users." -/
def limitMessage (env : Env) (currentUsers : Nat) (maxUsers : Option ℚ) : String :=
  "User limit reached (" ++ toString currentUsers ++ "/" ++ showNumber env maxUsers ++
    "). Please upgrade your plan to add more users."

/-- The handler of `POST /auth/register-user` (`routes/auth.routes.js`, lines
108-234), run after `auth` and `authorize('admin')` resolved `req.user`. -/
def registerUser (env : Env) (s : Store) (caller : User) (b : RegisterUserBody) :
    Response × Store :=
  if !validRegisterUser env b then (⟨400, .errors⟩, s)
  else match findUserByEmail s b.email with
  | some _ => (⟨400, .message "User already exists"⟩, s)
  | none =>
    match findOrganizationById s caller.organizationId with
    | none => (⟨404, .message "Organization not found"⟩, s)
    | some organization =>
      if organization.subscriptionStatus != some "active" &&
          organization.subscriptionStatus != some "trialing" then
        (⟨400, .message "Cannot add users: Organization subscription is not active"⟩, s)
      else
        let currentUsers := countActiveUsers s organization.id
        let maxUsers := seatCeiling s organization
        let planName := seatPlanName s organization
        if jsGe currentUsers maxUsers then
          (⟨400, .limitReached (limitMessage env currentUsers maxUsers)
              currentUsers maxUsers planName⟩, s)
        else
          let user : User :=
            { id := s.nextId, email := b.email, password := env.hash b.password,
              firstName := some b.firstName, lastName := some b.lastName,
              organizationId := caller.organizationId, role := Role.user, isActive := true }
          match insertUser env 0 s user with
          | none => (⟨500, .failure "Failed to create user"⟩, s)
          | some s1 =>
            match updateOrganization env 1 s1
                { organization with activeUsers := (currentUsers : Int) + 1 } with
            | none => (⟨500, .failure "Failed to create user"⟩, s1)
            | some s2 => (⟨201, .userCreated user (currentUsers + 1) maxUsers planName⟩, s2)

/-! ## POST /auth/register -/

/-- The body of `POST /auth/register`. -/
structure RegisterBody where
  email : String
  password : String
  organizationName : String
  firstName : String
  lastName : String
deriving DecidableEq, Repr

/-- The validation chain of `POST /auth/register`. -/
def validRegister (env : Env) (b : RegisterBody) : Bool :=
  env.isEmail b.email && decide (6 ≤ validatorLength b.password) && b.organizationName != "" &&
    b.firstName != "" && b.lastName != ""

/-- The literal assigned to `activePlan` by `POST /auth/register`
(`routes/auth.routes.js`, lines 50-56). -/
def registerSnapshot (basicPlan : Plan) : SnapshotLiteral :=
  { name := some basicPlan.name, maxUsers := some basicPlan.maxUsers,
    features := basicPlan.features, price := some basicPlan.price,
    billingCycle := some basicPlan.billingCycle, storage := none }

/-- The document `new Organization({...})` of `POST /auth/register`; the paths
the literal leaves out take their schema defaults. -/
def newRegisteredOrganization (env : Env) (s : Store) (b : RegisterBody) (basicPlan : Plan) :
    Organization :=
  { id := s.nextId, name := b.organizationName, email := b.email, planId := basicPlan.id,
    subscriptionStatus := some "trialing",
    subscriptionEndDate := env.now + 14 * 24 * 60 * 60 * 1000,
    isActive := true,
    activePlan := castActivePlan (registerSnapshot basicPlan),
    subscriptionStartDate := env.now, stripeCustomerId := none, stripeSubscriptionId := none,
    activeUsers := 0, createdAt := env.now, updatedAt := env.now }

/-- The handler of `POST /auth/register` (`routes/auth.routes.js`, lines
13-105). -/
def register (env : Env) (s : Store) (b : RegisterBody) : Response × Store :=
  if !validRegister env b then (⟨400, .errors⟩, s)
  else match findUserByEmail s b.email with
  | some _ => (⟨400, .message "User already exists"⟩, s)
  | none =>
    match findPlanByName s "Basic" with
    | none => (⟨500, .message "Basic plan not found"⟩, s)
    | some basicPlan =>
      let organization := newRegisteredOrganization env s b basicPlan
      match insertOrganization env 0 s organization with
      | none => (⟨500, .errorMessage⟩, s)
      | some s1 =>
        let user : User :=
          { id := s1.nextId, email := b.email, password := env.hash b.password,
            firstName := some b.firstName, lastName := some b.lastName,
            role := Role.admin, organizationId := organization.id, isActive := true }
        match insertUser env 1 s1 user with
        | none => (⟨500, .errorMessage⟩, s1)
        | some s2 => (⟨201, .registered user { organization with updatedAt := env.now }⟩, s2)

/-! ## POST /users/organization -/

/-- The body of `POST /users/organization`. -/
structure CreateUserBody where
  email : String
  password : String
deriving DecidableEq, Repr

/-- The handler of `POST /users/organization` (`routes/user.routes.js`, lines
29-95), run after `auth` and `authorize('admin')` resolved `req.user`.
Reading `organization.planId.maxUsers` of an unresolved plan throws, which the
handler answers with 500. -/
def createOrganizationUser (env : Env) (s : Store) (caller : User) (b : CreateUserBody) :
    Response × Store :=
  if !(env.isEmail b.email && decide (6 ≤ validatorLength b.password)) then
    (⟨400, .errors⟩, s)
  else match findOrganizationById s caller.organizationId with
  | none => (⟨404, .message "Organization not found"⟩, s)
  | some organization =>
    let currentUsers := countActiveMembers s organization.id
    match findPlanById s organization.planId with
    | none => (⟨500, .failure "Server error"⟩, s)
    | some plan =>
      if decide (plan.maxUsers ≤ (currentUsers : ℚ)) then
        (⟨400, .message "User limit reached for your plan"⟩, s)
      else match findUserByEmail s b.email with
      | some _ => (⟨400, .message "User already exists"⟩, s)
      | none =>
        let user : User :=
          { id := s.nextId, email := b.email, password := env.hash b.password,
            firstName := none, lastName := none,
            organizationId := organization.id, role := Role.user, isActive := true }
        match insertUser env 0 s user with
        | none => (⟨500, .failure "Server error"⟩, s)
        | some s1 =>
          match updateOrganization env 1 s1
              { organization with activeUsers := (currentUsers : Int) + 1 } with
          | none => (⟨500, .failure "Server error"⟩, s1)
          | some s2 => (⟨201, .created user⟩, s2)

/-! ## PUT /users/organization/:id and PUT /users/profile -/

/-- The request body of the two user-update routes: the keys of the User
document it may carry. -/
structure UserPatch where
  email : Option String
  password : Option String
  firstName : Option String
  lastName : Option String
  role : Option Role
  organizationId : Option Id
  isActive : Option Bool
deriving DecidableEq, Repr

/-- The statement `Object.assign(user, updates)`. -/
def assignUser (u : User) (p : UserPatch) : User :=
  { u with
    email := p.email.getD u.email,
    password := p.password.getD u.password,
    firstName := match p.firstName with | some x => some x | none => u.firstName,
    lastName := match p.lastName with | some x => some x | none => u.lastName,
    role := p.role.getD u.role,
    organizationId := p.organizationId.getD u.organizationId,
    isActive := p.isActive.getD u.isActive }

/-- The statement `if (updates.password) updates.password = await bcrypt.hash(...)`:
a non-empty password is replaced by its hash. -/
def hashPatchPassword (env : Env) (p : UserPatch) : UserPatch :=
  match p.password with
  | some pw => if pw = "" then p else { p with password := some (env.hash pw) }
  | none => p

/-- `User.findOne({ _id, organizationId })` for an ObjectId `_id`; a request
value is cast first (`castObjectId`). -/
def findUserInOrganization (s : Store) (id : Id) (organizationId : Id) : Option User :=
  s.users.find? (fun u => u.id == id && u.organizationId == organizationId)

/-- `User.findById(id)`. -/
def findUserById (s : Store) (id : Id) : Option User :=
  s.users.find? (fun u => u.id == id)

/-- The handler of `PUT /users/organization/:id` (`routes/user.routes.js`,
lines 98-133), run after `auth` and `authorize('admin')`. -/
def updateOrganizationUser (env : Env) (s : Store) (caller : User) (id : IdParam)
    (updates : UserPatch) : Response × Store :=
  match castObjectId id with
  | none => (⟨500, .failure "Server error"⟩, s)
  | some id =>
  match findUserInOrganization s id caller.organizationId with
  | none => (⟨404, .message "User not found"⟩, s)
  | some user =>
    let updates := hashPatchPassword env { updates with role := none }
    let user := assignUser user updates
    match updateUser env 0 s user with
    | none => (⟨500, .failure "Server error"⟩, s)
    | some s1 => (⟨200, .userDoc { user with password := "" }⟩, s1)

/-- The handler of `PUT /users/profile` (`routes/user.routes.js`, lines
192-218), run after `auth`.  Assigning to an unresolved user throws, which the
handler answers with 500. -/
def updateProfile (env : Env) (s : Store) (caller : User) (updates : UserPatch) :
    Response × Store :=
  let updates := hashPatchPassword env { updates with role := none, organizationId := none }
  match findUserById s caller.id with
  | none => (⟨500, .failure "Server error"⟩, s)
  | some user =>
    let user := assignUser user updates
    match updateUser env 0 s user with
    | none => (⟨500, .failure "Server error"⟩, s)
    | some s1 => (⟨200, .userDoc { user with password := "" }⟩, s1)

/-! ## PUT /organizations/:id -/

/-- The request body of `PUT /organizations/:id`: the keys of the Organization
document it may carry.  For the status and the two optional references
`some none` is the value `null`. -/
structure OrganizationPatch where
  name : Option String
  email : Option String
  planId : Option IdParam
  activePlan : Option SnapshotLiteral
  subscriptionStatus : Option (Option String)
  subscriptionStartDate : Option Nat
  subscriptionEndDate : Option Nat
  stripeCustomerId : Option (Option String)
  stripeSubscriptionId : Option (Option String)
  activeUsers : Option Int
  isActive : Option Bool
  createdAt : Option Nat
deriving DecidableEq, Repr

/-- The statement `Object.assign(organization, updates)`; an `activePlan` in the
body is cast to the nested schema path and replaces the stored snapshot. -/
def assignOrganization (o : Organization) (p : OrganizationPatch) : Organization :=
  { o with
    name := p.name.getD o.name,
    email := p.email.getD o.email,
    planId := (p.planId.bind castObjectId).getD o.planId,
    activePlan := match p.activePlan with
      | some l => castActivePlan l
      | none => o.activePlan,
    subscriptionStatus := p.subscriptionStatus.getD o.subscriptionStatus,
    subscriptionStartDate := p.subscriptionStartDate.getD o.subscriptionStartDate,
    subscriptionEndDate := p.subscriptionEndDate.getD o.subscriptionEndDate,
    stripeCustomerId := p.stripeCustomerId.getD o.stripeCustomerId,
    stripeSubscriptionId := p.stripeSubscriptionId.getD o.stripeSubscriptionId,
    activeUsers := p.activeUsers.getD o.activeUsers,
    isActive := p.isActive.getD o.isActive,
    createdAt := p.createdAt.getD o.createdAt }

/-- The handler of `PUT /organizations/:id` (`routes/organization.routes.js`,
lines 122-153), run after `auth` and `authorize('superadmin')`. -/
def putOrganization (env : Env) (s : Store) (id : IdParam) (updates : OrganizationPatch) :
    Response × Store :=
  match castObjectId id with
  | none => (⟨500, .failure "Server error"⟩, s)
  | some id =>
  match findOrganizationById s id with
  | none => (⟨404, .message "Organization not found"⟩, s)
  | some organization =>
    if castFails updates.planId then (⟨500, .failure "Server error"⟩, s)
    else if updates.planId.isSome &&
        ((updates.planId.bind castObjectId).bind (findPlanById s)).isNone then
      (⟨404, .message "Plan not found"⟩, s)
    else
      match updateOrganization env 0 s (assignOrganization organization updates) with
      | none => (⟨500, .failure "Server error"⟩, s)
      | some s1 =>
        match findOrganizationById s1 id with
        | none => (⟨200, .organizationDoc (assignOrganization organization updates) none⟩, s1)
        | some updatedOrg =>
          (⟨200, .organizationDoc updatedOrg (findPlanById s1 updatedOrg.planId)⟩, s1)

/-! ## POST /stripe/webhook -/

/-- The verified event `stripe.webhooks.constructEvent` returns, reduced to the
fields the handler reads. -/
inductive StripeEvent where
  /-- `checkout.session.completed`: `metadata.organizationId`,
  `metadata.planId` and `subscription`. -/
  | checkoutCompleted (organizationId : Option IdParam) (planId : Option IdParam)
      (subscription : Option String)
  /-- `customer.subscription.updated`: `id`, `status`, the price ids of
  `items.data` and `current_period_end`. -/
  | subscriptionUpdated (id : String) (status : String) (items : List String)
      (currentPeriodEnd : Nat)
  /-- `customer.subscription.deleted`: `id`. -/
  | subscriptionDeleted (id : String)
  /-- Any other event type. -/
  | other (type : String)
deriving DecidableEq, Repr

/-- The literal assigned to `activePlan` by the `checkout.session.completed`
and `customer.subscription.updated` cases (`routes/stripe.routes.js`, lines
158-165 and 216-223). -/
def webhookSnapshot (plan : Plan) : SnapshotLiteral :=
  { name := some plan.name, maxUsers := some plan.maxUsers, features := plan.features,
    price := some plan.price, billingCycle := some plan.billingCycle,
    storage := some plan.storage }

/-- The literal assigned to `activePlan` by the `customer.subscription.deleted`
case (`routes/stripe.routes.js`, lines 250-256). -/
def deletedSnapshot (basicPlan : Plan) : SnapshotLiteral :=
  { name := some basicPlan.name, maxUsers := some basicPlan.maxUsers,
    features := basicPlan.features, price := some basicPlan.price,
    billingCycle := some basicPlan.billingCycle, storage := none }

/-- `Organization.findOne({ stripeSubscriptionId })`. -/
def findOrganizationBySubscription (s : Store) (id : String) : Option Organization :=
  s.organizations.find? (fun o => o.stripeSubscriptionId == some id)

/-- `Plan.findOne({ stripePriceId })`. -/
def findPlanByPrice (s : Store) (priceId : String) : Option Plan :=
  s.plans.find? (fun p => p.stripePriceId == priceId)

/-- The `checkout.session.completed` case (lines 116-175). -/
def checkoutCompleted (env : Env) (s : Store) (organizationId planId : Option IdParam)
    (subscription : Option String) : Response × Store :=
  if castFails organizationId || castFails planId then (⟨500, .errorMessage⟩, s)
  else
  match (organizationId.bind castObjectId).bind (findOrganizationById s),
      (planId.bind castObjectId).bind (findPlanById s) with
  | some organization, some plan =>
    let organization : Organization :=
      { organization with
        planId := plan.id,
        stripeSubscriptionId := subscription,
        subscriptionStatus := some "active",
        subscriptionStartDate := env.now,
        subscriptionEndDate := env.now + 365 * 24 * 60 * 60 * 1000,
        activePlan := castActivePlan (webhookSnapshot plan) }
    match updateOrganization env 0 s organization with
    | none => (⟨500, .errorMessage⟩, s)
    | some s1 => (⟨200, .received⟩, s1)
  | _, _ => (⟨404, .message "Organization or plan not found"⟩, s)

/-- The `customer.subscription.updated` case (lines 177-238).  Reading
`items.data[0].price.id` of an empty item list throws, which the handler
answers with 500. -/
def subscriptionUpdated (env : Env) (s : Store) (id status : String) (items : List String)
    (currentPeriodEnd : Nat) : Response × Store :=
  match findOrganizationBySubscription s id with
  | none => (⟨404, .message "Organization not found"⟩, s)
  | some organization =>
    match items.head? with
    | none => (⟨500, .errorMessage⟩, s)
    | some priceId =>
      match findPlanByPrice s priceId with
      | none => (⟨404, .message "Plan not found"⟩, s)
      | some plan =>
        let organization : Organization :=
          { organization with
            subscriptionStatus := some status,
            planId := plan.id,
            subscriptionEndDate := currentPeriodEnd * 1000,
            activePlan := castActivePlan (webhookSnapshot plan) }
        let organization : Organization :=
          if status = "canceled" ∨ status = "unpaid" then
            { organization with subscriptionStatus := some "expired" }
          else organization
        match updateOrganization env 0 s organization with
        | none => (⟨500, .errorMessage⟩, s)
        | some s1 => (⟨200, .received⟩, s1)

/-- The `customer.subscription.deleted` case (lines 240-261). -/
def subscriptionDeleted (env : Env) (s : Store) (id : String) : Response × Store :=
  match findOrganizationBySubscription s id with
  | none => (⟨200, .received⟩, s)
  | some organization =>
    match findPlanByName s "Basic" with
    | none => (⟨200, .received⟩, s)
    | some basicPlan =>
      let organization : Organization :=
        { organization with
          planId := basicPlan.id,
          subscriptionStatus := some "expired",
          activePlan := castActivePlan (deletedSnapshot basicPlan) }
      match updateOrganization env 0 s organization with
      | none => (⟨500, .errorMessage⟩, s)
      | some s1 => (⟨200, .received⟩, s1)

/-- The handler of `POST /stripe/webhook` (`routes/stripe.routes.js`, lines
94-273).  The request is the outcome of `constructEvent`: the verified event,
or the message of the verification error. -/
def webhook (env : Env) (s : Store) (request : Except String StripeEvent) : Response × Store :=
  match request with
  | .error msg => (⟨400, .text ("Webhook Error: " ++ msg)⟩, s)
  | .ok (.checkoutCompleted organizationId planId subscription) =>
    checkoutCompleted env s organizationId planId subscription
  | .ok (.subscriptionUpdated id status items currentPeriodEnd) =>
    subscriptionUpdated env s id status items currentPeriodEnd
  | .ok (.subscriptionDeleted id) => subscriptionDeleted env s id
  | .ok (.other _) => (⟨200, .received⟩, s)

/-! ## The billing gateway -/

/-- Outcomes of the billing-provider calls of one request: the id of the
object a call returns, or `none` when the call throws. -/
structure Gateway where
  /-- `stripe.customers.retrieve(id)`. -/
  customersRetrieve : String → Option String
  /-- `stripe.customers.create(...)`. -/
  customersCreate : Option String
  /-- `stripe.checkout.sessions.create(...)`. -/
  sessionsCreate : Option String
  /-- `stripe.products.create(...)`. -/
  productsCreate : Option String
  /-- `stripe.prices.create(...)`. -/
  pricesCreate : Option String
  /-- Whether `stripe.prices.update(id, { active: false })` succeeds. -/
  pricesUpdate : Bool

/-- The billing-provider calls a handler issues, with the arguments the
handlers compute. -/
inductive StripeCall where
  | customersRetrieve (id : String)
  | customersCreate (email : String) (organizationId : Id)
  | sessionsCreate (customer : String) (price : String) (organizationId : Id) (planId : Id)
  | productsCreate (name : String) (description : String)
  | pricesCreate (product : String) (unitAmount : Nat) (interval : Option String)
  | pricesUpdate (id : String)
deriving DecidableEq, Repr

/-! ## POST /stripe/subscribe -/

/-- The call `stripe.checkout.sessions.create` of `POST /stripe/subscribe`
(lines 65-83) on the store `s` reached so far, after the calls `calls`. -/
def createCheckoutSession (gw : Gateway) (s : Store) (calls : List StripeCall)
    (customer : String) (plan : Plan) (organization : Organization) :
    Response × Store × List StripeCall :=
  let calls := calls ++ [.sessionsCreate customer plan.stripePriceId organization.id plan.id]
  match gw.sessionsCreate with
  | none => (⟨500, .errorMessage⟩, s, calls)
  | some session => (⟨200, .session session⟩, s, calls)

/-- The handler of `POST /stripe/subscribe` (`routes/stripe.routes.js`, lines
21-91), run after `auth`; the third component lists the billing-provider calls
issued.  Reading `stripeCustomerId` of an unresolved organization throws, which
the handler answers with 500. -/
def subscribe (env : Env) (gw : Gateway) (s : Store) (caller : User)
    (planId : Option IdParam) : Response × Store × List StripeCall :=
  if castFails planId then (⟨500, .errorMessage⟩, s, [])
  else
  match (planId.bind castObjectId).bind (findPlanById s) with
  | none => (⟨404, .message "Plan not found"⟩, s, [])
  | some plan =>
    if plan.stripePriceId = "" then (⟨400, .message "Invalid plan configuration"⟩, s, [])
    else match findOrganizationById s caller.organizationId with
    | none => (⟨500, .errorMessage⟩, s, [])
    | some organization =>
      match jsOrStr organization.stripeCustomerId none with
      | some customerId =>
        match gw.customersRetrieve customerId with
        | none => (⟨500, .errorMessage⟩, s, [.customersRetrieve customerId])
        | some customer =>
          createCheckoutSession gw s [.customersRetrieve customerId] customer plan organization
      | none =>
        match gw.customersCreate with
        | none => (⟨500, .errorMessage⟩, s, [.customersCreate caller.email organization.id])
        | some customer =>
          match updateOrganization env 0 s
              { organization with stripeCustomerId := some customer } with
          | none => (⟨500, .errorMessage⟩, s, [.customersCreate caller.email organization.id])
          | some s1 =>
            createCheckoutSession gw s1 [.customersCreate caller.email organization.id]
              customer plan organization

/-! ## The plan catalog routes -/

/-- The validators of `planSchema`: the enumerations of `name` and
`billingCycle`, non-empty feature strings, `maxUsers` and `storage` at least 1,
a required `stripePriceId`. -/
def validPlan (p : Plan) : Bool :=
  (p.name == "Basic" || p.name == "Standard" || p.name == "Plus") &&
    (p.billingCycle == "Trial" || p.billingCycle == "Monthly" || p.billingCycle == "Yearly") &&
    p.features.all (fun f => f != "") && decide (1 ≤ p.maxUsers) && decide (1 ≤ p.storage) &&
    p.stripePriceId != ""

/-- `save()` of a new Plan document as the k-th write; the pre-save hook
stamps `updatedAt`. -/
def insertPlan (env : Env) (k : Nat) (s : Store) (p : Plan) : Option Store :=
  if env.writeOk k && validPlan p then
    some { s with plans := s.plans ++ [{ p with updatedAt := env.now }],
                  nextId := s.nextId + 1 }
  else none

/-- `save()` of a loaded and modified Plan document as the k-th write. -/
def updatePlan (env : Env) (k : Nat) (s : Store) (p : Plan) : Option Store :=
  if env.writeOk k && validPlan p then
    some { s with plans :=
      (s.plans.map (fun x => if x.id == p.id then { p with updatedAt := env.now } else x)) }
  else none

/-- The test `cycle.toLowerCase() === 'monthly'`. -/
def isMonthly (cycle : String) : Bool :=
  cycle.data.map Char.toLower == "monthly".data

/-- The expression `cycle.toLowerCase() === 'monthly' ? 'month' : 'year'`. -/
def billingInterval (cycle : String) : String :=
  if isMonthly cycle then "month" else "year"

/-- The operator `a || b` with a possibly-undefined number on the left and a
number on the right. -/
def jsOrNat (a : Option Nat) (b : Nat) : Nat :=
  match a with
  | some 0 => b
  | some n => n
  | none => b

/-- The template `name Plan`. -/
def productName (name : String) : String := name ++ " Plan"

/-- The template `name Plan with maxUsers users and storageGB storage`. -/
def productDescription (env : Env) (name : String) (maxUsers : Option ℚ)
    (storage : Option Nat) : String :=
  name ++ " Plan with " ++ showNumber env maxUsers ++ " users and " ++ showNum storage ++
    "GB storage"

/-- The body of `POST /plans`. -/
structure PlanBody where
  name : String
  price : Nat
  features : Option (List String)
  maxUsers : ℚ
  storage : Option Nat
  billingCycle : Option String
  trialDays : Option Nat
deriving DecidableEq, Repr

/-- The handler of `POST /plans` (`routes/plan.routes.js`, lines 30-108), run
after `auth` and `authorize('superadmin')`; the third component lists the
billing-provider calls issued.  The validation chain accepts the three plan
names; `price` and `maxUsers` are numbers. -/
def createPlan (env : Env) (gw : Gateway) (s : Store) (b : PlanBody) :
    Response × Store × List StripeCall :=
  if !(b.name == "Basic" || b.name == "Standard" || b.name == "Plus") then
    (⟨400, .errors⟩, s, [])
  else match b.billingCycle with
  | none =>
    (⟨400, .message "Invalid billing cycle. Must be Trial, Monthly, or Yearly"⟩, s, [])
  | some billingCycle =>
    if !(billingCycle == "Trial" || billingCycle == "Monthly" || billingCycle == "Yearly") then
      (⟨400, .message "Invalid billing cycle. Must be Trial, Monthly, or Yearly"⟩, s, [])
    else match b.features with
    | none => (⟨400, .message "Features must be a non-empty array"⟩, s, [])
    | some features =>
      if features.length = 0 then
        (⟨400, .message "Features must be a non-empty array"⟩, s, [])
      else
        let call1 : StripeCall :=
          .productsCreate (productName b.name)
            (productDescription env b.name (some b.maxUsers) b.storage)
        match gw.productsCreate with
        | none => (⟨500, .failure "Failed to create Stripe price"⟩, s, [call1])
        | some product =>
          let call2 : StripeCall :=
            .pricesCreate product (b.price * 100)
              (if billingCycle = "Trial" then none else some (billingInterval billingCycle))
          match gw.pricesCreate with
          | none => (⟨500, .failure "Failed to create Stripe price"⟩, s, [call1, call2])
          | some priceId =>
            if priceId = "" then
              (⟨500, .failure "Failed to create Stripe price - no price ID returned"⟩, s,
                [call1, call2])
            else
              let plan : Plan :=
                { id := s.nextId, name := b.name, price := b.price, features := features,
                  maxUsers := b.maxUsers, storage := b.storage.getD 0,
                  billingCycle := billingCycle, trialDays := b.trialDays.getD 0,
                  stripePriceId := priceId, isActive := true,
                  createdAt := env.now, updatedAt := env.now }
              match insertPlan env 0 s plan with
              | none => (⟨500, .errorMessage⟩, s, [call1, call2])
              | some s1 => (⟨201, .planDoc { plan with updatedAt := env.now }⟩, s1, [call1, call2])

/-- The request body of `PUT /plans/:id`: the keys of the Plan document it may
carry. -/
structure PlanPatch where
  name : Option String
  price : Option Nat
  billingCycle : Option String
  trialDays : Option Nat
  features : Option (List String)
  maxUsers : Option ℚ
  storage : Option Nat
  stripePriceId : Option String
  isActive : Option Bool
deriving DecidableEq, Repr

/-- The statement `Object.assign(plan, updates)`. -/
def assignPlan (p : Plan) (u : PlanPatch) : Plan :=
  { p with
    name := u.name.getD p.name,
    price := u.price.getD p.price,
    billingCycle := u.billingCycle.getD p.billingCycle,
    trialDays := u.trialDays.getD p.trialDays,
    features := u.features.getD p.features,
    maxUsers := u.maxUsers.getD p.maxUsers,
    storage := u.storage.getD p.storage,
    stripePriceId := u.stripePriceId.getD p.stripePriceId,
    isActive := u.isActive.getD p.isActive }

/-- The handler of `PUT /plans/:id` (`routes/plan.routes.js`, lines 111-158),
run after `auth` and `authorize('superadmin')`; the third component lists the
billing-provider calls issued. -/
def putPlan (env : Env) (gw : Gateway) (s : Store) (id : IdParam) (updates : PlanPatch) :
    Response × Store × List StripeCall :=
  match castObjectId id with
  | none => (⟨500, .errorMessage⟩, s, [])
  | some id =>
  match findPlanById s id with
  | none => (⟨404, .message "Plan not found"⟩, s, [])
  | some plan =>
    if updates.price.isSome || updates.billingCycle.isSome then
      let name := (jsOrStr updates.name (some plan.name)).getD plan.name
      let call1 : StripeCall :=
        .productsCreate (productName name)
          (productDescription env name (jsOrNum updates.maxUsers (some plan.maxUsers))
            (some (jsOrNat updates.storage plan.storage)))
      match gw.productsCreate with
      | none => (⟨500, .errorMessage⟩, s, [call1])
      | some product =>
        let cycle := (jsOrStr updates.billingCycle (some plan.billingCycle)).getD plan.billingCycle
        let call2 : StripeCall :=
          .pricesCreate product (jsOrNat updates.price plan.price * 100)
            (some (billingInterval cycle))
        match gw.pricesCreate with
        | none => (⟨500, .errorMessage⟩, s, [call1, call2])
        | some priceId =>
          let calls :=
            if plan.stripePriceId = "" then [call1, call2]
            else [call1, call2, .pricesUpdate plan.stripePriceId]
          if plan.stripePriceId ≠ "" ∧ gw.pricesUpdate = false then
            (⟨500, .errorMessage⟩, s, calls)
          else
            let updates := { updates with stripePriceId := some priceId }
            match updatePlan env 0 s (assignPlan plan updates) with
            | none => (⟨500, .errorMessage⟩, s, calls)
            | some s1 =>
              (⟨200, .planDoc { (assignPlan plan updates) with updatedAt := env.now }⟩, s1, calls)
    else
      match updatePlan env 0 s (assignPlan plan updates) with
      | none => (⟨500, .errorMessage⟩, s, [])
      | some s1 =>
        (⟨200, .planDoc { (assignPlan plan updates) with updatedAt := env.now }⟩, s1, [])

/-- The handler of `DELETE /plans/:id` (`routes/plan.routes.js`, lines
161-180), run after `auth` and `authorize('superadmin')`. -/
def deletePlan (env : Env) (s : Store) (id : IdParam) : Response × Store :=
  match castObjectId id with
  | none => (⟨500, .failure "Server error"⟩, s)
  | some id =>
  match findPlanById s id with
  | none => (⟨404, .message "Plan not found"⟩, s)
  | some plan =>
    match updatePlan env 0 s { plan with isActive := false } with
    | none => (⟨500, .failure "Server error"⟩, s)
    | some s1 => (⟨200, .message "Plan deactivated successfully"⟩, s1)

/-! ## The organization routes of the superadmin -/

/-- `User.updateMany({ organizationId }, { isActive })` as the k-th write. -/
def setMembersActive (env : Env) (k : Nat) (s : Store) (organizationId : Id) (isActive : Bool) :
    Option Store :=
  if env.writeOk k then
    some { s with users := (s.users.map
      (fun u => if u.organizationId == organizationId then { u with isActive := isActive }
        else u)) }
  else none

/-- `User.deleteMany({ organizationId })` as the k-th write. -/
def deleteMembers (env : Env) (k : Nat) (s : Store) (organizationId : Id) : Option Store :=
  if env.writeOk k then
    some { s with users := s.users.filter (fun u => !(u.organizationId == organizationId)) }
  else none

/-- `Organization.findByIdAndDelete(id)` as the k-th write. -/
def deleteOrganizationById (env : Env) (k : Nat) (s : Store) (id : Id) : Option Store :=
  if env.writeOk k then
    some { s with organizations := s.organizations.filter (fun o => !(o.id == id)) }
  else none

/-- `User.deleteOne({ _id })` as the k-th write. -/
def deleteUserById (env : Env) (k : Nat) (s : Store) (id : Id) : Option Store :=
  if env.writeOk k then
    some { s with users := s.users.filter (fun u => !(u.id == id)) }
  else none

/-- The body of `POST /organizations`; `adminEmail` and `adminPassword` are
read and not used. -/
structure OrganizationBody where
  name : String
  email : String
  planId : Option IdParam
deriving DecidableEq, Repr

/-- The handler of `POST /organizations` (`routes/organization.routes.js`,
lines 78-119), run after `auth` and `authorize('superadmin')`.  The document
carries no `activePlan`. -/
def createOrganization (env : Env) (s : Store) (b : OrganizationBody) : Response × Store :=
  if !(b.name != "" && env.isEmail b.email && b.planId.isSome) then (⟨400, .errors⟩, s)
  else if castFails b.planId then (⟨500, .failure "Server error"⟩, s)
  else match (b.planId.bind castObjectId).bind (findPlanById s), b.planId.bind castObjectId with
  | some _, some planId =>
    let organization : Organization :=
      { id := s.nextId, name := b.name, email := b.email, planId := planId,
        subscriptionStatus := some "active",
        subscriptionEndDate := env.now + 365 * 24 * 60 * 60 * 1000,
        activeUsers := 0, isActive := true,
        activePlan := { name := none, maxUsers := none, features := [], price := none,
                        billingCycle := none },
        subscriptionStartDate := env.now, stripeCustomerId := none,
        stripeSubscriptionId := none, createdAt := env.now, updatedAt := env.now }
    match insertOrganization env 0 s organization with
    | none => (⟨500, .failure "Server error"⟩, s)
    | some s1 => (⟨201, .organizationDoc organization none⟩, s1)
  | _, _ => (⟨404, .message "Plan not found"⟩, s)

/-- The handler of `DELETE /organizations/:id` (lines 156-182). -/
def deactivateOrganization (env : Env) (s : Store) (id : IdParam) : Response × Store :=
  match castObjectId id with
  | none => (⟨500, .failure "Server error"⟩, s)
  | some id =>
  match findOrganizationById s id with
  | none => (⟨404, .message "Organization not found"⟩, s)
  | some organization =>
    match updateOrganization env 0 s { organization with isActive := false } with
    | none => (⟨500, .failure "Server error"⟩, s)
    | some s1 =>
      match setMembersActive env 1 s1 organization.id false with
      | none => (⟨500, .failure "Server error"⟩, s1)
      | some s2 => (⟨200, .message "Organization deactivated successfully"⟩, s2)

/-- The handler of `POST /organizations/:id/toggle-status` (lines 202-231). -/
def toggleStatus (env : Env) (s : Store) (id : IdParam) : Response × Store :=
  match castObjectId id with
  | none => (⟨500, .failure "Server error"⟩, s)
  | some id =>
  match findOrganizationById s id with
  | none => (⟨404, .message "Organization not found"⟩, s)
  | some organization =>
    let isActive := !organization.isActive
    match updateOrganization env 0 s { organization with isActive := isActive } with
    | none => (⟨500, .failure "Server error"⟩, s)
    | some s1 =>
      match setMembersActive env 1 s1 organization.id isActive with
      | none => (⟨500, .failure "Server error"⟩, s1)
      | some s2 =>
        (⟨200, .toggled
          ("Organization " ++ (if isActive then "activated" else "deactivated") ++
            " successfully") isActive⟩, s2)

/-- The handler of `DELETE /organizations/:id/permanent` (lines 234-256). -/
def deleteOrganizationPermanently (env : Env) (s : Store) (id : IdParam) :
    Response × Store :=
  match castObjectId id with
  | none => (⟨500, .failure "Server error"⟩, s)
  | some id =>
  match findOrganizationById s id with
  | none => (⟨404, .message "Organization not found"⟩, s)
  | some organization =>
    match deleteMembers env 0 s organization.id with
    | none => (⟨500, .failure "Server error"⟩, s)
    | some s1 =>
      match deleteOrganizationById env 1 s1 id with
      | none => (⟨500, .failure "Server error"⟩, s1)
      | some s2 => (⟨200, .message "Organization permanently deleted"⟩, s2)

/-! ## Removal of users by the admin -/

/-- The handler of `DELETE /auth/users/:userId` (`routes/auth.routes.js`, lines
296-322), run after `auth` and `authorize('admin')`. -/
def deleteUser (env : Env) (s : Store) (caller : User) (userId : IdParam) : Response × Store :=
  match castObjectId userId with
  | none => (⟨500, .failure "Failed to delete user"⟩, s)
  | some userId =>
  match findUserInOrganization s userId caller.organizationId with
  | none => (⟨404, .message "User not found"⟩, s)
  | some user =>
    if user.id = caller.id then (⟨400, .message "Cannot delete your own account"⟩, s)
    else match deleteUserById env 0 s userId with
    | none => (⟨500, .failure "Failed to delete user"⟩, s)
    | some s1 => (⟨200, .message "User deleted successfully"⟩, s1)

/-- The handler of `DELETE /users/organization/:id` (`routes/user.routes.js`,
lines 136-170), run after `auth` and `authorize('admin')`. -/
def deactivateUser (env : Env) (s : Store) (caller : User) (id : IdParam) : Response × Store :=
  match castObjectId id with
  | none => (⟨500, .failure "Server error"⟩, s)
  | some id =>
  match findUserInOrganization s id caller.organizationId with
  | none => (⟨404, .message "User not found"⟩, s)
  | some user =>
    if user.id = caller.id then (⟨400, .message "Cannot deactivate yourself"⟩, s)
    else match updateUser env 0 s { user with isActive := false } with
    | none => (⟨500, .failure "Server error"⟩, s)
    | some s1 =>
      match findOrganizationById s1 caller.organizationId with
      | none => (⟨200, .message "User deactivated successfully"⟩, s1)
      | some organization =>
        match updateOrganization env 1 s1
            { organization with activeUsers := organization.activeUsers - 1 } with
        | none => (⟨500, .failure "Server error"⟩, s1)
        | some s2 => (⟨200, .message "User deactivated successfully"⟩, s2)

/-! ## The access control gate and the API as a whole -/

/-- Modelled from the spec: `middleware/auth.js` is not among the sources.
Section 4.1: `auth` resolves the bearer token to a live, active User record of
the store and rejects with 401 otherwise; `authorize(roles)` rejects with 403 a
user whose role is not in the allowed set of the route (`none`: the route has
no `authorize`).  `caller` is the User the token names. -/
def accessGate (s : Store) (caller : User) (roles : Option (List Role)) : Option Response :=
  if !(s.users.contains caller && caller.isActive) then some ⟨401, .unauthenticated⟩
  else match roles with
  | none => none
  | some allowed => if allowed.contains caller.role then none else some ⟨403, .forbidden⟩

/-- A request to one of the routes that write to the store. -/
inductive Request where
  /-- `POST /auth/register`. -/
  | register (b : RegisterBody)
  /-- `POST /auth/register-user`. -/
  | registerUser (caller : User) (b : RegisterUserBody)
  /-- `DELETE /auth/users/:userId`. -/
  | deleteUser (caller : User) (userId : IdParam)
  /-- `POST /users/organization`. -/
  | createOrganizationUser (caller : User) (b : CreateUserBody)
  /-- `PUT /users/organization/:id`. -/
  | updateOrganizationUser (caller : User) (id : IdParam) (updates : UserPatch)
  /-- `DELETE /users/organization/:id`. -/
  | deactivateUser (caller : User) (id : IdParam)
  /-- `PUT /users/profile`. -/
  | updateProfile (caller : User) (updates : UserPatch)
  /-- `POST /organizations`. -/
  | createOrganization (caller : User) (b : OrganizationBody)
  /-- `PUT /organizations/:id`. -/
  | putOrganization (caller : User) (id : IdParam) (updates : OrganizationPatch)
  /-- `DELETE /organizations/:id`. -/
  | deactivateOrganization (caller : User) (id : IdParam)
  /-- `POST /organizations/:id/toggle-status`. -/
  | toggleStatus (caller : User) (id : IdParam)
  /-- `DELETE /organizations/:id/permanent`. -/
  | deleteOrganizationPermanently (caller : User) (id : IdParam)
  /-- `POST /plans`. -/
  | createPlan (caller : User) (gw : Gateway) (b : PlanBody)
  /-- `PUT /plans/:id`. -/
  | putPlan (caller : User) (gw : Gateway) (id : IdParam) (updates : PlanPatch)
  /-- `DELETE /plans/:id`. -/
  | deletePlan (caller : User) (id : IdParam)
  /-- `POST /stripe/subscribe`. -/
  | subscribe (caller : User) (gw : Gateway) (planId : Option IdParam)
  /-- `POST /stripe/webhook`. -/
  | webhook (request : Except String StripeEvent)

/-- A handler behind the access gate of its route. -/
def guarded (s : Store) (caller : User) (roles : Option (List Role))
    (handler : Response × Store) : Response × Store :=
  match accessGate s caller roles with
  | some rejection => (rejection, s)
  | none => handler

/-- The server: the route table of `server.js` and of the five routers, for the
routes that write to the store. -/
def handle (env : Env) (s : Store) : Request → Response × Store
  | .register b => register env s b
  | .registerUser caller b => guarded s caller (some [Role.admin]) (registerUser env s caller b)
  | .deleteUser caller userId =>
    guarded s caller (some [Role.admin]) (deleteUser env s caller userId)
  | .createOrganizationUser caller b =>
    guarded s caller (some [Role.admin]) (createOrganizationUser env s caller b)
  | .updateOrganizationUser caller id updates =>
    guarded s caller (some [Role.admin]) (updateOrganizationUser env s caller id updates)
  | .deactivateUser caller id =>
    guarded s caller (some [Role.admin]) (deactivateUser env s caller id)
  | .updateProfile caller updates => guarded s caller none (updateProfile env s caller updates)
  | .createOrganization caller b =>
    guarded s caller (some [Role.superadmin]) (createOrganization env s b)
  | .putOrganization caller id updates =>
    guarded s caller (some [Role.superadmin]) (putOrganization env s id updates)
  | .deactivateOrganization caller id =>
    guarded s caller (some [Role.superadmin]) (deactivateOrganization env s id)
  | .toggleStatus caller id =>
    guarded s caller (some [Role.superadmin]) (toggleStatus env s id)
  | .deleteOrganizationPermanently caller id =>
    guarded s caller (some [Role.superadmin]) (deleteOrganizationPermanently env s id)
  | .createPlan caller gw b =>
    guarded s caller (some [Role.superadmin])
      ((createPlan env gw s b).1, (createPlan env gw s b).2.1)
  | .putPlan caller gw id updates =>
    guarded s caller (some [Role.superadmin])
      ((putPlan env gw s id updates).1, (putPlan env gw s id updates).2.1)
  | .deletePlan caller id => guarded s caller (some [Role.superadmin]) (deletePlan env s id)
  | .subscribe caller gw planId =>
    guarded s caller none
      ((subscribe env gw s caller planId).1, (subscribe env gw s caller planId).2.1)
  | .webhook request => webhook env s request

/-- The store after a sequence of requests, each served in its own
environment. -/
def run (s : Store) (trace : List (Env × Request)) : Store :=
  trace.foldl (fun st step => (handle step.1 st step.2).2) s

/-- Every Organization of the store carries one of the four statuses of the
schema enumeration. -/
def statusClosed (s : Store) : Prop :=
  ∀ o ∈ s.organizations,
    o.subscriptionStatus = some "trialing" ∨ o.subscriptionStatus = some "active" ∨
      o.subscriptionStatus = some "canceled" ∨ o.subscriptionStatus = some "expired"

/-- Every Organization of the store carries a status the validators of the
schema admit: `null` or one of the four enumerated values. -/
def statusEnumerated (s : Store) : Prop :=
  ∀ o ∈ s.organizations,
    o.subscriptionStatus = none ∨ o.subscriptionStatus = some "trialing" ∨
      o.subscriptionStatus = some "active" ∨ o.subscriptionStatus = some "canceled" ∨
      o.subscriptionStatus = some "expired"

/-- The User collection is sound: the `_id` values are distinct and below the
identifier allocator, and no two Users share an e-mail. -/
def usersSound (s : Store) : Prop :=
  (s.users.map (fun u => u.id)).Nodup ∧ (∀ u ∈ s.users, u.id < s.nextId) ∧
    (s.users.map (fun u => u.email)).Nodup

/-- Whether the billing-provider call `call` failed under the outcomes `gw`. -/
def callFailed (gw : Gateway) (call : StripeCall) : Bool :=
  match call with
  | .customersRetrieve id => (gw.customersRetrieve id).isNone
  | .customersCreate _ _ => gw.customersCreate.isNone
  | .sessionsCreate _ _ _ _ => gw.sessionsCreate.isNone
  | .productsCreate _ _ => gw.productsCreate.isNone
  | .pricesCreate _ _ _ => gw.pricesCreate.isNone
  | .pricesUpdate _ => !gw.pricesUpdate

/-- The requests that can raise the number of active role-`user` members of an
organization: the two add-user routes, the status toggle of an organization
and the update of a member by the admin. -/
def mayRaiseSeatUsage : Request → Bool
  | .registerUser _ _ => true
  | .createOrganizationUser _ _ => true
  | .toggleStatus _ _ => true
  | .updateOrganizationUser _ _ _ => true
  | _ => false

/-- No organization has more active role-`user` members in `s1` than in `s`. -/
def seatsNotRaised (s s1 : Store) : Prop :=
  ∀ organizationId, countActiveUsers s1 organizationId ≤ countActiveUsers s organizationId

/-! ## Comparing Organization documents -/

/-- The Organization document with the three fields a handler or the pre-save
hook stamps from the clock (`subscriptionStartDate`, `subscriptionEndDate`,
`updatedAt`) blanked. -/
def withoutClockFields (o : Organization) : Organization :=
  { o with subscriptionStartDate := 0, subscriptionEndDate := 0, updatedAt := 0 }

/-- The Organization document with the `updatedAt` stamp of the pre-save hook
blanked. -/
def withoutUpdatedAt (o : Organization) : Organization :=
  { o with updatedAt := 0 }

/-- The store after the webhook received the same request twice, first under
`env1` and then under `env2`. -/
def redeliver (env1 env2 : Env) (s : Store) (request : Except String StripeEvent) : Store :=
  (webhook env2 (webhook env1 s request).2 request).2

/-! ## Scenarios

Concrete stores and requests, built with the handlers themselves from a
catalog of two plans. -/

/-- The first `fuel` decimals of `num / den`, for `num < den`, up to the end
of a terminating expansion. -/
def decimals (fuel num den : Nat) : String :=
  match fuel with
  | 0 => ""
  | fuel + 1 =>
    if num = 0 then "" else toString (num * 10 / den) ++ decimals fuel (num * 10 % den) den

/-- Decimal rendering of a fraction, to 17 decimals: `3 / 2` is `1.5`. -/
def showDecimal (q : ℚ) : String :=
  (if q < 0 then "-" else "") ++ toString (q.num.natAbs / q.den) ++ "." ++
    decimals 17 (q.num.natAbs % q.den) q.den

/-- Every write that the store does not refuse succeeds. -/
def demoEnv : Env :=
  { isEmail := fun e => e.data.contains '@', hash := fun p => "#" ++ p, now := 1000,
    writeOk := fun _ => true, showFraction := showDecimal }

/-- As `demoEnv`, but the second store write of a request fails. -/
def secondWriteFails : Env := { demoEnv with writeOk := fun k => k == 0 }

/-- Plan "Basic" with one seat and price 0. -/
def basicPlan : Plan :=
  { id := 1, name := "Basic", price := 0, billingCycle := "Trial", trialDays := 14,
    features := ["core"], maxUsers := 1, storage := 1, stripePriceId := "price_basic",
    isActive := true, createdAt := 0, updatedAt := 0 }

/-- Plan "Plus" with five seats. -/
def plusPlan : Plan :=
  { id := 2, name := "Plus", price := 999, billingCycle := "Yearly", trialDays := 0,
    features := ["core", "reports"], maxUsers := 5, storage := 50,
    stripePriceId := "price_plus", isActive := true, createdAt := 0, updatedAt := 0 }

/-- The store holding the two plans only. -/
def catalogStore : Store :=
  { plans := [basicPlan, plusPlan], organizations := [], users := [], nextId := 3 }

/-- The registration of organization "Acme". -/
def acmeRegistration : RegisterBody :=
  { email := "a@acme.com", password := "secret1", organizationName := "Acme",
    firstName := "Ann", lastName := "Admin" }

/-- The store after Acme registered. -/
def acmeStore : Store := (register demoEnv catalogStore acmeRegistration).2

/-- The organization document of Acme after registration. -/
def acmeOrganization : Organization :=
  newRegisteredOrganization demoEnv catalogStore acmeRegistration basicPlan

/-- The admin of Acme. -/
def acmeAdmin : User :=
  { id := 4, email := "a@acme.com", password := "#secret1", firstName := some "Ann",
    lastName := some "Admin", role := Role.admin, organizationId := 3, isActive := true }

/-- The request adding a first member to Acme. -/
def firstSeat : RegisterUserBody :=
  { email := "b@acme.com", password := "secret2", firstName := "Bob", lastName := "Builder" }

/-- The request adding a second member to Acme. -/
def secondSeat : RegisterUserBody :=
  { email := "c@acme.com", password := "secret3", firstName := "Cy", lastName := "Clerk" }

/-- The request adding a third member to Acme. -/
def thirdSeat : RegisterUserBody :=
  { email := "d@acme.com", password := "secret4", firstName := "Di", lastName := "Dev" }

/-- Acme on the Basic plan with its single seat taken. -/
def acmeFull : Store := (registerUser demoEnv acmeStore acmeAdmin firstSeat).2

/-- Acme after the checkout of the Plus plan completed. -/
def acmeOnPlus : Store :=
  (webhook demoEnv acmeStore
    (.ok (.checkoutCompleted (some (.objectId 3)) (some (.objectId 2)) (some "sub_acme")))).2

/-- Acme on Plus with two members added. -/
def acmeTwoSeats : Store :=
  (registerUser demoEnv (registerUser demoEnv acmeOnPlus acmeAdmin firstSeat).2
    acmeAdmin secondSeat).2

/-- Acme after the provider moved the subscription to the price of Basic while
two members are active. -/
def acmeDowngraded : Store :=
  (webhook demoEnv acmeTwoSeats
    (.ok (.subscriptionUpdated "sub_acme" "active" ["price_basic"] 5000))).2

/-- The body `{ activePlan: { maxUsers: 0 } }` of a superadmin patch. -/
def zeroSeatPatch : OrganizationPatch :=
  { name := none, email := none, planId := none,
    activePlan := some { name := none, maxUsers := some 0, features := [], price := none,
                         billingCycle := none, storage := none },
    subscriptionStatus := none, subscriptionStartDate := none, subscriptionEndDate := none,
    stripeCustomerId := none, stripeSubscriptionId := none, activeUsers := none,
    isActive := none, createdAt := none }

/-- Acme after the superadmin sent `PUT /organizations/3` with `zeroSeatPatch`. -/
def acmeZeroSnapshot : Store := (putOrganization demoEnv acmeStore (.objectId 3) zeroSeatPatch).2

/-- The number 1.5 (`oneAndAHalf_eq`). -/
def oneAndAHalf : ℚ := ⟨3, 2, by decide, by decide⟩

/-- The body `{ activePlan: { maxUsers: 1.5 } }` of a superadmin patch. -/
def fractionalSeatPatch : OrganizationPatch :=
  { name := none, email := none, planId := none,
    activePlan := some { name := none, maxUsers := some oneAndAHalf, features := [],
                         price := none, billingCycle := none, storage := none },
    subscriptionStatus := none, subscriptionStartDate := none, subscriptionEndDate := none,
    stripeCustomerId := none, stripeSubscriptionId := none, activeUsers := none,
    isActive := none, createdAt := none }

/-- Acme with one active member, after the superadmin sent `PUT /organizations/3`
with `fractionalSeatPatch`. -/
def acmeFractionalSnapshot : Store :=
  (putOrganization demoEnv acmeFull (.objectId 3) fractionalSeatPatch).2

/-- The store `s` with the `storage` of every plan of the catalog set to `n`. -/
def withPlanStorage (s : Store) (n : Nat) : Store :=
  { s with plans := s.plans.map (fun p => { p with storage := n }) }

/-- Acme on Plus after the provider reported the subscription `canceled`. -/
def acmeExpired : Store :=
  (webhook demoEnv acmeOnPlus
    (.ok (.subscriptionUpdated "sub_acme" "canceled" ["price_plus"] 5000))).2

/-- Acme on Plus after the provider deleted the subscription. -/
def acmeReverted : Store :=
  (webhook demoEnv acmeOnPlus (.ok (.subscriptionDeleted "sub_acme"))).2

/-- Acme with its Basic seat taken, after the live Basic plan was raised to
three seats (the snapshot still says one). -/
def acmeRaisedCatalog : Store :=
  { acmeFull with plans := [{ basicPlan with maxUsers := 3 }, plusPlan] }

/-- A store without any plan. -/
def emptyStore : Store := { plans := [], organizations := [], users := [], nextId := 1 }

/-- The body of `POST /users/organization` adding a first member. -/
def firstMember : CreateUserBody := { email := "b@acme.com", password := "secret2" }

/-- The body of `POST /users/organization` adding a second member. -/
def secondMember : CreateUserBody := { email := "c@acme.com", password := "secret3" }

/-- The member of Acme created by `firstSeat`. -/
def acmeMember : User :=
  { id := 5, email := "b@acme.com", password := "#secret2", firstName := some "Bob",
    lastName := some "Builder", role := Role.user, organizationId := 3, isActive := true }

/-- An update body that sets the e-mail to the one of Acme's admin. -/
def takeAdminEmail : UserPatch :=
  { email := some "a@acme.com", password := none, firstName := none, lastName := none,
    role := none, organizationId := none, isActive := none }

/-- As `demoEnv`, one second later. -/
def laterEnv : Env := { demoEnv with now := 2000 }

/-- The checkout event of Acme for the Plus plan. -/
def acmeCheckout : Except String StripeEvent :=
  .ok (.checkoutCompleted (some (.objectId 3)) (some (.objectId 2)) (some "sub_acme"))

/-- The provider reports Acme's subscription as `active` on the price of Plus. -/
def acmeRenewal : Except String StripeEvent :=
  .ok (.subscriptionUpdated "sub_acme" "active" ["price_plus"] 9000)

/-- The provider reports Acme's subscription as `past_due`. -/
def acmePastDue : Except String StripeEvent :=
  .ok (.subscriptionUpdated "sub_acme" "past_due" ["price_plus"] 9000)

/-- The provider reports Acme's subscription as `canceled`. -/
def acmeCanceled : Except String StripeEvent :=
  .ok (.subscriptionUpdated "sub_acme" "canceled" ["price_plus"] 9000)

/-- The provider deleted Acme's subscription. -/
def acmeDeletion : Except String StripeEvent := .ok (.subscriptionDeleted "sub_acme")

/-- A gateway whose every call succeeds. -/
def okGateway : Gateway :=
  { customersRetrieve := fun id => some id, customersCreate := some "cus_acme",
    sessionsCreate := some "cs_1", productsCreate := some "prod_1",
    pricesCreate := some "price_new", pricesUpdate := true }

/-- A gateway that creates the customer and then fails to create the checkout
session. -/
def sessionFails : Gateway := { okGateway with sessionsCreate := none }

/-- A gateway whose product creation fails. -/
def productFails : Gateway := { okGateway with productsCreate := none }

/-- A gateway whose price creation fails. -/
def priceFails : Gateway := { okGateway with pricesCreate := none }

/-- The body of `POST /plans` creating the plan "Standard". -/
def standardPlanBody : PlanBody :=
  { name := "Standard", price := 499, features := some ["core"], maxUsers := 3,
    storage := some 10, billingCycle := some "Monthly", trialDays := none }

/-- The body `{ price: 1299 }` of `PUT /plans/:id`. -/
def raisePrice : PlanPatch :=
  { name := none, price := some 1299, billingCycle := none, trialDays := none,
    features := none, maxUsers := none, storage := none, stripePriceId := none,
    isActive := none }

/-- The registration of a second organization, "Bolt". -/
def boltRegistration : RegisterBody :=
  { email := "z@bolt.io", password := "secret9", organizationName := "Bolt",
    firstName := "Zed", lastName := "Owner" }

/-- Acme with two members next to the freshly registered Bolt. -/
def twoOrganizations : Store := (register demoEnv acmeTwoSeats boltRegistration).2

/-- The platform operator. -/
def operator : User :=
  { id := 0, email := "root@platform.io", password := "#root", firstName := none,
    lastName := none, role := Role.superadmin, organizationId := 0, isActive := true }

/-- The two-plan catalog with the platform operator as its only user. -/
def platformStore : Store := { catalogStore with users := [operator] }

/-- Acme registers and adds a member; then the admin and the member each try to
take the admin's e-mail for the member. -/
def emailTrace : List (Env × Request) :=
  [(demoEnv, .register acmeRegistration), (demoEnv, .registerUser acmeAdmin firstSeat),
   (demoEnv, .updateOrganizationUser acmeAdmin (.objectId 5) takeAdminEmail),
   (demoEnv, .updateProfile acmeMember takeAdminEmail)]

/-- The body `{ subscriptionStatus: 'paused' }` of a superadmin patch. -/
def pausedPatch : OrganizationPatch :=
  { name := none, email := none, planId := none, activePlan := none,
    subscriptionStatus := some (some "paused"), subscriptionStartDate := none,
    subscriptionEndDate := none, stripeCustomerId := none, stripeSubscriptionId := none,
    activeUsers := none, isActive := none, createdAt := none }

/-- Acme registers and checks out Plus; then the provider reports `past_due`
and the operator patches the status to `paused`. -/
def statusTrace : List (Env × Request) :=
  [(demoEnv, .register acmeRegistration), (demoEnv, .webhook acmeCheckout),
   (laterEnv, .webhook acmePastDue),
   (laterEnv, .putOrganization operator (.objectId 3) pausedPatch)]

/-- The body `{ subscriptionStatus: null }` of a superadmin patch. -/
def nullStatusPatch : OrganizationPatch :=
  { name := none, email := none, planId := none, activePlan := none,
    subscriptionStatus := some none, subscriptionStartDate := none,
    subscriptionEndDate := none, stripeCustomerId := none, stripeSubscriptionId := none,
    activeUsers := none, isActive := none, createdAt := none }

/-- The trace `statusTrace`, after which the operator patches the status to
`null`. -/
def nullStatusTrace : List (Env × Request) :=
  statusTrace ++ [(laterEnv, .putOrganization operator (.objectId 3) nullStatusPatch)]

/-- Acme on Basic after the admin deactivated its only member. -/
def acmeMemberRemoved : Store := (deactivateUser demoEnv acmeFull acmeAdmin (.objectId 5)).2

/-- Acme on Basic after the admin deactivated the first member and added a
second one: the single seat is taken again. -/
def acmeSeatReused : Store :=
  (registerUser demoEnv acmeMemberRemoved acmeAdmin secondSeat).2

/-- Acme, as in `acmeSeatReused`, after the operator deactivated the
organization. -/
def acmeSuspended : Store := (toggleStatus demoEnv acmeSeatReused (.objectId 3)).2

/-- An update body that sets `isActive` to `true`. -/
def reactivatePatch : UserPatch :=
  { email := none, password := none, firstName := none, lastName := none,
    role := none, organizationId := none, isActive := some true }

/-- An update body that moves the User to the organization with id 5. -/
def moveToSecond : UserPatch :=
  { email := none, password := none, firstName := none, lastName := none,
    role := none, organizationId := some 5, isActive := none }

/-- Acme and Bolt register against the two-plan catalog: organizations 3 and
5 with the admins 4 and 6. -/
def twoRegistrations : List (Env × Request) :=
  [(demoEnv, .register acmeRegistration), (demoEnv, .register boltRegistration)]

/-- After the two registrations Acme's admin sends `PUT /users/organization/4`
with `{ organizationId: 5 }`. -/
def adminMoveTrace : List (Env × Request) :=
  twoRegistrations ++ [(demoEnv, .updateOrganizationUser acmeAdmin (.objectId 4) moveToSecond)]

/-- The body `{ planId: 2 }` of a superadmin patch. -/
def planChangePatch : OrganizationPatch :=
  { name := none, email := none, planId := some (.objectId 2), activePlan := none,
    subscriptionStatus := none, subscriptionStartDate := none, subscriptionEndDate := none,
    stripeCustomerId := none, stripeSubscriptionId := none, activeUsers := none,
    isActive := none, createdAt := none }

/-- The body `{ price: 0 }` of `PUT /plans/:id`. -/
def freePrice : PlanPatch :=
  { name := none, price := some 0, billingCycle := none, trialDays := none,
    features := none, maxUsers := none, storage := none, stripePriceId := none,
    isActive := none }

/-! ## Lemmas on the store -/

theorem castFails_of_resolved {α : Type} {id : Option IdParam} {f : Id → Option α} {a : α}
    (h : (id.bind castObjectId).bind f = some a) : castFails id = false := by
  cases id with
  | none => rfl
  | some p =>
    cases p with
    | objectId i => rfl
    | malformed r => simp [castObjectId] at h

theorem findOrganizationById_id {s : Store} {id : Id} {o : Organization}
    (h : findOrganizationById s id = some o) : o.id = id := by
  have := List.find?_some h
  simpa using this

theorem find_replace_organization (l : List Organization) (id : Id) (n : Organization)
    (h : ∃ x ∈ l, x.id = id) (hn : n.id = id) :
    (l.map (fun x => if x.id == id then n else x)).find? (fun x => x.id == id) = some n := by
  induction l with
  | nil => simp at h
  | cons a t ih =>
    rw [List.map_cons, List.find?_cons]
    by_cases ha : a.id = id
    · have hb : (a.id == id) = true := by simpa using ha
      simp only [hb, if_true]
      have hn2 : (n.id == id) = true := by simpa using hn
      simp only [hn2]
    · have hb : (a.id == id) = false := by simpa using ha
      simp only [hb, Bool.false_eq_true, if_false]
      apply ih
      obtain ⟨x, hx, hxid⟩ := h
      rcases List.mem_cons.mp hx with rfl | hx
      · exact absurd hxid ha
      · exact ⟨x, hx, hxid⟩

theorem findOrganizationById_mem {s : Store} {id : Id} {o : Organization}
    (h : findOrganizationById s id = some o) : o ∈ s.organizations :=
  List.mem_of_find?_eq_some h

theorem insertOrganization_eq {env : Env} {k : Nat} {s s1 : Store} {o : Organization}
    (h : insertOrganization env k s o = some s1) :
    s1 = { s with organizations := s.organizations ++ [{ o with updatedAt := env.now }],
                  nextId := s.nextId + 1 } := by
  unfold insertOrganization at h
  split at h
  · simpa using h.symm
  · simp at h

theorem findOrganizationById_updateOrganization {env : Env} {k : Nat} {s s1 : Store}
    {o n : Organization} (hm : o ∈ s.organizations)
    (hu : updateOrganization env k s n = some s1) (hid : n.id = o.id) :
    findOrganizationById s1 o.id = some { n with updatedAt := env.now } := by
  unfold updateOrganization at hu
  split at hu
  · have h1 : s1 = { s with organizations := (s.organizations.map
        (fun x => if x.id == o.id then { n with updatedAt := env.now } else x)) } := by
      rw [← hid]; simpa using hu.symm
    rw [h1]
    exact find_replace_organization s.organizations o.id { n with updatedAt := env.now }
      ⟨o, hm, rfl⟩ hid
  · simp at hu

theorem emailFree_of_unused {s : Store} {u : User}
    (h : findUserByEmail s u.email = none) : emailFree s u = true := by
  unfold findUserByEmail at h
  rw [List.find?_eq_none] at h
  unfold emailFree
  simp only [Bool.or_eq_true, List.all_eq_true]
  intro v hv
  right
  have := h v hv
  simp at this
  simp [this]

theorem insertUser_eq {env : Env} {k : Nat} {s s1 : Store} {u : User}
    (h : insertUser env k s u = some s1) :
    s1 = { s with users := s.users ++ [u], nextId := s.nextId + 1 } := by
  unfold insertUser at h
  split at h
  · simpa using h.symm
  · simp at h

theorem updateOrganization_eq {env : Env} {k : Nat} {s s1 : Store} {o : Organization}
    (h : updateOrganization env k s o = some s1) :
    s1 = { s with organizations := (s.organizations.map
      (fun x => if x.id == o.id then { o with updatedAt := env.now } else x)) } := by
  unfold updateOrganization at h
  split at h
  · simpa using h.symm
  · simp at h

theorem validRegister_name {env : Env} {b : RegisterBody} (hv : validRegister env b = true) :
    b.organizationName ≠ "" := by
  unfold validRegister at hv
  simp only [Bool.and_eq_true, bne_iff_ne, ne_eq] at hv
  exact hv.1.1.2

theorem insertOrganization_ok {env : Env} {k : Nat} {s : Store} {o : Organization}
    (hw : env.writeOk k = true) (hvalid : validOrganization o = true) :
    insertOrganization env k s o =
      some { s with organizations := s.organizations ++ [{ o with updatedAt := env.now }],
                    nextId := s.nextId + 1 } := by
  simp [insertOrganization, hw, hvalid]

theorem insertUser_ok {env : Env} {k : Nat} {s : Store} {u : User}
    (hw : env.writeOk k = true) (he : findUserByEmail s u.email = none) :
    insertUser env k s u =
      some { s with users := s.users ++ [u], nextId := s.nextId + 1 } := by
  simp [insertUser, hw, emailFree_of_unused he]

theorem findUserByEmail_of_mem {s : Store} {e : String} (h : ∃ u ∈ s.users, u.email = e) :
    ∃ v, findUserByEmail s e = some v := by
  obtain ⟨u, hu, hue⟩ := h
  have : (s.users.find? (fun u => u.email == e)).isSome = true := by
    rw [List.find?_isSome]
    exact ⟨u, hu, by simpa using hue⟩
  exact Option.isSome_iff_exists.mp this

theorem updateOrganization_ok {env : Env} {k : Nat} {s : Store} {o : Organization}
    (hw : env.writeOk k = true) (hvalid : validOrganization o = true) :
    updateOrganization env k s o =
      some { s with organizations := (s.organizations.map
        (fun x => if x.id == o.id then { o with updatedAt := env.now } else x)) } := by
  simp [updateOrganization, hw, hvalid]

/-! ## Seat entitlement -/

theorem oneAndAHalf_eq : oneAndAHalf = 3 / 2 := by
  unfold oneAndAHalf
  rw [Rat.mk'_eq_divInt, Rat.divInt_eq_div]
  norm_num

theorem jsGe_iff (a : Nat) (b : Option ℚ) :
    jsGe a b = true ↔ ∃ m, b = some m ∧ m ≤ (a : ℚ) := by
  cases b with
  | none => simp [jsGe]
  | some m => simp [jsGe]

theorem gate_passes {o : Organization}
    (hg : o.subscriptionStatus = some "active" ∨ o.subscriptionStatus = some "trialing") :
    (o.subscriptionStatus != some "active" && o.subscriptionStatus != some "trialing") = false := by
  rcases hg with h | h <;> simp [h]

/-- C2 (amended): for an organization whose subscription gate passes and an
unused e-mail, `POST /auth/register-user` answers the capacity denial (400 with
`currentUsers`, `maxUsers`, `planName`; store unchanged) exactly when the
ceiling is a number and `current >= max`, where `current` counts the active
role-`user` members and `max` is `activePlan.maxUsers` when that is a non-zero
number and the live plan's `maxUsers` when it is absent or `0`. -/
theorem registerUser_capacity_decision (env : Env) (s : Store) (caller : User)
    (b : RegisterUserBody) (o : Organization)
    (hv : validRegisterUser env b = true)
    (he : findUserByEmail s b.email = none)
    (ho : findOrganizationById s caller.organizationId = some o)
    (hg : o.subscriptionStatus = some "active" ∨ o.subscriptionStatus = some "trialing") :
    (registerUser env s caller b =
        (⟨400, .limitReached (limitMessage env (countActiveUsers s o.id) (seatCeiling s o))
          (countActiveUsers s o.id) (seatCeiling s o) (seatPlanName s o)⟩, s)
      ↔ ∃ m, seatCeiling s o = some m ∧ m ≤ (countActiveUsers s o.id : ℚ)) ∧
    (∀ m, m ≠ 0 → o.activePlan.maxUsers = some m → seatCeiling s o = some m) ∧
    (o.activePlan.maxUsers = none ∨ o.activePlan.maxUsers = some 0 →
      seatCeiling s o = (findPlanById s o.planId).map (fun p => p.maxUsers)) := by
  refine ⟨?_, ?_, ?_⟩
  · rw [← jsGe_iff]
    unfold registerUser
    simp only [hv, he, ho, gate_passes hg, Bool.not_true, Bool.false_eq_true, if_false]
    by_cases hge : jsGe (countActiveUsers s o.id) (seatCeiling s o) = true
    · simp [hge]
    · simp only [hge, if_false, iff_false]
      cases hi : insertUser env 0 s _ with
      | none => simp
      | some s1 =>
        simp only
        cases hu : updateOrganization env 1 s1 _ with
        | none => simp
        | some s2 => simp
  · intro m hne hm
    simp [seatCeiling, hm, jsOrNum, hne]
  · intro h
    rcases h with h | h <;> simp [seatCeiling, h, jsOrNum]

theorem countActiveUsers_append (s : Store) (u : User) (id : Id) (k : Nat) :
    countActiveUsers { s with users := s.users ++ [u], nextId := k } id =
      countActiveUsers s id +
        (if (u.organizationId == id && u.isActive && u.role == Role.user) = true then 1 else 0) := by
  simp [countActiveUsers, List.countP_append, List.countP_cons]

/-- C1 (amended): when the organization's `activePlan.maxUsers` is a non-zero
integer and the number of active role-`user` members is at most it before a
single `POST /auth/register-user` call, it is at most it immediately after the
call. -/
theorem registerUser_keeps_ceiling (env : Env) (s : Store) (caller : User)
    (b : RegisterUserBody) (o : Organization) (m : ℤ)
    (ho : findOrganizationById s caller.organizationId = some o)
    (hm : o.activePlan.maxUsers = some (m : ℚ)) (hne : m ≠ 0)
    (hle : (countActiveUsers s caller.organizationId : ℤ) ≤ m) :
    ∃ o', findOrganizationById (registerUser env s caller b).2 caller.organizationId = some o' ∧
      o'.activePlan.maxUsers = some (m : ℚ) ∧
      (countActiveUsers (registerUser env s caller b).2 caller.organizationId : ℤ) ≤ m := by
  have hid := findOrganizationById_id ho
  have hne' : (m : ℚ) ≠ 0 := by exact_mod_cast hne
  have hceil : seatCeiling s o = some (m : ℚ) := by
    simp [seatCeiling, hm, jsOrNum, hne']
  unfold registerUser
  split
  · exact ⟨o, ho, hm, hle⟩
  · split
    · exact ⟨o, ho, hm, hle⟩
    · simp only [ho]
      split
      · exact ⟨o, ho, hm, hle⟩
      · simp only [hceil]
        split
        · exact ⟨o, ho, hm, hle⟩
        · rename_i hge
          have hlt : (countActiveUsers s caller.organizationId : ℤ) < m := by
            rw [hid] at hge
            have hq : ¬ ((m : ℚ) ≤ (countActiveUsers s caller.organizationId : ℚ)) := by
              simpa [jsGe] using hge
            have hq' : ((countActiveUsers s caller.organizationId : ℤ) : ℚ) < (m : ℚ) := by
              push_cast
              exact lt_of_not_le hq
            exact_mod_cast hq'
          split
          · exact ⟨o, ho, hm, hle⟩
          · rename_i s1 hi
            have h1 := insertUser_eq hi
            have hcount : (countActiveUsers s1 caller.organizationId : ℤ) ≤ m := by
              rw [h1, countActiveUsers_append]
              simp
              omega
            have ho1 : findOrganizationById s1 caller.organizationId = some o := by
              rw [h1]; exact ho
            split
            · exact ⟨o, ho1, hm, hcount⟩
            · rename_i s2 hu
              have h2 := updateOrganization_eq hu
              have hf := findOrganizationById_updateOrganization
                (findOrganizationById_mem ho1) hu rfl
              refine ⟨{ o with activeUsers := (countActiveUsers s o.id : Int) + 1,
                                updatedAt := env.now }, ?_, hm, ?_⟩
              · rw [← hid]; exact hf
              · rw [h2]; exact hcount

/-- C1, witness: the amended invariant at Acme's first added member. -/
theorem registerUser_keeps_ceiling_witness :
    ∃ o, findOrganizationById (registerUser demoEnv acmeStore acmeAdmin firstSeat).2
        acmeAdmin.organizationId = some o ∧
      o.activePlan.maxUsers = some ((1 : ℤ) : ℚ) ∧
      (countActiveUsers (registerUser demoEnv acmeStore acmeAdmin firstSeat).2
        acmeAdmin.organizationId : ℤ) ≤ 1 :=
  registerUser_keeps_ceiling demoEnv acmeStore acmeAdmin firstSeat acmeOrganization 1
    (by decide) (by decide) (by decide) (by decide)

/-- C1, counterexample: Acme holds two active members on Plus when the
provider moves it to Basic (one seat); the next `POST /auth/register-user` is
denied, and immediately after the call the organization has two active
role-`user` members against `activePlan.maxUsers = 1`.  With a snapshot ceiling
of 0 and no member the call admits a first member (0 < 1); with a snapshot
ceiling of 1.5 and one member the call admits a second one (1 >= 1.5 is false),
leaving 2 members against 1.5. -/
theorem registerUser_above_ceiling_counterexample :
    ((registerUser demoEnv acmeDowngraded acmeAdmin thirdSeat).1.status = 400 ∧
      (findOrganizationById (registerUser demoEnv acmeDowngraded acmeAdmin thirdSeat).2 3).map
          (fun o => o.activePlan.maxUsers) = some (some 1) ∧
      countActiveUsers (registerUser demoEnv acmeDowngraded acmeAdmin thirdSeat).2 3 = 2 ∧
      ¬ ((2 : ℚ) ≤ 1)) ∧
    ((findOrganizationById acmeZeroSnapshot 3).map (fun o => o.activePlan.maxUsers) =
        some (some 0) ∧
      countActiveUsers acmeZeroSnapshot 3 = 0 ∧
      (registerUser demoEnv acmeZeroSnapshot acmeAdmin firstSeat).1.status = 201 ∧
      (findOrganizationById (registerUser demoEnv acmeZeroSnapshot acmeAdmin firstSeat).2 3).map
          (fun o => o.activePlan.maxUsers) = some (some 0) ∧
      countActiveUsers (registerUser demoEnv acmeZeroSnapshot acmeAdmin firstSeat).2 3 = 1 ∧
      ¬ ((1 : ℚ) ≤ 0)) ∧
    (oneAndAHalf = 3 / 2 ∧
      (findOrganizationById acmeFractionalSnapshot 3).map (fun o => o.activePlan.maxUsers) =
        some (some oneAndAHalf) ∧
      countActiveUsers acmeFractionalSnapshot 3 = 1 ∧ (1 : ℚ) ≤ oneAndAHalf ∧
      (registerUser demoEnv acmeFractionalSnapshot acmeAdmin secondSeat).1.status = 201 ∧
      (findOrganizationById
        (registerUser demoEnv acmeFractionalSnapshot acmeAdmin secondSeat).2 3).map
          (fun o => o.activePlan.maxUsers) = some (some oneAndAHalf) ∧
      countActiveUsers (registerUser demoEnv acmeFractionalSnapshot acmeAdmin secondSeat).2 3
        = 2 ∧
      ¬ ((2 : ℚ) ≤ oneAndAHalf)) :=
  ⟨by decide, by decide, oneAndAHalf_eq, by decide⟩

/-- C2, witness: on Basic with one seat the first added member is admitted
and the next request is denied with `current = 1`, `max = 1`. -/
theorem registerUser_capacity_decision_witness :
    (registerUser demoEnv acmeStore acmeAdmin firstSeat).1.status = 201 ∧
    registerUser demoEnv acmeFull acmeAdmin secondSeat =
      (⟨400, .limitReached "User limit reached (1/1). Please upgrade your plan to add more users."
        1 (some 1) (some "Basic")⟩, acmeFull) :=
  ⟨by decide, (registerUser_capacity_decision demoEnv acmeFull acmeAdmin secondSeat
      { acmeOrganization with activeUsers := 1 }
      (by decide) (by decide) (by decide) (by decide)).1.mpr ⟨1, by decide, by decide⟩⟩

/-- C2, counterexample: the snapshot is present with `maxUsers = 0`, no
role-`user` member is active (`current = 0 >= 0 = activePlan.maxUsers`), the
gate passes and the e-mail is unused, yet the request is admitted with the
live plan's ceiling 1 and a User is created. -/
theorem registerUser_zero_snapshot_counterexample :
    validRegisterUser demoEnv firstSeat = true ∧
    findUserByEmail acmeZeroSnapshot firstSeat.email = none ∧
    (findOrganizationById acmeZeroSnapshot acmeAdmin.organizationId).map
        (fun o => (o.subscriptionStatus, o.activePlan.maxUsers)) =
      some (some "trialing", some 0) ∧
    countActiveUsers acmeZeroSnapshot 3 = 0 ∧
    (registerUser demoEnv acmeZeroSnapshot acmeAdmin firstSeat).1.status = 201 ∧
    (registerUser demoEnv acmeZeroSnapshot acmeAdmin firstSeat).2.users.length =
      acmeZeroSnapshot.users.length + 1 := by
  decide

/-- C3, failing inputs: on Basic (one seat) with only the admin active,
`POST /auth/register-user` admits and `POST /users/organization` denies (it
counts the admin); with the seat taken and the live Basic plan raised to three
seats, `POST /auth/register-user` denies by the snapshot and
`POST /users/organization` admits by the live plan. -/
theorem createOrganizationUser_differs_from_registerUser :
    ((registerUser demoEnv acmeStore acmeAdmin firstSeat).1.status = 201 ∧
      (createOrganizationUser demoEnv acmeStore acmeAdmin firstMember).1 =
        ⟨400, .message "User limit reached for your plan"⟩) ∧
    ((registerUser demoEnv acmeRaisedCatalog acmeAdmin secondSeat).1 =
        ⟨400, .limitReached (limitMessage demoEnv 1 (some 1)) 1 (some 1) (some "Basic")⟩ ∧
      (createOrganizationUser demoEnv acmeRaisedCatalog acmeAdmin secondMember).1.status = 201 ∧
      countActiveUsers
        (createOrganizationUser demoEnv acmeRaisedCatalog acmeAdmin secondMember).2 3 = 2 ∧
      (findOrganizationById
        (createOrganizationUser demoEnv acmeRaisedCatalog acmeAdmin secondMember).2 3).map
          (fun o => o.activePlan.maxUsers) = some (some 1)) := by
  decide

/-- C4, failing input: Acme is `expired` with five free seats;
`POST /auth/register-user` rejects the request, `POST /users/organization`
answers 201 and creates the User. -/
theorem createOrganizationUser_ignores_subscription_gate :
    (findOrganizationById acmeExpired 3).map (fun o => o.subscriptionStatus) = some "expired" ∧
    registerUser demoEnv acmeExpired acmeAdmin firstSeat =
      (⟨400, .message "Cannot add users: Organization subscription is not active"⟩,
        acmeExpired) ∧
    (createOrganizationUser demoEnv acmeExpired acmeAdmin firstMember).1.status = 201 ∧
    (createOrganizationUser demoEnv acmeExpired acmeAdmin firstMember).2.users.length =
      acmeExpired.users.length + 1 := by
  decide

/-! ## Self-registration -/

/-- C5: for a valid request with an unused e-mail, when a plan named "Basic"
exists and the two store writes succeed, the store gains exactly one
Organization (planId = Basic, status `trialing`, end date now + 14 days,
active) and exactly one User, an admin of that organization; when no Basic
plan exists the answer is 500 and the store is unchanged. -/
theorem register_postcondition (env : Env) (s : Store) (b : RegisterBody)
    (hv : validRegister env b = true) (hne : b.email ≠ "")
    (he : findUserByEmail s b.email = none) :
    (∀ basic, findPlanByName s "Basic" = some basic →
        env.writeOk 0 = true → env.writeOk 1 = true →
        ∃ o u, register env s b =
            (⟨201, .registered u o⟩,
              { s with organizations := s.organizations ++ [o], users := s.users ++ [u],
                       nextId := s.nextId + 2 }) ∧
          o.planId = basic.id ∧ o.subscriptionStatus = some "trialing" ∧
          o.subscriptionEndDate = env.now + 14 * 24 * 60 * 60 * 1000 ∧ o.isActive = true ∧
          u.role = Role.admin ∧ u.organizationId = o.id ∧ u.email = b.email ∧
          u.isActive = true) ∧
    (findPlanByName s "Basic" = none →
        register env s b = (⟨500, .message "Basic plan not found"⟩, s)) := by
  constructor
  · intro basic hb hw0 hw1
    have hvalid : validOrganization (newRegisteredOrganization env s b basic) = true := by
      simp [validOrganization, newRegisteredOrganization, validRegister_name hv, hne]
    refine ⟨newRegisteredOrganization env s b basic,
      { id := s.nextId + 1, email := b.email, password := env.hash b.password,
        firstName := some b.firstName, lastName := some b.lastName,
        role := Role.admin, organizationId := s.nextId, isActive := true },
      ?_, rfl, rfl, rfl, rfl, rfl, rfl, rfl, rfl⟩
    unfold register
    simp only [hv, he, hb, Bool.not_true, Bool.false_eq_true, if_false,
      insertOrganization_ok hw0 hvalid]
    rw [insertUser_ok hw1 (by exact he)]
    rfl
  · intro hb
    unfold register
    simp only [hv, he, hb, Bool.not_true, Bool.false_eq_true, if_false]

/-- C5, witness: Acme registers against the two-plan catalog; the same request
against a store without a Basic plan. -/
theorem register_postcondition_witness :
    (∃ o u, register demoEnv catalogStore acmeRegistration =
        (⟨201, .registered u o⟩,
          { catalogStore with organizations := catalogStore.organizations ++ [o],
                              users := catalogStore.users ++ [u],
                              nextId := catalogStore.nextId + 2 }) ∧
      o.planId = basicPlan.id ∧ o.subscriptionStatus = some "trialing" ∧
      o.subscriptionEndDate = demoEnv.now + 14 * 24 * 60 * 60 * 1000 ∧ o.isActive = true ∧
      u.role = Role.admin ∧ u.organizationId = o.id ∧ u.email = acmeRegistration.email ∧
      u.isActive = true) ∧
    register demoEnv emptyStore acmeRegistration =
      (⟨500, .message "Basic plan not found"⟩, emptyStore) :=
  ⟨(register_postcondition demoEnv catalogStore acmeRegistration
      (by decide) (by decide) (by decide)).1 basicPlan (by decide) rfl rfl,
   (register_postcondition demoEnv emptyStore acmeRegistration
      (by decide) (by decide) (by decide)).2 (by decide)⟩

/-- C7: when the store holds a User with e-mail `e`, `POST /auth/register` and
`POST /auth/register-user` with e-mail `e` answer 400 and leave the store
unchanged; for a request that passes the validation chain the body is the
message "User already exists". -/
theorem duplicate_email_rejected (env : Env) (s : Store) (e : String)
    (hdup : ∃ u ∈ s.users, u.email = e) :
    (∀ b : RegisterBody, b.email = e →
      (register env s b).1.status = 400 ∧ (register env s b).2 = s ∧
      (validRegister env b = true →
        (register env s b).1.body = .message "User already exists")) ∧
    (∀ (caller : User) (b : RegisterUserBody), b.email = e →
      (registerUser env s caller b).1.status = 400 ∧ (registerUser env s caller b).2 = s ∧
      (validRegisterUser env b = true →
        (registerUser env s caller b).1.body = .message "User already exists")) := by
  obtain ⟨v, hv⟩ := findUserByEmail_of_mem hdup
  constructor
  · intro b hb
    subst hb
    unfold register
    cases hval : validRegister env b <;> simp [hv]
  · intro caller b hb
    subst hb
    unfold registerUser
    cases hval : validRegisterUser env b <;> simp [hv]

/-- C7, witness: Acme's admin e-mail is taken; registering it again and adding
it as a member are both answered 400 "User already exists" and change
nothing. -/
theorem duplicate_email_rejected_witness :
    ((register demoEnv acmeStore acmeRegistration).1.status = 400 ∧
      (register demoEnv acmeStore acmeRegistration).2 = acmeStore ∧
      (register demoEnv acmeStore acmeRegistration).1.body =
        .message "User already exists") ∧
    ((registerUser demoEnv acmeStore acmeAdmin { firstSeat with email := "a@acme.com" }).1.status
        = 400 ∧
      (registerUser demoEnv acmeStore acmeAdmin { firstSeat with email := "a@acme.com" }).2
        = acmeStore ∧
      (registerUser demoEnv acmeStore acmeAdmin { firstSeat with email := "a@acme.com" }).1.body
        = .message "User already exists") :=
  have h := duplicate_email_rejected demoEnv acmeStore "a@acme.com"
    ⟨acmeAdmin, by decide, rfl⟩
  have h1 := h.1 acmeRegistration rfl
  have h2 := h.2 acmeAdmin { firstSeat with email := "a@acme.com" } rfl
  ⟨⟨h1.1, h1.2.1, h1.2.2 (by decide)⟩, ⟨h2.1, h2.2.1, h2.2.2 (by decide)⟩⟩

/-- C9 (amended): `POST /auth/register` has three outcomes: success with the
Organization and its admin User both persisted; a failure that leaves the
store unchanged; or, when the Organization write succeeded and the User write
failed, a 500 answer with the Organization persisted and no User. -/
theorem register_write_outcomes (env : Env) (s : Store) (b : RegisterBody) :
    ((register env s b).1.status = 201 ∧
      ∃ o u, (register env s b).2 =
          { s with organizations := s.organizations ++ [o], users := s.users ++ [u],
                   nextId := s.nextId + 2 } ∧
        u.role = Role.admin ∧ u.organizationId = o.id) ∨
    ((register env s b).1.status ≠ 201 ∧ (register env s b).2 = s) ∨
    ((register env s b).1.status = 500 ∧ env.writeOk 0 = true ∧ env.writeOk 1 = false ∧
      ∃ o, (register env s b).2 =
          { s with organizations := s.organizations ++ [o], nextId := s.nextId + 1 }) := by
  unfold register
  split
  · right; left; simp
  · split
    · right; left; simp
    · split
      · right; left; simp
      · rename_i basic hb
        dsimp only
        split
        · right; left; simp
        · rename_i sa hi
          have ha := insertOrganization_eq hi
          have hw0 : env.writeOk 0 = true := by
            unfold insertOrganization at hi
            split at hi
            · rename_i hc
              simp only [Bool.and_eq_true] at hc
              exact hc.1
            · simp at hi
          split
          · rename_i hj
            right; right
            refine ⟨rfl, hw0, ?_, _, ha⟩
            unfold insertUser at hj
            split at hj
            · simp at hj
            · rename_i hc
              have hfree : emailFree sa
                  { id := sa.nextId, email := b.email, password := env.hash b.password,
                    firstName := some b.firstName, lastName := some b.lastName,
                    role := Role.admin,
                    organizationId := (newRegisteredOrganization env s b basic).id,
                    isActive := true } = true := by
                apply emailFree_of_unused
                rw [ha]
                assumption
              simpa [hfree] using hc
          · rename_i sb hj
            left
            refine ⟨rfl, { newRegisteredOrganization env s b basic with updatedAt := env.now },
              { id := sa.nextId, email := b.email, password := env.hash b.password,
                firstName := some b.firstName, lastName := some b.lastName,
                role := Role.admin,
                organizationId := (newRegisteredOrganization env s b basic).id,
                isActive := true }, ?_, rfl, rfl⟩
            rw [insertUser_eq hj, ha]

/-- C9, counterexample: the Organization write succeeds and the User write
fails; the caller gets 500 while the store has gained the Organization and no
User. -/
theorem register_not_atomic_counterexample :
    (register secondWriteFails catalogStore acmeRegistration).1.status = 500 ∧
    (register secondWriteFails catalogStore acmeRegistration).2 ≠ catalogStore ∧
    (register secondWriteFails catalogStore acmeRegistration).2.organizations =
      [acmeOrganization] ∧
    (register secondWriteFails catalogStore acmeRegistration).2.users = [] := by
  decide

/-! ## The plan snapshot -/

/-- The fields of the snapshot that are stored: after each transition that
writes `activePlan` the five declared fields `name`, `maxUsers`, `features`,
`price`, `billingCycle` of the stored snapshot are those of the source plan. -/
theorem activePlan_five_field_copy (env : Env) (s s1 : Store) :
    (∀ b u o, register env s b = (⟨201, .registered u o⟩, s1) →
      ∃ basic, findPlanByName s "Basic" = some basic ∧
        s1.organizations = s.organizations ++ [o] ∧
        o.activePlan = { name := some basic.name, maxUsers := some basic.maxUsers,
                         features := basic.features, price := some basic.price,
                         billingCycle := some basic.billingCycle }) ∧
    (∀ organizationId planId subscription,
      webhook env s (.ok (.checkoutCompleted organizationId planId subscription)) =
          (⟨200, .received⟩, s1) →
      ∃ o0 plan o, (organizationId.bind castObjectId).bind (findOrganizationById s) = some o0 ∧
        (planId.bind castObjectId).bind (findPlanById s) = some plan ∧
        findOrganizationById s1 o0.id = some o ∧
        o.activePlan = { name := some plan.name, maxUsers := some plan.maxUsers,
                         features := plan.features, price := some plan.price,
                         billingCycle := some plan.billingCycle }) ∧
    (∀ id status items currentPeriodEnd,
      webhook env s (.ok (.subscriptionUpdated id status items currentPeriodEnd)) =
          (⟨200, .received⟩, s1) →
      ∃ o0 priceId plan o, findOrganizationBySubscription s id = some o0 ∧
        items.head? = some priceId ∧ findPlanByPrice s priceId = some plan ∧
        findOrganizationById s1 o0.id = some o ∧
        o.activePlan = { name := some plan.name, maxUsers := some plan.maxUsers,
                         features := plan.features, price := some plan.price,
                         billingCycle := some plan.billingCycle }) ∧
    (∀ id o0 basic, findOrganizationBySubscription s id = some o0 →
      findPlanByName s "Basic" = some basic →
      webhook env s (.ok (.subscriptionDeleted id)) = (⟨200, .received⟩, s1) →
      ∃ o, findOrganizationById s1 o0.id = some o ∧
        o.activePlan = { name := some basic.name, maxUsers := some basic.maxUsers,
                         features := basic.features, price := some basic.price,
                         billingCycle := some basic.billingCycle }) := by
  refine ⟨?_, ?_, ?_, ?_⟩
  · intro b u o h
    unfold register at h
    split at h
    · simp at h
    · split at h
      · simp at h
      · split at h
        · simp at h
        · rename_i basic hb
          dsimp only at h
          split at h
          · simp at h
          · rename_i sa hi
            split at h
            · simp at h
            · rename_i sb hj
              simp only [Prod.mk.injEq, Response.mk.injEq, Body.registered.injEq, true_and] at h
              obtain ⟨⟨_, ho⟩, hs⟩ := h
              refine ⟨basic, hb, ?_, ?_⟩
              · rw [← hs, insertUser_eq hj, insertOrganization_eq hi, ← ho]
              · rw [← ho]; rfl
  · intro organizationId planId subscription h
    simp only [webhook] at h
    unfold checkoutCompleted at h
    split at h
    · simp at h
    · split at h
      · rename_i o0 plan ho hp
        dsimp only at h
        split at h
        · simp at h
        · rename_i sa hu
          simp only [Prod.mk.injEq, true_and] at h
          subst h
          have hmem : o0 ∈ s.organizations := by
            cases hc : organizationId.bind castObjectId with
            | none => rw [hc] at ho; simp at ho
            | some i => rw [hc] at ho; exact findOrganizationById_mem ho
          exact ⟨o0, plan, _, ho, hp, findOrganizationById_updateOrganization hmem hu rfl, rfl⟩
      · simp at h
  · intro id status items currentPeriodEnd h
    simp only [webhook] at h
    unfold subscriptionUpdated at h
    split at h
    · simp at h
    · rename_i o0 ho
      split at h
      · simp at h
      · rename_i priceId hpr
        split at h
        · simp at h
        · rename_i plan hp
          dsimp only at h
          cases hu : updateOrganization env 0 s
              (if status = "canceled" ∨ status = "unpaid" then
                { o0 with subscriptionStatus := some "expired", planId := plan.id,
                          subscriptionEndDate := currentPeriodEnd * 1000,
                          activePlan := castActivePlan (webhookSnapshot plan) }
              else
                { o0 with subscriptionStatus := some status, planId := plan.id,
                          subscriptionEndDate := currentPeriodEnd * 1000,
                          activePlan := castActivePlan (webhookSnapshot plan) }) with
          | none => rw [hu] at h; simp at h
          | some sa =>
            rw [hu] at h
            simp only [Prod.mk.injEq, true_and] at h
            subst h
            have hmem : o0 ∈ s.organizations := List.mem_of_find?_eq_some ho
            refine ⟨o0, priceId, plan, _, ho, hpr, hp,
              findOrganizationById_updateOrganization hmem hu ?_, ?_⟩
            · split <;> rfl
            · split <;> rfl
  · intro id o0 basic ho hb h
    simp only [webhook] at h
    unfold subscriptionDeleted at h
    simp only [ho, hb] at h
    split at h
    · simp at h
    · rename_i sa hu
      simp only [Prod.mk.injEq, true_and] at h
      subst h
      have hmem : o0 ∈ s.organizations := List.mem_of_find?_eq_some ho
      exact ⟨_, findOrganizationById_updateOrganization hmem hu rfl, rfl⟩

/-- The stored fields of the snapshot at the four transitions on Acme. -/
theorem activePlan_five_field_copy_witness :
    (∃ basic, findPlanByName catalogStore "Basic" = some basic ∧
      acmeStore.organizations = catalogStore.organizations ++ [acmeOrganization] ∧
      acmeOrganization.activePlan =
        { name := some basic.name, maxUsers := some basic.maxUsers,
          features := basic.features, price := some basic.price,
          billingCycle := some basic.billingCycle }) ∧
    (∃ o0 plan o, ((some (IdParam.objectId 3)).bind castObjectId).bind
        (findOrganizationById acmeStore) = some o0 ∧
      ((some (IdParam.objectId 2)).bind castObjectId).bind (findPlanById acmeStore) = some plan ∧
      findOrganizationById acmeOnPlus o0.id = some o ∧
      o.activePlan = { name := some plan.name, maxUsers := some plan.maxUsers,
                       features := plan.features, price := some plan.price,
                       billingCycle := some plan.billingCycle }) ∧
    (∃ o0 priceId plan o, findOrganizationBySubscription acmeTwoSeats "sub_acme" = some o0 ∧
      ["price_basic"].head? = some priceId ∧ findPlanByPrice acmeTwoSeats priceId = some plan ∧
      findOrganizationById acmeDowngraded o0.id = some o ∧
      o.activePlan = { name := some plan.name, maxUsers := some plan.maxUsers,
                       features := plan.features, price := some plan.price,
                       billingCycle := some plan.billingCycle }) ∧
    (∃ o, findOrganizationById acmeReverted 3 = some o ∧
      o.activePlan = { name := some basicPlan.name, maxUsers := some basicPlan.maxUsers,
                       features := basicPlan.features, price := some basicPlan.price,
                       billingCycle := some basicPlan.billingCycle }) :=
  ⟨(activePlan_five_field_copy demoEnv catalogStore acmeStore).1
      acmeRegistration acmeAdmin acmeOrganization (by decide),
   (activePlan_five_field_copy demoEnv acmeStore acmeOnPlus).2.1
      (some (.objectId 3)) (some (.objectId 2)) (some "sub_acme") (by decide),
   (activePlan_five_field_copy demoEnv acmeTwoSeats acmeDowngraded).2.2.1
      "sub_acme" "active" ["price_basic"] 5000 (by decide),
   (activePlan_five_field_copy demoEnv acmeOnPlus acmeReverted).2.2.2
      "sub_acme"
      { acmeOrganization with
          planId := 2, stripeSubscriptionId := some "sub_acme", subscriptionStatus := some "active",
          subscriptionStartDate := 1000,
          subscriptionEndDate := 1000 + 365 * 24 * 60 * 60 * 1000,
          activePlan := castActivePlan (webhookSnapshot plusPlan) }
      basicPlan (by decide) (by decide) (by decide)⟩

/-- C6, failing input: Acme registers on Basic (storage 1), checks out Plus
(storage 50), is renewed on Plus and reverted to Basic.  The literal of
checkout-completed and subscription-updated names `storage: plan.storage`, the
literals of self-registration and subscription-deleted do not; the stored
snapshot has the five declared fields and no storage after each of the four
transitions: the Organization documents are the same when every plan of the
catalog has storage 500 instead. -/
theorem snapshot_drops_storage :
    (basicPlan.storage = 1 ∧ plusPlan.storage = 50) ∧
    ((webhookSnapshot plusPlan).storage = some 50 ∧
      (registerSnapshot basicPlan).storage = none ∧
      (deletedSnapshot basicPlan).storage = none ∧
      registerSnapshot basicPlan ≠ webhookSnapshot basicPlan) ∧
    castActivePlan (webhookSnapshot plusPlan) =
      castActivePlan { webhookSnapshot plusPlan with storage := none } ∧
    (acmeStore.organizations.map (fun o => o.activePlan) =
        [{ name := some "Basic", maxUsers := some 1, features := ["core"], price := some 0,
           billingCycle := some "Trial" }] ∧
      acmeOnPlus.organizations.map (fun o => o.activePlan) =
        [{ name := some "Plus", maxUsers := some 5, features := ["core", "reports"],
           price := some 999, billingCycle := some "Yearly" }]) ∧
    ((register demoEnv (withPlanStorage catalogStore 500) acmeRegistration).2.organizations =
        (register demoEnv catalogStore acmeRegistration).2.organizations ∧
      (webhook demoEnv (withPlanStorage acmeStore 500) acmeCheckout).2.organizations =
        (webhook demoEnv acmeStore acmeCheckout).2.organizations ∧
      (webhook demoEnv (withPlanStorage acmeOnPlus 500) acmeRenewal).2.organizations =
        (webhook demoEnv acmeOnPlus acmeRenewal).2.organizations ∧
      (webhook demoEnv (withPlanStorage acmeOnPlus 500) acmeDeletion).2.organizations =
        (webhook demoEnv acmeOnPlus acmeDeletion).2.organizations) := by
  decide

/-! ## Checkout completed -/

/-- The fields written by checkout-completed: for a verified
`checkout.session.completed` event whose metadata ids resolve to an
Organization and a Plan (and whose store write succeeds on a schema-valid
organization), the answer is `{received: true}` and the organization afterwards
has planId = that plan, stripeSubscriptionId = the event's subscription, status
`active`, start date now, end date now + 365 days and the five declared fields
of the snapshot from that plan, users and plans untouched; if the ids cast and
either document is missing the answer is 404 and the store is unchanged; if an
id does not cast the answer is 500 and the store is unchanged. -/
theorem checkoutCompleted_effect (env : Env) (s : Store)
    (organizationId planId : Option IdParam) (subscription : Option String) :
    (∀ o plan, (organizationId.bind castObjectId).bind (findOrganizationById s) = some o →
        (planId.bind castObjectId).bind (findPlanById s) = some plan →
        o.name ≠ "" → o.email ≠ "" → env.writeOk 0 = true →
        (webhook env s (.ok (.checkoutCompleted organizationId planId subscription))).1 =
          ⟨200, .received⟩ ∧
        findOrganizationById
            (webhook env s (.ok (.checkoutCompleted organizationId planId subscription))).2 o.id =
          some { o with
            planId := plan.id,
            stripeSubscriptionId := subscription,
            subscriptionStatus := some "active",
            subscriptionStartDate := env.now,
            subscriptionEndDate := env.now + 365 * 24 * 60 * 60 * 1000,
            activePlan := { name := some plan.name, maxUsers := some plan.maxUsers,
                            features := plan.features, price := some plan.price,
                            billingCycle := some plan.billingCycle },
            updatedAt := env.now } ∧
        (webhook env s (.ok (.checkoutCompleted organizationId planId subscription))).2.users =
          s.users ∧
        (webhook env s (.ok (.checkoutCompleted organizationId planId subscription))).2.plans =
          s.plans) ∧
    (castFails organizationId = false → castFails planId = false →
      (organizationId.bind castObjectId).bind (findOrganizationById s) = none ∨
        (planId.bind castObjectId).bind (findPlanById s) = none →
      webhook env s (.ok (.checkoutCompleted organizationId planId subscription)) =
        (⟨404, .message "Organization or plan not found"⟩, s)) ∧
    (castFails organizationId = true ∨ castFails planId = true →
      webhook env s (.ok (.checkoutCompleted organizationId planId subscription)) =
        (⟨500, .errorMessage⟩, s)) := by
  refine ⟨?_, ?_, ?_⟩
  · intro o plan ho hp hname hemail hw
    have hco := castFails_of_resolved ho
    have hcp := castFails_of_resolved hp
    have hmem : o ∈ s.organizations := by
      cases hc : organizationId.bind castObjectId with
      | none => rw [hc] at ho; simp at ho
      | some i => rw [hc] at ho; exact findOrganizationById_mem ho
    have hvalid : validOrganization
        { o with planId := plan.id, stripeSubscriptionId := subscription,
                 subscriptionStatus := some "active", subscriptionStartDate := env.now,
                 subscriptionEndDate := env.now + 365 * 24 * 60 * 60 * 1000,
                 activePlan := castActivePlan (webhookSnapshot plan) } = true := by
      simp [validOrganization, hname, hemail]
    have hu := updateOrganization_ok (s := s) hw hvalid
    have hres : webhook env s (.ok (.checkoutCompleted organizationId planId subscription)) =
        (⟨200, .received⟩, { s with organizations := (s.organizations.map
          (fun x => if x.id == o.id then
            { o with planId := plan.id, stripeSubscriptionId := subscription,
                     subscriptionStatus := some "active", subscriptionStartDate := env.now,
                     subscriptionEndDate := env.now + 365 * 24 * 60 * 60 * 1000,
                     activePlan := castActivePlan (webhookSnapshot plan),
                     updatedAt := env.now } else x)) }) := by
      simp [webhook, checkoutCompleted, ho, hp, hu, hco, hcp]
    rw [hres]
    refine ⟨rfl, ?_, rfl, rfl⟩
    exact find_replace_organization s.organizations o.id _ ⟨o, hmem, rfl⟩ rfl
  · intro hco hcp h
    simp only [webhook, checkoutCompleted, hco, hcp, Bool.or_self, Bool.false_eq_true,
      if_false]
    rcases h with h | h
    · simp [h]
    · rw [h]
      cases (organizationId.bind castObjectId).bind (findOrganizationById s) <;> rfl
  · intro h
    simp only [webhook, checkoutCompleted]
    rcases h with h | h
    · simp [h]
    · simp [h]

/-- The fields written by the checkout of Plus by Acme, and the same event
naming an organization id that does not exist. -/
theorem checkoutCompleted_effect_witness :
    ((webhook demoEnv acmeStore
        (.ok (.checkoutCompleted (some (.objectId 3)) (some (.objectId 2))
          (some "sub_acme")))).1 = ⟨200, .received⟩ ∧
      findOrganizationById acmeOnPlus 3 =
        some { acmeOrganization with
          planId := 2, stripeSubscriptionId := some "sub_acme", subscriptionStatus := some "active",
          subscriptionStartDate := 1000,
          subscriptionEndDate := 1000 + 365 * 24 * 60 * 60 * 1000,
          activePlan := { name := some "Plus", maxUsers := some 5,
                          features := ["core", "reports"], price := some 999,
                          billingCycle := some "Yearly" } }) ∧
    webhook demoEnv acmeStore
        (.ok (.checkoutCompleted (some (.objectId 99)) (some (.objectId 2)) (some "sub_acme"))) =
      (⟨404, .message "Organization or plan not found"⟩, acmeStore) :=
  ⟨⟨((checkoutCompleted_effect demoEnv acmeStore (some (.objectId 3)) (some (.objectId 2))
        (some "sub_acme")).1
        acmeOrganization plusPlan (by decide) (by decide) (by decide) (by decide) rfl).1,
    ((checkoutCompleted_effect demoEnv acmeStore (some (.objectId 3)) (some (.objectId 2))
        (some "sub_acme")).1
        acmeOrganization plusPlan (by decide) (by decide) (by decide) (by decide) rfl).2.1⟩,
   (checkoutCompleted_effect demoEnv acmeStore (some (.objectId 99)) (some (.objectId 2))
      (some "sub_acme")).2.1 rfl rfl (Or.inl (by decide))⟩

/-- C10, failing input: the verified checkout event of Acme for Plus (storage
50).  The answer is `{received: true}` and planId, subscription reference,
status and dates are written as claimed; the literal the handler assigns
carries `storage: 50`, but the stored snapshot holds the five declared fields
only: the Organization documents are the same when Plus has storage 500.  An
event naming an identifier no organization has is answered 404, one whose
metadata value is not an identifier 500, the store unchanged in both cases. -/
theorem checkoutCompleted_drops_storage :
    (webhook demoEnv acmeStore acmeCheckout).1 = ⟨200, .received⟩ ∧
    (webhook demoEnv acmeStore acmeCheckout).2.organizations =
      [{ acmeOrganization with
          planId := 2, stripeSubscriptionId := some "sub_acme",
          subscriptionStatus := some "active", subscriptionStartDate := 1000,
          subscriptionEndDate := 1000 + 365 * 24 * 60 * 60 * 1000,
          activePlan := { name := some "Plus", maxUsers := some 5,
                          features := ["core", "reports"], price := some 999,
                          billingCycle := some "Yearly" } }] ∧
    (plusPlan.storage = 50 ∧ (webhookSnapshot plusPlan).storage = some 50) ∧
    (webhook demoEnv (withPlanStorage acmeStore 500) acmeCheckout).2.organizations =
      (webhook demoEnv acmeStore acmeCheckout).2.organizations ∧
    webhook demoEnv acmeStore
        (.ok (.checkoutCompleted (some (.objectId 99)) (some (.objectId 2)) (some "sub_acme"))) =
      (⟨404, .message "Organization or plan not found"⟩, acmeStore) ∧
    webhook demoEnv acmeStore
        (.ok (.checkoutCompleted (some (.malformed "99")) (some (.objectId 2))
          (some "sub_acme"))) =
      (⟨500, .errorMessage⟩, acmeStore) := by
  decide

/-! ## Redelivery of webhook events -/

theorem replace_replace (l : List Organization) (i : Id) (a b : Organization) (ha : a.id = i) :
    (l.map (fun x => if x.id == i then a else x)).map (fun x => if x.id == i then b else x) =
      l.map (fun x => if x.id == i then b else x) := by
  rw [List.map_map]
  apply List.map_congr_left
  intro x _
  by_cases hx : x.id = i
  · simp [hx, ha]
  · simp [hx]

theorem replace_map_congr (l : List Organization) (i : Id) (a b : Organization)
    (w : Organization → Organization) (hw : w b = w a) :
    (l.map (fun x => if x.id == i then b else x)).map w =
      (l.map (fun x => if x.id == i then a else x)).map w := by
  rw [List.map_map, List.map_map]
  apply List.map_congr_left
  intro x _
  by_cases hx : x.id = i
  · simp [hx, hw]
  · simp [hx]

theorem replace_twice_congr (l : List Organization) (a b : Organization)
    (w : Organization → Organization) (hab : b.id = a.id) (hw : w b = w a) :
    ((l.map (fun x => if x.id == a.id then a else x)).map
        (fun x => if x.id == b.id then b else x)).map w =
      (l.map (fun x => if x.id == a.id then a else x)).map w := by
  rw [hab, replace_replace l a.id a b rfl]
  exact replace_map_congr l a.id a b w hw

theorem updateOrganization_twice {env1 env2 : Env} {j k : Nat} {s s1 s2 : Store}
    {n1 n2 : Organization}
    (h1 : updateOrganization env1 j s n1 = some s1)
    (h2 : updateOrganization env2 k s1 n2 = some s2) (hid : n2.id = n1.id)
    (w : Organization → Organization)
    (hw : w { n2 with updatedAt := env2.now } = w { n1 with updatedAt := env1.now }) :
    s2.plans = s1.plans ∧ s2.users = s1.users ∧ s2.nextId = s1.nextId ∧
      s2.organizations.map w = s1.organizations.map w := by
  have e1 := updateOrganization_eq h1
  subst e1
  have e2 := updateOrganization_eq h2
  subst e2
  exact ⟨rfl, rfl, rfl, replace_twice_congr s.organizations
    { n1 with updatedAt := env1.now } { n2 with updatedAt := env2.now } w hid hw⟩

theorem store_eq_of_parts {s t : Store} (h : t.plans = s.plans ∧ t.users = s.users ∧
    t.nextId = s.nextId ∧ t.organizations.map (fun x => x) = s.organizations.map (fun x => x)) : t = s := by
  obtain ⟨h1, h2, h3, h4⟩ := h
  simp only [List.map_id_fun', id_eq] at h4
  cases s; cases t
  simp_all

theorem find_replace_of_find (p : Organization → Bool) (l : List Organization)
    (o n : Organization) (h : l.find? p = some o) (hp : p n = true) :
    (l.map (fun x => if x.id == o.id then n else x)).find? p = some n := by
  induction l with
  | nil => simp at h
  | cons a t ih =>
    rw [List.find?_cons] at h
    rw [List.map_cons, List.find?_cons]
    by_cases hpa : p a = true
    · simp only [hpa] at h
      have hao : a = o := by simpa using h
      subst hao
      simp [hp]
    · have hpa2 : p a = false := by simpa using hpa
      simp only [hpa2] at h
      by_cases hid : a.id = o.id
      · have hb : (a.id == o.id) = true := by simpa using hid
        simp only [hb, if_true, hp]
      · have hb : (a.id == o.id) = false := by simpa using hid
        simp only [hb, Bool.false_eq_true, if_false, hpa2]
        exact ih h

theorem subscriptionUpdated_twice (env1 env2 : Env) (s : Store) (id status : String)
    (items : List String) (currentPeriodEnd : Nat)
    (h : (subscriptionUpdated env1 s id status items currentPeriodEnd).1.status = 200) :
    (subscriptionUpdated env2 (subscriptionUpdated env1 s id status items currentPeriodEnd).2
        id status items currentPeriodEnd).2.plans =
      (subscriptionUpdated env1 s id status items currentPeriodEnd).2.plans ∧
    (subscriptionUpdated env2 (subscriptionUpdated env1 s id status items currentPeriodEnd).2
        id status items currentPeriodEnd).2.users =
      (subscriptionUpdated env1 s id status items currentPeriodEnd).2.users ∧
    (subscriptionUpdated env2 (subscriptionUpdated env1 s id status items currentPeriodEnd).2
        id status items currentPeriodEnd).2.organizations.map withoutUpdatedAt =
      (subscriptionUpdated env1 s id status items currentPeriodEnd).2.organizations.map
        withoutUpdatedAt ∧
    (env2.now = env1.now →
      (subscriptionUpdated env2 (subscriptionUpdated env1 s id status items currentPeriodEnd).2
        id status items currentPeriodEnd).2 =
      (subscriptionUpdated env1 s id status items currentPeriodEnd).2) := by
  unfold subscriptionUpdated at h
  split at h
  · simp at h
  · rename_i o ho
    split at h
    · simp at h
    · rename_i priceId hpr
      split at h
      · simp at h
      · rename_i plan hp
        dsimp only at h
        split at h
        · simp at h
        · rename_i s1 h1
          have hfirst : subscriptionUpdated env1 s id status items currentPeriodEnd =
              (⟨200, .received⟩, s1) := by
            unfold subscriptionUpdated
            simp only [ho, hpr, hp]
            rw [h1]
          rw [hfirst]
          have e1 := updateOrganization_eq h1
          have hsub : o.stripeSubscriptionId = some id := by
            have := List.find?_some ho
            simpa using this
          have hp1 : findPlanByPrice s1 priceId = some plan := by
            rw [e1]; exact hp
          by_cases hc : status = "canceled" ∨ status = "unpaid"
          · simp only [hc, if_true] at h1 e1
            have ho1 : findOrganizationBySubscription s1 id = some
                { o with subscriptionStatus := some "expired", planId := plan.id,
                         subscriptionEndDate := currentPeriodEnd * 1000,
                         activePlan := castActivePlan (webhookSnapshot plan),
                         updatedAt := env1.now } := by
              rw [e1]
              exact find_replace_of_find (fun x => x.stripeSubscriptionId == some id)
                s.organizations o _ ho (by simp [hsub])
            unfold subscriptionUpdated
            simp only [ho1, hpr, hp1, hc, if_true]
            cases h2 : updateOrganization env2 0 s1 _ with
            | none => simp
            | some s2 =>
              have key := updateOrganization_twice h1 h2 rfl
              refine ⟨(key withoutUpdatedAt rfl).1, (key withoutUpdatedAt rfl).2.1,
                (key withoutUpdatedAt rfl).2.2.2, ?_⟩
              intro hnow
              apply store_eq_of_parts
              apply key (fun x => x)
              simp only [hnow]
          · simp only [hc, if_false] at h1 e1
            have ho1 : findOrganizationBySubscription s1 id = some
                { o with subscriptionStatus := some status, planId := plan.id,
                         subscriptionEndDate := currentPeriodEnd * 1000,
                         activePlan := castActivePlan (webhookSnapshot plan),
                         updatedAt := env1.now } := by
              rw [e1]
              exact find_replace_of_find (fun x => x.stripeSubscriptionId == some id)
                s.organizations o _ ho (by simp [hsub])
            unfold subscriptionUpdated
            simp only [ho1, hpr, hp1, hc, if_false]
            cases h2 : updateOrganization env2 0 s1 _ with
            | none => simp
            | some s2 =>
              have key := updateOrganization_twice h1 h2 rfl
              refine ⟨(key withoutUpdatedAt rfl).1, (key withoutUpdatedAt rfl).2.1,
                (key withoutUpdatedAt rfl).2.2.2, ?_⟩
              intro hnow
              apply store_eq_of_parts
              apply key (fun x => x)
              simp only [hnow]

theorem subscriptionDeleted_twice (env1 env2 : Env) (s : Store) (id : String)
    (h : (subscriptionDeleted env1 s id).1.status = 200) :
    (subscriptionDeleted env2 (subscriptionDeleted env1 s id).2 id).2.plans =
      (subscriptionDeleted env1 s id).2.plans ∧
    (subscriptionDeleted env2 (subscriptionDeleted env1 s id).2 id).2.users =
      (subscriptionDeleted env1 s id).2.users ∧
    (subscriptionDeleted env2 (subscriptionDeleted env1 s id).2 id).2.organizations.map
        withoutUpdatedAt =
      (subscriptionDeleted env1 s id).2.organizations.map withoutUpdatedAt ∧
    (env2.now = env1.now →
      (subscriptionDeleted env2 (subscriptionDeleted env1 s id).2 id).2 =
      (subscriptionDeleted env1 s id).2) := by
  cases ho : findOrganizationBySubscription s id with
  | none =>
    have hfirst : subscriptionDeleted env1 s id = (⟨200, .received⟩, s) := by
      unfold subscriptionDeleted; simp only [ho]
    rw [hfirst]
    have hsecond : subscriptionDeleted env2 s id = (⟨200, .received⟩, s) := by
      unfold subscriptionDeleted; simp only [ho]
    rw [hsecond]
    simp
  | some o =>
    cases hb : findPlanByName s "Basic" with
    | none =>
      have hfirst : subscriptionDeleted env1 s id = (⟨200, .received⟩, s) := by
        unfold subscriptionDeleted; simp only [ho, hb]
      rw [hfirst]
      have hsecond : subscriptionDeleted env2 s id = (⟨200, .received⟩, s) := by
        unfold subscriptionDeleted; simp only [ho, hb]
      rw [hsecond]
      simp
    | some basic =>
      unfold subscriptionDeleted at h
      simp only [ho, hb] at h
      split at h
      · simp at h
      · rename_i s1 h1
        have hfirst : subscriptionDeleted env1 s id = (⟨200, .received⟩, s1) := by
          unfold subscriptionDeleted
          simp only [ho, hb, h1]
        rw [hfirst]
        have e1 := updateOrganization_eq h1
        have hsub : o.stripeSubscriptionId = some id := by
          have := List.find?_some ho
          simpa using this
        have hb1 : findPlanByName s1 "Basic" = some basic := by
          rw [e1]; exact hb
        have ho1 : findOrganizationBySubscription s1 id = some
            { o with planId := basic.id, subscriptionStatus := some "expired",
                     activePlan := castActivePlan (deletedSnapshot basic),
                     updatedAt := env1.now } := by
          rw [e1]
          exact find_replace_of_find (fun x => x.stripeSubscriptionId == some id)
            s.organizations o _ ho (by simp [hsub])
        unfold subscriptionDeleted
        simp only [ho1, hb1]
        cases h2 : updateOrganization env2 0 s1 _ with
        | none => simp
        | some s2 =>
          have key := updateOrganization_twice h1 h2 rfl
          refine ⟨(key withoutUpdatedAt rfl).1, (key withoutUpdatedAt rfl).2.1,
            (key withoutUpdatedAt rfl).2.2.2, ?_⟩
          intro hnow
          apply store_eq_of_parts
          apply key (fun x => x)
          simp only [hnow]

/-- C11 (amended): when a `checkout.session.completed` event was applied
(answered 200) and is delivered again, plans, users and every field of every
Organization other than `subscriptionStartDate`, `subscriptionEndDate` and
`updatedAt` are the same as after the first delivery; when the second delivery
reads the same clock the whole store is the same. -/
theorem checkoutCompleted_redelivery (env1 env2 : Env) (s : Store)
    (organizationId planId : Option IdParam) (subscription : Option String)
    (h : (webhook env1 s
      (.ok (.checkoutCompleted organizationId planId subscription))).1.status = 200) :
    (redeliver env1 env2 s (.ok (.checkoutCompleted organizationId planId subscription))).plans =
      (webhook env1 s (.ok (.checkoutCompleted organizationId planId subscription))).2.plans ∧
    (redeliver env1 env2 s (.ok (.checkoutCompleted organizationId planId subscription))).users =
      (webhook env1 s (.ok (.checkoutCompleted organizationId planId subscription))).2.users ∧
    (redeliver env1 env2 s
        (.ok (.checkoutCompleted organizationId planId subscription))).organizations.map
        withoutClockFields =
      (webhook env1 s
        (.ok (.checkoutCompleted organizationId planId subscription))).2.organizations.map
        withoutClockFields ∧
    (env2.now = env1.now →
      redeliver env1 env2 s (.ok (.checkoutCompleted organizationId planId subscription)) =
        (webhook env1 s (.ok (.checkoutCompleted organizationId planId subscription))).2) := by
  simp only [redeliver, webhook] at h ⊢
  unfold checkoutCompleted at h
  split at h
  · simp at h
  · rename_i hcf
    split at h
    · rename_i o plan ho hp
      dsimp only at h
      split at h
      · simp at h
      · rename_i s1 h1
        have hmem : o ∈ s.organizations := by
          cases hc : organizationId.bind castObjectId with
          | none => rw [hc] at ho; simp at ho
          | some i => rw [hc] at ho; exact findOrganizationById_mem ho
        have hfirst : checkoutCompleted env1 s organizationId planId subscription =
            (⟨200, .received⟩, s1) := by
          unfold checkoutCompleted
          rw [if_neg hcf]
          simp only [ho, hp, h1]
        rw [hfirst]
        have e1 := updateOrganization_eq h1
        have ho1 : (organizationId.bind castObjectId).bind (findOrganizationById s1) = some
            { o with planId := plan.id, stripeSubscriptionId := subscription,
                     subscriptionStatus := some "active", subscriptionStartDate := env1.now,
                     subscriptionEndDate := env1.now + 365 * 24 * 60 * 60 * 1000,
                     activePlan := castActivePlan (webhookSnapshot plan),
                     updatedAt := env1.now } := by
          cases hc : organizationId.bind castObjectId with
          | none => rw [hc] at ho; simp at ho
          | some i =>
            rw [hc] at ho
            have hi := findOrganizationById_id ho
            show findOrganizationById s1 i = some _
            rw [← hi]
            exact findOrganizationById_updateOrganization hmem h1 rfl
        have hp1 : (planId.bind castObjectId).bind (findPlanById s1) = some plan := by
          rw [e1]; exact hp
        unfold checkoutCompleted
        rw [if_neg hcf]
        simp only [ho1, hp1]
        cases h2 : updateOrganization env2 0 s1 _ with
        | none => simp
        | some s2 =>
          have key := updateOrganization_twice h1 h2 rfl
          refine ⟨(key withoutClockFields rfl).1, (key withoutClockFields rfl).2.1,
            (key withoutClockFields rfl).2.2.2, ?_⟩
          intro hnow
          apply store_eq_of_parts
          apply key (fun x => x)
          simp only [hnow]
    · simp at h

/-- C11, witness: Acme's checkout event delivered at time 1000 and again at
time 2000. -/
theorem checkoutCompleted_redelivery_witness :
    (redeliver demoEnv laterEnv acmeStore acmeCheckout).plans =
      (webhook demoEnv acmeStore acmeCheckout).2.plans ∧
    (redeliver demoEnv laterEnv acmeStore acmeCheckout).users =
      (webhook demoEnv acmeStore acmeCheckout).2.users ∧
    (redeliver demoEnv laterEnv acmeStore acmeCheckout).organizations.map withoutClockFields =
      (webhook demoEnv acmeStore acmeCheckout).2.organizations.map withoutClockFields ∧
    (laterEnv.now = demoEnv.now →
      redeliver demoEnv laterEnv acmeStore acmeCheckout =
        (webhook demoEnv acmeStore acmeCheckout).2) :=
  checkoutCompleted_redelivery demoEnv laterEnv acmeStore (some (.objectId 3))
    (some (.objectId 2)) (some "sub_acme") (by decide)

/-- C11, counterexample: Acme's checkout event is applied at time 1000 and
delivered again at time 2000; after one application the subscription runs from
1000 to 1000 + 365 days, after two from 2000 to 2000 + 365 days. -/
theorem checkoutCompleted_not_idempotent_counterexample :
    (findOrganizationById (webhook demoEnv acmeStore acmeCheckout).2 3).map
        (fun o => (o.subscriptionStartDate, o.subscriptionEndDate)) =
      some (1000, 1000 + 365 * 24 * 60 * 60 * 1000) ∧
    (findOrganizationById (redeliver demoEnv laterEnv acmeStore acmeCheckout) 3).map
        (fun o => (o.subscriptionStartDate, o.subscriptionEndDate)) =
      some (2000, 2000 + 365 * 24 * 60 * 60 * 1000) ∧
    findOrganizationById (redeliver demoEnv laterEnv acmeStore acmeCheckout) 3 ≠
      findOrganizationById (webhook demoEnv acmeStore acmeCheckout).2 3 := by
  decide

/-- C16 (amended): when a `customer.subscription.updated` or
`customer.subscription.deleted` event was processed (answered 200) and is
delivered again, plans, users and every field of every Organization other than
the `updatedAt` stamp are the same as after the first delivery; when the second
delivery reads the same clock the whole store is the same. -/
theorem subscription_event_redelivery (env1 env2 : Env) (s : Store) (ev : StripeEvent)
    (hev : (∃ id status items currentPeriodEnd,
        ev = .subscriptionUpdated id status items currentPeriodEnd) ∨
      (∃ id, ev = .subscriptionDeleted id))
    (h : (webhook env1 s (.ok ev)).1.status = 200) :
    (redeliver env1 env2 s (.ok ev)).plans = (webhook env1 s (.ok ev)).2.plans ∧
    (redeliver env1 env2 s (.ok ev)).users = (webhook env1 s (.ok ev)).2.users ∧
    (redeliver env1 env2 s (.ok ev)).organizations.map withoutUpdatedAt =
      (webhook env1 s (.ok ev)).2.organizations.map withoutUpdatedAt ∧
    (env2.now = env1.now →
      redeliver env1 env2 s (.ok ev) = (webhook env1 s (.ok ev)).2) := by
  rcases hev with ⟨id, status, items, currentPeriodEnd, rfl⟩ | ⟨id, rfl⟩
  · exact subscriptionUpdated_twice env1 env2 s id status items currentPeriodEnd h
  · exact subscriptionDeleted_twice env1 env2 s id h

/-- C16, witness: the renewal of Acme's subscription delivered at time 1000
and again at time 2000. -/
theorem subscription_event_redelivery_witness :
    (redeliver demoEnv laterEnv acmeOnPlus acmeRenewal).plans =
      (webhook demoEnv acmeOnPlus acmeRenewal).2.plans ∧
    (redeliver demoEnv laterEnv acmeOnPlus acmeRenewal).users =
      (webhook demoEnv acmeOnPlus acmeRenewal).2.users ∧
    (redeliver demoEnv laterEnv acmeOnPlus acmeRenewal).organizations.map withoutUpdatedAt =
      (webhook demoEnv acmeOnPlus acmeRenewal).2.organizations.map withoutUpdatedAt ∧
    (laterEnv.now = demoEnv.now →
      redeliver demoEnv laterEnv acmeOnPlus acmeRenewal =
        (webhook demoEnv acmeOnPlus acmeRenewal).2) :=
  subscription_event_redelivery demoEnv laterEnv acmeOnPlus
    (.subscriptionUpdated "sub_acme" "active" ["price_plus"] 9000)
    (Or.inl ⟨_, _, _, _, rfl⟩) (by decide)

/-- C16, counterexample: the renewal and the deletion of Acme's subscription,
each applied at time 1000 and delivered again at time 2000; the store after two
deliveries differs from the store after one in the `updatedAt` stamp of the
organization (2000 against 1000). -/
theorem subscription_event_restamps_counterexample :
    redeliver demoEnv laterEnv acmeOnPlus acmeRenewal ≠
      (webhook demoEnv acmeOnPlus acmeRenewal).2 ∧
    redeliver demoEnv laterEnv acmeOnPlus acmeDeletion ≠
      (webhook demoEnv acmeOnPlus acmeDeletion).2 ∧
    (webhook demoEnv acmeOnPlus acmeRenewal).2.organizations.map (fun o => o.updatedAt) =
      [1000] ∧
    (redeliver demoEnv laterEnv acmeOnPlus acmeRenewal).organizations.map
      (fun o => o.updatedAt) = [2000] := by
  decide

/-- C17: when the signature verification fails the handler answers 400 with
the verification error, does not answer `{received: true}` and returns the
store unchanged. -/
theorem webhook_rejects_unverified (env : Env) (s : Store) (msg : String) :
    (webhook env s (.error msg)).1.status = 400 ∧
    (webhook env s (.error msg)).1.body = .text ("Webhook Error: " ++ msg) ∧
    (webhook env s (.error msg)).1.body ≠ .received ∧
    (webhook env s (.error msg)).2 = s := by
  refine ⟨rfl, rfl, ?_, rfl⟩
  simp [webhook]

/-! ## Subscription updated and deleted -/

/-- The fields written by subscription-updated: for a verified
`customer.subscription.updated` event whose subscription id resolves to a
schema-valid Organization and whose first item's price id resolves to a Plan,
with the store write succeeding: provider status `canceled` or `unpaid` is
stored as `expired`; provider status `active`, `trialing` or `expired` is
stored verbatim; in both cases planId is the resolved plan, subscriptionEndDate
is `current_period_end * 1000` and the five declared fields of the snapshot are
those of the resolved plan.  Any other provider status fails the validation of
the save: the answer is 500 and the store is unchanged. -/
theorem subscriptionUpdated_effect (env : Env) (s : Store) (id status : String)
    (items : List String) (currentPeriodEnd : Nat) (o : Organization) (priceId : String)
    (plan : Plan)
    (ho : findOrganizationBySubscription s id = some o)
    (hi : items.head? = some priceId)
    (hp : findPlanByPrice s priceId = some plan)
    (hname : o.name ≠ "") (hemail : o.email ≠ "") (hw : env.writeOk 0 = true) :
    (status = "canceled" ∨ status = "unpaid" →
      (webhook env s (.ok (.subscriptionUpdated id status items currentPeriodEnd))).1 =
        ⟨200, .received⟩ ∧
      findOrganizationById
          (webhook env s (.ok (.subscriptionUpdated id status items currentPeriodEnd))).2 o.id =
        some { o with
          subscriptionStatus := some "expired", planId := plan.id,
          subscriptionEndDate := currentPeriodEnd * 1000,
          activePlan := { name := some plan.name, maxUsers := some plan.maxUsers,
                          features := plan.features, price := some plan.price,
                          billingCycle := some plan.billingCycle },
          updatedAt := env.now }) ∧
    (status = "active" ∨ status = "trialing" ∨ status = "expired" →
      (webhook env s (.ok (.subscriptionUpdated id status items currentPeriodEnd))).1 =
        ⟨200, .received⟩ ∧
      findOrganizationById
          (webhook env s (.ok (.subscriptionUpdated id status items currentPeriodEnd))).2 o.id =
        some { o with
          subscriptionStatus := some status, planId := plan.id,
          subscriptionEndDate := currentPeriodEnd * 1000,
          activePlan := { name := some plan.name, maxUsers := some plan.maxUsers,
                          features := plan.features, price := some plan.price,
                          billingCycle := some plan.billingCycle },
          updatedAt := env.now }) ∧
    (status ≠ "canceled" ∧ status ≠ "unpaid" ∧ status ≠ "active" ∧ status ≠ "trialing" ∧
        status ≠ "expired" →
      webhook env s (.ok (.subscriptionUpdated id status items currentPeriodEnd)) =
        (⟨500, .errorMessage⟩, s)) := by
  have hmem : o ∈ s.organizations := List.mem_of_find?_eq_some ho
  refine ⟨?_, ?_, ?_⟩
  · intro hc
    have hvalid : validOrganization
        { o with subscriptionStatus := some "expired", planId := plan.id,
                 subscriptionEndDate := currentPeriodEnd * 1000,
                 activePlan := castActivePlan (webhookSnapshot plan) } = true := by
      simp [validOrganization, hname, hemail]
    have hu := updateOrganization_ok (s := s) hw hvalid
    have hres : webhook env s (.ok (.subscriptionUpdated id status items currentPeriodEnd)) =
        (⟨200, .received⟩, { s with organizations := (s.organizations.map
          (fun x => if x.id == o.id then
            { o with subscriptionStatus := some "expired", planId := plan.id,
                     subscriptionEndDate := currentPeriodEnd * 1000,
                     activePlan := castActivePlan (webhookSnapshot plan),
                     updatedAt := env.now } else x)) }) := by
      simp only [webhook, subscriptionUpdated, ho, hi, hp, hc, if_true, hu]
    rw [hres]
    exact ⟨rfl, find_replace_organization s.organizations o.id _ ⟨o, hmem, rfl⟩ rfl⟩
  · intro hs
    have hc : ¬ (status = "canceled" ∨ status = "unpaid") := by
      rcases hs with h | h | h <;> subst h <;> decide
    have hvalid : validOrganization
        { o with subscriptionStatus := some status, planId := plan.id,
                 subscriptionEndDate := currentPeriodEnd * 1000,
                 activePlan := castActivePlan (webhookSnapshot plan) } = true := by
      rcases hs with h | h | h <;> subst h <;> simp [validOrganization, hname, hemail]
    have hu := updateOrganization_ok (s := s) hw hvalid
    have hres : webhook env s (.ok (.subscriptionUpdated id status items currentPeriodEnd)) =
        (⟨200, .received⟩, { s with organizations := (s.organizations.map
          (fun x => if x.id == o.id then
            { o with subscriptionStatus := some status, planId := plan.id,
                     subscriptionEndDate := currentPeriodEnd * 1000,
                     activePlan := castActivePlan (webhookSnapshot plan),
                     updatedAt := env.now } else x)) }) := by
      simp only [webhook, subscriptionUpdated, ho, hi, hp, hc, if_false, hu]
    rw [hres]
    exact ⟨rfl, find_replace_organization s.organizations o.id _ ⟨o, hmem, rfl⟩ rfl⟩
  · rintro ⟨h1, h2, h3, h4, h5⟩
    have hc : ¬ (status = "canceled" ∨ status = "unpaid") := by
      rintro (h | h)
      · exact h1 h
      · exact h2 h
    have hinvalid : validOrganization
        { o with subscriptionStatus := some status, planId := plan.id,
                 subscriptionEndDate := currentPeriodEnd * 1000,
                 activePlan := castActivePlan (webhookSnapshot plan) } = false := by
      simp [validOrganization, h3, h4, h1, h5]
    simp only [webhook, subscriptionUpdated, ho, hi, hp, hc, if_false, updateOrganization,
      hinvalid, Bool.and_false, Bool.false_eq_true]

/-- The fields written when Acme on Plus receives `canceled` (stored as
`expired`), `active` (stored verbatim) and `past_due` (refused). -/
theorem subscriptionUpdated_effect_witness :
    ((webhook demoEnv acmeOnPlus acmeCanceled).1 = ⟨200, .received⟩ ∧
      (findOrganizationById (webhook demoEnv acmeOnPlus acmeCanceled).2 3).map
        (fun o => (o.subscriptionStatus, o.planId, o.subscriptionEndDate)) =
        some (some "expired", 2, 9000000)) ∧
    ((webhook demoEnv acmeOnPlus acmeRenewal).1 = ⟨200, .received⟩ ∧
      (findOrganizationById (webhook demoEnv acmeOnPlus acmeRenewal).2 3).map
        (fun o => (o.subscriptionStatus, o.planId, o.subscriptionEndDate)) =
        some (some "active", 2, 9000000)) ∧
    webhook demoEnv acmeOnPlus acmePastDue = (⟨500, .errorMessage⟩, acmeOnPlus) := by
  have h := subscriptionUpdated_effect demoEnv acmeOnPlus "sub_acme"
  have hc := (h "canceled" ["price_plus"] 9000
    ((findOrganizationById acmeOnPlus 3).getD acmeOrganization) "price_plus" plusPlan
    (by decide) (by decide) (by decide) (by decide) (by decide) rfl).1 (Or.inl rfl)
  have ha := (h "active" ["price_plus"] 9000
    ((findOrganizationById acmeOnPlus 3).getD acmeOrganization) "price_plus" plusPlan
    (by decide) (by decide) (by decide) (by decide) (by decide) rfl).2.1 (Or.inl rfl)
  have hp := (h "past_due" ["price_plus"] 9000
    ((findOrganizationById acmeOnPlus 3).getD acmeOrganization) "price_plus" plusPlan
    (by decide) (by decide) (by decide) (by decide) (by decide) rfl).2.2 (by decide)
  exact ⟨⟨hc.1, by decide⟩, ⟨ha.1, by decide⟩, hp⟩

/-- C12, failing input: the provider reports `past_due` (neither `canceled`
nor `unpaid`) for Acme on Plus, with a new period end.  The handler assigns the
status verbatim and the save fails on the status enumeration: the answer is
500 and the organization keeps status `active` and its old end date.  For the
status `active` the update is stored, but the snapshot holds no storage
although the literal names `storage: 50`: the Organization documents are the
same when Plus has storage 500. -/
theorem subscriptionUpdated_past_due_refused :
    (webhook demoEnv acmeOnPlus acmePastDue).1.status = 500 ∧
    (webhook demoEnv acmeOnPlus acmePastDue).2 = acmeOnPlus ∧
    (findOrganizationById (webhook demoEnv acmeOnPlus acmePastDue).2 3).map
        (fun o => (o.subscriptionStatus, o.subscriptionEndDate)) =
      some (some "active", 1000 + 365 * 24 * 60 * 60 * 1000) ∧
    (webhook demoEnv acmeOnPlus acmeRenewal).1 = ⟨200, .received⟩ ∧
    (findOrganizationById (webhook demoEnv acmeOnPlus acmeRenewal).2 3).map
        (fun o => (o.subscriptionStatus, o.planId, o.subscriptionEndDate, o.activePlan)) =
      some (some "active", 2, 9000000,
        { name := some "Plus", maxUsers := some 5, features := ["core", "reports"],
          price := some 999, billingCycle := some "Yearly" }) ∧
    (webhookSnapshot plusPlan).storage = some 50 ∧
    (webhook demoEnv (withPlanStorage acmeOnPlus 500) acmeRenewal).2.organizations =
      (webhook demoEnv acmeOnPlus acmeRenewal).2.organizations := by
  decide

/-- C14 (amended): a verified `customer.subscription.updated` event whose
subscription id matches no Organization, or whose first price id matches no
Plan, leaves the store unchanged and is answered 404 ("Organization not found",
"Plan not found"). -/
theorem subscriptionUpdated_missing_reference (env : Env) (s : Store) (id status : String)
    (items : List String) (currentPeriodEnd : Nat) :
    (findOrganizationBySubscription s id = none →
      webhook env s (.ok (.subscriptionUpdated id status items currentPeriodEnd)) =
        (⟨404, .message "Organization not found"⟩, s)) ∧
    (∀ o priceId, findOrganizationBySubscription s id = some o →
      items.head? = some priceId → findPlanByPrice s priceId = none →
      webhook env s (.ok (.subscriptionUpdated id status items currentPeriodEnd)) =
        (⟨404, .message "Plan not found"⟩, s)) := by
  constructor
  · intro ho
    simp only [webhook, subscriptionUpdated, ho]
  · intro o priceId ho hi hp
    simp only [webhook, subscriptionUpdated, ho, hi, hp]

/-- C14, witness: an update for a subscription no organization carries, and
an update of Acme's subscription to a price no plan carries. -/
theorem subscriptionUpdated_missing_reference_witness :
    webhook demoEnv acmeStore acmeRenewal =
      (⟨404, .message "Organization not found"⟩, acmeStore) ∧
    webhook demoEnv acmeOnPlus
        (.ok (.subscriptionUpdated "sub_acme" "active" ["price_gone"] 9000)) =
      (⟨404, .message "Plan not found"⟩, acmeOnPlus) :=
  ⟨(subscriptionUpdated_missing_reference demoEnv acmeStore "sub_acme" "active"
      ["price_plus"] 9000).1 (by decide),
   (subscriptionUpdated_missing_reference demoEnv acmeOnPlus "sub_acme" "active"
      ["price_gone"] 9000).2 ((findOrganizationById acmeOnPlus 3).getD acmeOrganization)
      "price_gone" (by decide) (by decide) (by decide)⟩

/-- C14, counterexample: the update names a subscription no organization
carries; the answer is the error 404 and not `{received: true}`. -/
theorem subscriptionUpdated_not_acknowledged_counterexample :
    findOrganizationBySubscription acmeStore "sub_acme" = none ∧
    (webhook demoEnv acmeStore acmeRenewal).1 = ⟨404, .message "Organization not found"⟩ ∧
    (webhook demoEnv acmeStore acmeRenewal).1.body ≠ .received := by
  decide

/-- The fields written by subscription-deleted: for a verified
`customer.subscription.deleted` event, when an Organization carries the
subscription id and a plan named "Basic" exists (and the store write of the
schema-valid organization succeeds) the organization afterwards has planId =
Basic, status `expired` and the five declared fields of the snapshot from
Basic, users and plans untouched; when no organization matches or no Basic plan
exists the store is unchanged; the answer is `{received: true}` in all three
cases. -/
theorem subscriptionDeleted_effect (env : Env) (s : Store) (id : String) :
    (∀ o basic, findOrganizationBySubscription s id = some o →
        findPlanByName s "Basic" = some basic →
        o.name ≠ "" → o.email ≠ "" → env.writeOk 0 = true →
        (webhook env s (.ok (.subscriptionDeleted id))).1 = ⟨200, .received⟩ ∧
        findOrganizationById (webhook env s (.ok (.subscriptionDeleted id))).2 o.id =
          some { o with
            planId := basic.id, subscriptionStatus := some "expired",
            activePlan := { name := some basic.name, maxUsers := some basic.maxUsers,
                            features := basic.features, price := some basic.price,
                            billingCycle := some basic.billingCycle },
            updatedAt := env.now } ∧
        (webhook env s (.ok (.subscriptionDeleted id))).2.users = s.users ∧
        (webhook env s (.ok (.subscriptionDeleted id))).2.plans = s.plans) ∧
    (findOrganizationBySubscription s id = none ∨ findPlanByName s "Basic" = none →
      webhook env s (.ok (.subscriptionDeleted id)) = (⟨200, .received⟩, s)) := by
  constructor
  · intro o basic ho hb hname hemail hw
    have hmem : o ∈ s.organizations := List.mem_of_find?_eq_some ho
    have hvalid : validOrganization
        { o with planId := basic.id, subscriptionStatus := some "expired",
                 activePlan := castActivePlan (deletedSnapshot basic) } = true := by
      simp [validOrganization, hname, hemail]
    have hu := updateOrganization_ok (s := s) hw hvalid
    have hres : webhook env s (.ok (.subscriptionDeleted id)) =
        (⟨200, .received⟩, { s with organizations := (s.organizations.map
          (fun x => if x.id == o.id then
            { o with planId := basic.id, subscriptionStatus := some "expired",
                     activePlan := castActivePlan (deletedSnapshot basic),
                     updatedAt := env.now } else x)) }) := by
      simp only [webhook, subscriptionDeleted, ho, hb, hu]
    rw [hres]
    exact ⟨rfl, find_replace_organization s.organizations o.id _ ⟨o, hmem, rfl⟩ rfl, rfl, rfl⟩
  · intro h
    simp only [webhook, subscriptionDeleted]
    rcases h with h | h
    · simp only [h]
    · cases ho : findOrganizationBySubscription s id with
      | none => rfl
      | some o => simp only [h]

/-- The fields written when Acme's subscription on Plus is deleted; a deletion
for an unknown subscription; a deletion while no Basic plan exists. -/
theorem subscriptionDeleted_effect_witness :
    ((webhook demoEnv acmeOnPlus acmeDeletion).1 = ⟨200, .received⟩ ∧
      (findOrganizationById (webhook demoEnv acmeOnPlus acmeDeletion).2 3).map
        (fun o => (o.planId, o.subscriptionStatus, o.activePlan.name, o.activePlan.maxUsers)) =
        some (1, some "expired", some "Basic", some 1)) ∧
    webhook demoEnv acmeStore acmeDeletion = (⟨200, .received⟩, acmeStore) ∧
    webhook demoEnv { acmeOnPlus with plans := [plusPlan] } acmeDeletion =
      (⟨200, .received⟩, { acmeOnPlus with plans := [plusPlan] }) :=
  ⟨⟨((subscriptionDeleted_effect demoEnv acmeOnPlus "sub_acme").1
        ((findOrganizationById acmeOnPlus 3).getD acmeOrganization) basicPlan
        (by decide) (by decide) (by decide) (by decide) rfl).1, by decide⟩,
   (subscriptionDeleted_effect demoEnv acmeStore "sub_acme").2 (Or.inl (by decide)),
   (subscriptionDeleted_effect demoEnv { acmeOnPlus with plans := [plusPlan] } "sub_acme").2
      (Or.inr (by decide))⟩

/-- C15, failing input: the provider deletes Acme's subscription on Plus while
the catalog holds Basic (storage 1).  The answer is `{received: true}`, planId
is Basic and the status `expired`; the literal the handler assigns names no
`storage` (the literal of checkout-completed and subscription-updated does) and
the stored snapshot holds the five declared fields only: the Organization
documents are the same when Basic has storage 500.  With no matching
organization, or no Basic plan, the store is unchanged and the answer is
`{received: true}`. -/
theorem subscriptionDeleted_drops_storage :
    (webhook demoEnv acmeOnPlus acmeDeletion).1 = ⟨200, .received⟩ ∧
    (findOrganizationById (webhook demoEnv acmeOnPlus acmeDeletion).2 3).map
        (fun o => (o.planId, o.subscriptionStatus, o.activePlan)) =
      some (1, some "expired",
        { name := some "Basic", maxUsers := some 1, features := ["core"], price := some 0,
          billingCycle := some "Trial" }) ∧
    (basicPlan.storage = 1 ∧ (deletedSnapshot basicPlan).storage = none ∧
      (webhookSnapshot basicPlan).storage = some 1) ∧
    (webhook demoEnv (withPlanStorage acmeOnPlus 500) acmeDeletion).2.organizations =
      (webhook demoEnv acmeOnPlus acmeDeletion).2.organizations ∧
    webhook demoEnv acmeStore acmeDeletion = (⟨200, .received⟩, acmeStore) ∧
    webhook demoEnv { acmeOnPlus with plans := [plusPlan] } acmeDeletion =
      (⟨200, .received⟩, { acmeOnPlus with plans := [plusPlan] }) := by
  decide

/-! ## Deactivation of an organization -/

theorem setMembersActive_eq {env : Env} {k : Nat} {s s1 : Store} {i : Id} {v : Bool}
    (h : setMembersActive env k s i v = some s1) :
    s1 = { s with users := (s.users.map
      (fun u => if u.organizationId == i then { u with isActive := v } else u)) } := by
  unfold setMembersActive at h
  split at h
  · simpa using h.symm
  · simp at h

/-- C20: for an existing, schema-valid organization, when both store writes
succeed, `DELETE /organizations/:id` answers 200, the organization afterwards
has `isActive = false`, every User of the organization has `isActive = false`
and every other User is unchanged. -/
theorem deactivateOrganization_cascade (env : Env) (s : Store) (id : Id) (o : Organization)
    (ho : findOrganizationById s id = some o) (hvalid : validOrganization o = true)
    (hw0 : env.writeOk 0 = true) (hw1 : env.writeOk 1 = true) :
    (deactivateOrganization env s (.objectId id)).1 =
      ⟨200, .message "Organization deactivated successfully"⟩ ∧
    findOrganizationById (deactivateOrganization env s (.objectId id)).2 id =
      some { o with isActive := false, updatedAt := env.now } ∧
    (deactivateOrganization env s (.objectId id)).2.users =
      s.users.map (fun u => if u.organizationId == id then { u with isActive := false } else u) ∧
    (∀ u ∈ (deactivateOrganization env s (.objectId id)).2.users, u.organizationId = id →
      u.isActive = false) ∧
    (∀ u ∈ s.users, u.organizationId ≠ id →
      u ∈ (deactivateOrganization env s (.objectId id)).2.users) := by
  have hid := findOrganizationById_id ho
  have hmem := findOrganizationById_mem ho
  have hvalid2 : validOrganization { o with isActive := false } = true := hvalid
  have hu := updateOrganization_ok (s := s) hw0 hvalid2
  have hres : deactivateOrganization env s (.objectId id) =
      (⟨200, .message "Organization deactivated successfully"⟩,
        { s with
          organizations := (s.organizations.map
            (fun x => if x.id == o.id then { o with isActive := false, updatedAt := env.now }
              else x)),
          users := (s.users.map
            (fun u => if u.organizationId == o.id then { u with isActive := false } else u)) }) := by
    unfold deactivateOrganization
    simp only [castObjectId, ho, hu, setMembersActive, hw1, if_true]
  rw [hres]
  refine ⟨rfl, ?_, ?_, ?_, ?_⟩
  · rw [← hid]
    exact find_replace_organization s.organizations o.id _ ⟨o, hmem, rfl⟩ rfl
  · rw [hid]
  · intro u hu' horg
    simp only [List.mem_map] at hu'
    obtain ⟨v, _, hv⟩ := hu'
    by_cases hc : v.organizationId = o.id
    · simp only [hc, beq_self_eq_true, if_true] at hv
      rw [← hv]
    · have hb : (v.organizationId == o.id) = false := by simpa using hc
      simp only [hb, Bool.false_eq_true, if_false] at hv
      subst hv
      exact absurd (horg.trans hid.symm) hc
  · intro u hu' horg
    simp only [List.mem_map]
    refine ⟨u, hu', ?_⟩
    have hb : (u.organizationId == o.id) = false := by
      rw [hid]; simpa using horg
    simp only [hb, Bool.false_eq_true, if_false]

/-- C20, witness: Acme, with two members, is deactivated next to Bolt; Bolt's
admin stays active. -/
theorem deactivateOrganization_cascade_witness :
    (deactivateOrganization demoEnv twoOrganizations (.objectId 3)).1 =
      ⟨200, .message "Organization deactivated successfully"⟩ ∧
    (findOrganizationById (deactivateOrganization demoEnv twoOrganizations (.objectId 3)).2 3).map
      (fun o => o.isActive) = some false ∧
    (deactivateOrganization demoEnv twoOrganizations (.objectId 3)).2.users.map
      (fun u => (u.organizationId, u.isActive)) =
      [(3, false), (3, false), (3, false), (7, true)] :=
  ⟨(deactivateOrganization_cascade demoEnv twoOrganizations 3
      ((findOrganizationById twoOrganizations 3).getD acmeOrganization)
      (by decide) (by decide) rfl rfl).1, by decide, by decide⟩

/-! ## Checkout session creation and billing failures -/

theorem jsOrStr_none_eq_some {a : Option String} {c : String}
    (h : jsOrStr a none = some c) : a = some c ∧ c ≠ "" := by
  unfold jsOrStr at h
  split at h
  · rename_i x
    split at h
    · simp at h
    · rename_i hx
      simp only [Option.some.injEq] at h
      subst h
      exact ⟨rfl, hx⟩
  · simp at h

theorem jsOrStr_none_eq_none {a : Option String}
    (h : jsOrStr a none = none) : a = none ∨ a = some "" := by
  unfold jsOrStr at h
  split at h
  · rename_i x
    split at h
    · rename_i hx
      right; rw [hx]
    · simp at h
  · left; rfl

theorem createCheckoutSession_store (gw : Gateway) (s : Store) (calls : List StripeCall)
    (customer : String) (plan : Plan) (organization : Organization) :
    (createCheckoutSession gw s calls customer plan organization).2.1 = s := by
  unfold createCheckoutSession
  split <;> rfl

theorem createCheckoutSession_calls (gw : Gateway) (s : Store) (calls : List StripeCall)
    (customer : String) (plan : Plan) (organization : Organization) :
    (createCheckoutSession gw s calls customer plan organization).2.2 =
      calls ++ [.sessionsCreate customer plan.stripePriceId organization.id plan.id] := by
  unfold createCheckoutSession
  split <;> rfl

/-- C18 (amended): `POST /stripe/subscribe` either leaves the store unchanged,
or, when the caller's organization had no customer reference (absent or the
empty string) and the customer was created, rewrites exactly two fields of
that organization: `stripeCustomerId` (the new customer) and the `updatedAt`
stamp.  In every case the organization keeps its subscriptionStatus, planId,
activePlan and subscription dates; an organization with a non-empty customer
reference is not written at all and no customer is created for it. -/
theorem subscribe_frame (env : Env) (gw : Gateway) (s : Store) (caller : User)
    (planId : Option IdParam) (o : Organization)
    (ho : findOrganizationById s caller.organizationId = some o) :
    ((subscribe env gw s caller planId).2.1 = s ∨
      ∃ c, (o.stripeCustomerId = none ∨ o.stripeCustomerId = some "") ∧
        gw.customersCreate = some c ∧
        (subscribe env gw s caller planId).2.1 =
          { s with organizations := (s.organizations.map
            (fun x => if x.id == o.id then
              { o with stripeCustomerId := some c, updatedAt := env.now } else x)) }) ∧
    (∃ o1, findOrganizationById (subscribe env gw s caller planId).2.1
          caller.organizationId = some o1 ∧
        o1.subscriptionStatus = o.subscriptionStatus ∧ o1.planId = o.planId ∧
        o1.activePlan = o.activePlan ∧
        o1.subscriptionStartDate = o.subscriptionStartDate ∧
        o1.subscriptionEndDate = o.subscriptionEndDate) ∧
    (∀ c, o.stripeCustomerId = some c → c ≠ "" →
      (subscribe env gw s caller planId).2.1 = s ∧
      ∀ e i, StripeCall.customersCreate e i ∉ (subscribe env gw s caller planId).2.2) := by
  have hid := findOrganizationById_id ho
  have hmem := findOrganizationById_mem ho
  have key : ((subscribe env gw s caller planId).2.1 = s ∧
        ((∃ c, o.stripeCustomerId = some c ∧ c ≠ "") →
          ∀ e i, StripeCall.customersCreate e i ∉ (subscribe env gw s caller planId).2.2)) ∨
      ∃ c, (o.stripeCustomerId = none ∨ o.stripeCustomerId = some "") ∧
        gw.customersCreate = some c ∧
        (subscribe env gw s caller planId).2.1 =
          { s with organizations := (s.organizations.map
            (fun x => if x.id == o.id then
              { o with stripeCustomerId := some c, updatedAt := env.now } else x)) } := by
    unfold subscribe
    split
    · left; exact ⟨rfl, fun _ e i => by simp⟩
    · split
      · left; exact ⟨rfl, fun _ e i => by simp⟩
      · split
        · left; exact ⟨rfl, fun _ e i => by simp⟩
        · simp only [ho]
          split
          · rename_i customerId hc
            split
            · left; exact ⟨rfl, fun _ e i => by simp⟩
            · left
              refine ⟨createCheckoutSession_store _ _ _ _ _ _, fun _ e i => ?_⟩
              rw [createCheckoutSession_calls]
              simp
          · rename_i hc
            have hfalsy := jsOrStr_none_eq_none hc
            have hno : ¬ ∃ c, o.stripeCustomerId = some c ∧ c ≠ "" := by
              rintro ⟨c, h1, h2⟩
              rcases hfalsy with h | h
              · rw [h] at h1; simp at h1
              · rw [h] at h1
                simp only [Option.some.injEq] at h1
                exact h2 h1.symm
            split
            · left; exact ⟨rfl, fun h => absurd h hno⟩
            · rename_i c hcreate
              split
              · left; exact ⟨rfl, fun h => absurd h hno⟩
              · rename_i s1 hu
                right
                refine ⟨c, hfalsy, hcreate, ?_⟩
                rw [createCheckoutSession_store]
                exact updateOrganization_eq hu
  refine ⟨?_, ?_, ?_⟩
  · rcases key with h | h
    · exact Or.inl h.1
    · exact Or.inr h
  · rcases key with h | ⟨c, _, _, h⟩
    · rw [h.1]
      exact ⟨o, ho, rfl, rfl, rfl, rfl, rfl⟩
    · rw [h]
      refine ⟨{ o with stripeCustomerId := some c, updatedAt := env.now }, ?_, rfl, rfl, rfl,
        rfl, rfl⟩
      rw [← hid]
      exact find_replace_organization s.organizations o.id _ ⟨o, hmem, rfl⟩ rfl
  · intro c hc hne
    rcases key with h | ⟨c1, hfalsy, _, _⟩
    · exact ⟨h.1, h.2 ⟨c, hc, hne⟩⟩
    · rcases hfalsy with h | h
      · rw [h] at hc; simp at hc
      · rw [h] at hc
        simp only [Option.some.injEq] at hc
        exact absurd hc.symm hne

/-- C18, witness: Acme's admin subscribes to Plus for the first time. -/
theorem subscribe_frame_witness :
    ((subscribe laterEnv okGateway acmeStore acmeAdmin (some (.objectId 2))).2.1 = acmeStore ∨
      ∃ c, (acmeOrganization.stripeCustomerId = none ∨
          acmeOrganization.stripeCustomerId = some "") ∧
        okGateway.customersCreate = some c ∧
        (subscribe laterEnv okGateway acmeStore acmeAdmin (some (.objectId 2))).2.1 =
          { acmeStore with organizations := (acmeStore.organizations.map
            (fun x => if x.id == acmeOrganization.id then
              { acmeOrganization with stripeCustomerId := some c, updatedAt := laterEnv.now }
              else x)) }) ∧
    (∃ o1, findOrganizationById
          (subscribe laterEnv okGateway acmeStore acmeAdmin (some (.objectId 2))).2.1
          acmeAdmin.organizationId = some o1 ∧
        o1.subscriptionStatus = acmeOrganization.subscriptionStatus ∧
        o1.planId = acmeOrganization.planId ∧
        o1.activePlan = acmeOrganization.activePlan ∧
        o1.subscriptionStartDate = acmeOrganization.subscriptionStartDate ∧
        o1.subscriptionEndDate = acmeOrganization.subscriptionEndDate) ∧
    (∀ c, acmeOrganization.stripeCustomerId = some c → c ≠ "" →
      (subscribe laterEnv okGateway acmeStore acmeAdmin (some (.objectId 2))).2.1 = acmeStore ∧
      ∀ e i, StripeCall.customersCreate e i ∉
        (subscribe laterEnv okGateway acmeStore acmeAdmin (some (.objectId 2))).2.2) :=
  subscribe_frame laterEnv okGateway acmeStore acmeAdmin (some (.objectId 2)) acmeOrganization
    (by decide)

/-- C18, counterexample: Acme's admin subscribes at time 2000; besides
`stripeCustomerId` the organization's `updatedAt` changes, from 1000 to 2000. -/
theorem subscribe_restamps_counterexample :
    (findOrganizationById acmeStore 3).map (fun o => (o.stripeCustomerId, o.updatedAt)) =
      some (none, 1000) ∧
    (subscribe laterEnv okGateway acmeStore acmeAdmin (some (.objectId 2))).1 =
      ⟨200, .session "cs_1"⟩ ∧
    (findOrganizationById
      (subscribe laterEnv okGateway acmeStore acmeAdmin (some (.objectId 2))).2.1 3).map
        (fun o => (o.stripeCustomerId, o.updatedAt)) = some (some "cus_acme", 2000) := by
  decide

/-- C19 (amended): when a billing-provider call issued by `POST /plans` or
`PUT /plans/:id` fails, the answer is 500 and the store is unchanged; when a
call issued by `POST /stripe/subscribe` fails, the answer is 500 and the store
is unchanged, except that a customer created earlier in the same request stays
persisted on the caller's organization (`stripeCustomerId` and the `updatedAt`
stamp) when the checkout-session creation is the call that fails. -/
theorem billing_failure_effects (env : Env) (gw : Gateway) (s : Store) :
    (∀ b, (createPlan env gw s b).2.2.any (callFailed gw) = true →
      (createPlan env gw s b).1.status = 500 ∧ (createPlan env gw s b).2.1 = s) ∧
    (∀ id updates, (putPlan env gw s id updates).2.2.any (callFailed gw) = true →
      (putPlan env gw s id updates).1.status = 500 ∧ (putPlan env gw s id updates).2.1 = s) ∧
    (∀ caller planId, (subscribe env gw s caller planId).2.2.any (callFailed gw) = true →
      (subscribe env gw s caller planId).1.status = 500 ∧
      ((subscribe env gw s caller planId).2.1 = s ∨
        ∃ o c, findOrganizationById s caller.organizationId = some o ∧
          gw.customersCreate = some c ∧ gw.sessionsCreate = none ∧
          (subscribe env gw s caller planId).2.1 =
            { s with organizations := (s.organizations.map
              (fun x => if x.id == o.id then
                { o with stripeCustomerId := some c, updatedAt := env.now } else x)) })) := by
  refine ⟨?_, ?_, ?_⟩
  · intro b
    unfold createPlan
    split
    · simp
    · split
      · simp
      · split
        · simp
        · split
          · simp
          · split
            · simp
            · try dsimp only
              split
              · simp
              · rename_i product hprod
                try dsimp only
                split
                · simp
                · rename_i priceId hprice
                  split
                  · simp
                  · split
                    · simp
                    · simp [callFailed, hprod, hprice]
  · intro id updates
    unfold putPlan
    split
    · simp
    · split
      · simp
      · split
        · try dsimp only
          split
          · simp
          · rename_i product hprod
            try dsimp only
            split
            · simp
            · rename_i priceId hprice
              split
              · simp
              · rename_i hnot
                split
                · simp
                · intro hany
                  exfalso
                  by_cases hp : (‹Plan›).stripePriceId = ""
                  · simp [hp, callFailed, hprod, hprice] at hany
                  · simp only [hp, if_false] at hany
                    have hup : gw.pricesUpdate = true := by
                      by_contra hf
                      exact hnot ⟨hp, by simpa using hf⟩
                    simp [callFailed, hprod, hprice, hup] at hany
        · split
          · simp
          · simp
  · intro caller planId
    unfold subscribe
    split
    · simp
    · split
      · simp
      · split
        · simp
        · split
          · simp
          · rename_i o ho
            split
            · rename_i customerId hc
              split
              · simp
              · rename_i customer hret
                unfold createCheckoutSession
                try dsimp only
                split
                · intro _; exact ⟨rfl, Or.inl rfl⟩
                · rename_i session hsess
                  simp [callFailed, hret, hsess]
            · split
              · simp
              · rename_i c hcreate
                split
                · simp
                · rename_i s1 hu
                  unfold createCheckoutSession
                  try dsimp only
                  split
                  · rename_i hsess
                    intro _
                    exact ⟨rfl, Or.inr ⟨o, c, ho, hcreate, hsess, updateOrganization_eq hu⟩⟩
                  · rename_i session hsess
                    simp [callFailed, hcreate, hsess]

/-- C19, witness: a failing product creation in `POST /plans`, a failing price
creation in `PUT /plans/2`, and a failing session creation in
`POST /stripe/subscribe`. -/
theorem billing_failure_effects_witness :
    ((createPlan demoEnv productFails catalogStore standardPlanBody).1.status = 500 ∧
      (createPlan demoEnv productFails catalogStore standardPlanBody).2.1 = catalogStore) ∧
    ((putPlan demoEnv priceFails catalogStore (.objectId 2) raisePrice).1.status = 500 ∧
      (putPlan demoEnv priceFails catalogStore (.objectId 2) raisePrice).2.1 = catalogStore) ∧
    (subscribe laterEnv sessionFails acmeStore acmeAdmin (some (.objectId 2))).1.status = 500 :=
  ⟨(billing_failure_effects demoEnv productFails catalogStore).1 standardPlanBody (by decide),
   (billing_failure_effects demoEnv priceFails catalogStore).2.1 (.objectId 2) raisePrice
      (by decide),
   ((billing_failure_effects laterEnv sessionFails acmeStore).2.2 acmeAdmin (some (.objectId 2))
      (by decide)).1⟩

/-- C19, counterexample: Acme's admin subscribes for the first time, the
customer is created and the checkout-session creation fails; the request
fails with 500 and the organization has been updated with the new
`stripeCustomerId`. -/
theorem subscribe_keeps_customer_counterexample :
    (subscribe laterEnv sessionFails acmeStore acmeAdmin (some (.objectId 2))).1.status = 500 ∧
    (subscribe laterEnv sessionFails acmeStore acmeAdmin (some (.objectId 2))).2.2 =
      [.customersCreate "a@acme.com" 3, .sessionsCreate "cus_acme" "price_plus" 3 2] ∧
    callFailed sessionFails (.sessionsCreate "cus_acme" "price_plus" 3 2) = true ∧
    (subscribe laterEnv sessionFails acmeStore acmeAdmin (some (.objectId 2))).2.1 ≠ acmeStore ∧
    (findOrganizationById acmeStore 3).map (fun o => o.stripeCustomerId) = some none ∧
    (findOrganizationById
      (subscribe laterEnv sessionFails acmeStore acmeAdmin (some (.objectId 2))).2.1 3).map
      (fun o => o.stripeCustomerId) = some (some "cus_acme") := by
  decide

/-! ## The closed status set -/

theorem statusEnumerated_of_organizations {s s1 : Store} (h : s1.organizations = s.organizations)
    (hs : statusEnumerated s) : statusEnumerated s1 := by
  unfold statusEnumerated at hs ⊢
  rw [h]; exact hs

theorem validOrganization_status {o : Organization} (h : validOrganization o = true) :
    o.subscriptionStatus = none ∨ o.subscriptionStatus = some "trialing" ∨
      o.subscriptionStatus = some "active" ∨ o.subscriptionStatus = some "canceled" ∨
      o.subscriptionStatus = some "expired" := by
  unfold validOrganization at h
  simp only [Bool.and_eq_true, Bool.or_eq_true, beq_iff_eq] at h
  rcases h.2 with (((h | h) | h) | h) | h
  · exact Or.inl h
  · exact Or.inr (Or.inr (Or.inl h))
  · exact Or.inr (Or.inl h)
  · exact Or.inr (Or.inr (Or.inr (Or.inl h)))
  · exact Or.inr (Or.inr (Or.inr (Or.inr h)))

theorem updateOrganization_closed {env : Env} {k : Nat} {s s1 : Store} {o : Organization}
    (h : updateOrganization env k s o = some s1) (hs : statusEnumerated s) :
    statusEnumerated s1 := by
  have hvalid : validOrganization o = true := by
    unfold updateOrganization at h
    split at h
    · rename_i hc
      simp only [Bool.and_eq_true] at hc
      exact hc.2
    · simp at h
  rw [updateOrganization_eq h]
  intro x hx
  simp only [List.mem_map] at hx
  obtain ⟨y, hy, rfl⟩ := hx
  split
  · exact validOrganization_status hvalid
  · exact hs y hy

theorem insertOrganization_closed {env : Env} {k : Nat} {s s1 : Store} {o : Organization}
    (h : insertOrganization env k s o = some s1) (hs : statusEnumerated s) :
    statusEnumerated s1 := by
  have hvalid : validOrganization o = true := by
    unfold insertOrganization at h
    split at h
    · rename_i hc
      simp only [Bool.and_eq_true] at hc
      exact hc.2
    · simp at h
  rw [insertOrganization_eq h]
  intro x hx
  simp only [List.mem_append, List.mem_singleton] at hx
  rcases hx with hx | rfl
  · exact hs x hx
  · exact validOrganization_status hvalid

theorem deleteOrganizationById_closed {env : Env} {k : Nat} {s s1 : Store} {i : Id}
    (h : deleteOrganizationById env k s i = some s1) (hs : statusEnumerated s) :
    statusEnumerated s1 := by
  unfold deleteOrganizationById at h
  split at h
  · simp only [Option.some.injEq] at h
    subst h
    intro x hx
    exact hs x (List.mem_of_mem_filter hx)
  · simp at h

theorem insertUser_closed {env : Env} {k : Nat} {s s1 : Store} {u : User}
    (h : insertUser env k s u = some s1) (hs : statusEnumerated s) : statusEnumerated s1 :=
  statusEnumerated_of_organizations (by rw [insertUser_eq h]) hs

theorem updateUser_closed {env : Env} {k : Nat} {s s1 : Store} {u : User}
    (h : updateUser env k s u = some s1) (hs : statusEnumerated s) : statusEnumerated s1 := by
  unfold updateUser at h
  split at h
  · simp only [Option.some.injEq] at h
    subst h
    exact hs
  · simp at h

theorem setMembersActive_closed {env : Env} {k : Nat} {s s1 : Store} {i : Id} {v : Bool}
    (h : setMembersActive env k s i v = some s1) (hs : statusEnumerated s) : statusEnumerated s1 :=
  statusEnumerated_of_organizations (by rw [setMembersActive_eq h]) hs

theorem deleteMembers_closed {env : Env} {k : Nat} {s s1 : Store} {i : Id}
    (h : deleteMembers env k s i = some s1) (hs : statusEnumerated s) : statusEnumerated s1 := by
  unfold deleteMembers at h
  split at h
  · simp only [Option.some.injEq] at h
    subst h
    exact hs
  · simp at h

theorem deleteUserById_closed {env : Env} {k : Nat} {s s1 : Store} {i : Id}
    (h : deleteUserById env k s i = some s1) (hs : statusEnumerated s) : statusEnumerated s1 := by
  unfold deleteUserById at h
  split at h
  · simp only [Option.some.injEq] at h
    subst h
    exact hs
  · simp at h

theorem insertPlan_closed {env : Env} {k : Nat} {s s1 : Store} {p : Plan}
    (h : insertPlan env k s p = some s1) (hs : statusEnumerated s) : statusEnumerated s1 := by
  unfold insertPlan at h
  split at h
  · simp only [Option.some.injEq] at h
    subst h
    exact hs
  · simp at h

theorem updatePlan_closed {env : Env} {k : Nat} {s s1 : Store} {p : Plan}
    (h : updatePlan env k s p = some s1) (hs : statusEnumerated s) : statusEnumerated s1 := by
  unfold updatePlan at h
  split at h
  · simp only [Option.some.injEq] at h
    subst h
    exact hs
  · simp at h

theorem registerUser_closed (env : Env) (s : Store) (caller : User) (b : RegisterUserBody)
    (hs : statusEnumerated s) : statusEnumerated (registerUser env s caller b).2 := by
  unfold registerUser
  repeat' first | split | dsimp only
  all_goals first
    | exact hs
    | exact insertUser_closed (by assumption) hs
    | exact updateOrganization_closed (by assumption) (insertUser_closed (by assumption) hs)

theorem register_closed (env : Env) (s : Store) (b : RegisterBody)
    (hs : statusEnumerated s) : statusEnumerated (register env s b).2 := by
  unfold register
  repeat' first | split | dsimp only
  all_goals first
    | exact hs
    | exact insertOrganization_closed (by assumption) hs
    | exact insertUser_closed (by assumption) (insertOrganization_closed (by assumption) hs)

theorem createOrganizationUser_closed (env : Env) (s : Store) (caller : User)
    (b : CreateUserBody) (hs : statusEnumerated s) :
    statusEnumerated (createOrganizationUser env s caller b).2 := by
  unfold createOrganizationUser
  repeat' first | split | dsimp only
  all_goals first
    | exact hs
    | exact insertUser_closed (by assumption) hs
    | exact updateOrganization_closed (by assumption) (insertUser_closed (by assumption) hs)

theorem updateOrganizationUser_closed (env : Env) (s : Store) (caller : User) (id : IdParam)
    (updates : UserPatch) (hs : statusEnumerated s) :
    statusEnumerated (updateOrganizationUser env s caller id updates).2 := by
  unfold updateOrganizationUser
  repeat' first | split | dsimp only
  all_goals first
    | exact hs
    | exact updateUser_closed (by assumption) hs

theorem updateProfile_closed (env : Env) (s : Store) (caller : User)
    (updates : UserPatch) (hs : statusEnumerated s) :
    statusEnumerated (updateProfile env s caller updates).2 := by
  unfold updateProfile
  repeat' first | split | dsimp only
  all_goals first
    | exact hs
    | exact updateUser_closed (by assumption) hs

theorem deleteUser_closed (env : Env) (s : Store) (caller : User) (userId : IdParam)
    (hs : statusEnumerated s) : statusEnumerated (deleteUser env s caller userId).2 := by
  unfold deleteUser
  repeat' first | split | dsimp only
  all_goals first
    | exact hs
    | exact deleteUserById_closed (by assumption) hs

theorem deactivateUser_closed (env : Env) (s : Store) (caller : User) (id : IdParam)
    (hs : statusEnumerated s) : statusEnumerated (deactivateUser env s caller id).2 := by
  unfold deactivateUser
  repeat' first | split | dsimp only
  all_goals first
    | exact hs
    | exact updateUser_closed (by assumption) hs
    | exact updateOrganization_closed (by assumption) (updateUser_closed (by assumption) hs)

theorem createOrganization_closed (env : Env) (s : Store) (b : OrganizationBody)
    (hs : statusEnumerated s) : statusEnumerated (createOrganization env s b).2 := by
  unfold createOrganization
  repeat' first | split | dsimp only
  all_goals first
    | exact hs
    | exact insertOrganization_closed (by assumption) hs

theorem putOrganization_closed (env : Env) (s : Store) (id : IdParam) (updates : OrganizationPatch)
    (hs : statusEnumerated s) : statusEnumerated (putOrganization env s id updates).2 := by
  unfold putOrganization
  repeat' first | split | dsimp only
  all_goals first
    | exact hs
    | exact updateOrganization_closed (by assumption) hs

theorem deactivateOrganization_closed (env : Env) (s : Store) (id : IdParam)
    (hs : statusEnumerated s) : statusEnumerated (deactivateOrganization env s id).2 := by
  unfold deactivateOrganization
  repeat' first | split | dsimp only
  all_goals first
    | exact hs
    | exact updateOrganization_closed (by assumption) hs
    | exact setMembersActive_closed (by assumption)
        (updateOrganization_closed (by assumption) hs)

theorem toggleStatus_closed (env : Env) (s : Store) (id : IdParam)
    (hs : statusEnumerated s) : statusEnumerated (toggleStatus env s id).2 := by
  unfold toggleStatus
  repeat' first | split | dsimp only
  all_goals first
    | exact hs
    | exact updateOrganization_closed (by assumption) hs
    | exact setMembersActive_closed (by assumption)
        (updateOrganization_closed (by assumption) hs)

theorem deleteOrganizationPermanently_closed (env : Env) (s : Store) (id : IdParam)
    (hs : statusEnumerated s) : statusEnumerated (deleteOrganizationPermanently env s id).2 := by
  unfold deleteOrganizationPermanently
  repeat' first | split | dsimp only
  all_goals first
    | exact hs
    | exact deleteMembers_closed (by assumption) hs
    | exact deleteOrganizationById_closed (by assumption)
        (deleteMembers_closed (by assumption) hs)

theorem createPlan_closed (env : Env) (gw : Gateway) (s : Store) (b : PlanBody)
    (hs : statusEnumerated s) : statusEnumerated (createPlan env gw s b).2.1 := by
  unfold createPlan
  repeat' first | split | dsimp only
  all_goals first
    | exact hs
    | exact insertPlan_closed (by assumption) hs

theorem putPlan_closed (env : Env) (gw : Gateway) (s : Store) (id : IdParam) (updates : PlanPatch)
    (hs : statusEnumerated s) : statusEnumerated (putPlan env gw s id updates).2.1 := by
  unfold putPlan
  repeat' first | split | dsimp only
  all_goals first
    | exact hs
    | exact updatePlan_closed (by assumption) hs

theorem deletePlan_closed (env : Env) (s : Store) (id : IdParam)
    (hs : statusEnumerated s) : statusEnumerated (deletePlan env s id).2 := by
  unfold deletePlan
  repeat' first | split | dsimp only
  all_goals first
    | exact hs
    | exact updatePlan_closed (by assumption) hs

theorem subscribe_closed (env : Env) (gw : Gateway) (s : Store) (caller : User)
    (planId : Option IdParam) (hs : statusEnumerated s) :
    statusEnumerated (subscribe env gw s caller planId).2.1 := by
  unfold subscribe
  repeat' first | split | dsimp only
  all_goals first
    | exact hs
    | (rw [createCheckoutSession_store]; exact hs)
    | (rw [createCheckoutSession_store]; exact updateOrganization_closed (by assumption) hs)

theorem webhook_closed (env : Env) (s : Store) (request : Except String StripeEvent)
    (hs : statusEnumerated s) : statusEnumerated (webhook env s request).2 := by
  unfold webhook
  split
  · exact hs
  · unfold checkoutCompleted
    repeat' first | split | dsimp only
    all_goals first
      | exact hs
      | exact updateOrganization_closed (by assumption) hs
  · unfold subscriptionUpdated
    repeat' first | split | dsimp only
    all_goals first
      | exact hs
      | exact updateOrganization_closed (by assumption) hs
  · unfold subscriptionDeleted
    repeat' first | split | dsimp only
    all_goals first
      | exact hs
      | exact updateOrganization_closed (by assumption) hs
  · exact hs

theorem guarded_closed (s : Store) (caller : User) (roles : Option (List Role))
    (handler : Response × Store) (hs : statusEnumerated s) (hh : statusEnumerated handler.2) :
    statusEnumerated (guarded s caller roles handler).2 := by
  unfold guarded
  split
  · exact hs
  · exact hh

theorem handle_closed (env : Env) (s : Store) (request : Request) (hs : statusEnumerated s) :
    statusEnumerated (handle env s request).2 := by
  cases request with
  | register b => exact register_closed env s b hs
  | registerUser caller b =>
    exact guarded_closed _ _ _ _ hs (registerUser_closed env s caller b hs)
  | deleteUser caller userId =>
    exact guarded_closed _ _ _ _ hs (deleteUser_closed env s caller userId hs)
  | createOrganizationUser caller b =>
    exact guarded_closed _ _ _ _ hs (createOrganizationUser_closed env s caller b hs)
  | updateOrganizationUser caller id updates =>
    exact guarded_closed _ _ _ _ hs (updateOrganizationUser_closed env s caller id updates hs)
  | deactivateUser caller id =>
    exact guarded_closed _ _ _ _ hs (deactivateUser_closed env s caller id hs)
  | updateProfile caller updates =>
    exact guarded_closed _ _ _ _ hs (updateProfile_closed env s caller updates hs)
  | createOrganization caller b =>
    exact guarded_closed _ _ _ _ hs (createOrganization_closed env s b hs)
  | putOrganization caller id updates =>
    exact guarded_closed _ _ _ _ hs (putOrganization_closed env s id updates hs)
  | deactivateOrganization caller id =>
    exact guarded_closed _ _ _ _ hs (deactivateOrganization_closed env s id hs)
  | toggleStatus caller id =>
    exact guarded_closed _ _ _ _ hs (toggleStatus_closed env s id hs)
  | deleteOrganizationPermanently caller id =>
    exact guarded_closed _ _ _ _ hs (deleteOrganizationPermanently_closed env s id hs)
  | createPlan caller gw b =>
    exact guarded_closed _ _ _ _ hs (createPlan_closed env gw s b hs)
  | putPlan caller gw id updates =>
    exact guarded_closed _ _ _ _ hs (putPlan_closed env gw s id updates hs)
  | deletePlan caller id =>
    exact guarded_closed _ _ _ _ hs (deletePlan_closed env s id hs)
  | subscribe caller gw planId =>
    exact guarded_closed _ _ _ _ hs (subscribe_closed env gw s caller planId hs)
  | webhook request => exact webhook_closed env s request hs

/-- The statuses the schema admits are an invariant of the API: from a store
in which every Organization has `null` or one of the statuses `trialing`,
`active`, `canceled`, `expired`, every sequence of requests (each with its own
clock, write outcomes, caller, body, patch or webhook event) leads to a store
of that kind. -/
theorem statusEnumerated_run (s : Store) (trace : List (Env × Request))
    (hs : statusEnumerated s) : statusEnumerated (run s trace) := by
  unfold run
  induction trace generalizing s with
  | nil => exact hs
  | cons step rest ih =>
    rw [List.foldl_cons]
    exact ih _ (handle_closed step.1 s step.2 hs)

/-- C13, failing input: after Acme registered and checked out, the operator
sends `PUT /organizations/3` with `{ subscriptionStatus: null }`.  The answer is
200 and the stored status is `null`, outside the four statuses, although the
store before the request is within them; a `past_due` update and a patch to
`paused` before it are refused with 500. -/
theorem putOrganization_null_status :
    statusClosed (run platformStore statusTrace) ∧
    (handle laterEnv (run platformStore (statusTrace.take 2)) (.webhook acmePastDue)).1.status
      = 500 ∧
    (handle laterEnv (run platformStore (statusTrace.take 3))
      (.putOrganization operator (.objectId 3) pausedPatch)).1.status = 500 ∧
    (handle laterEnv (run platformStore statusTrace)
      (.putOrganization operator (.objectId 3) nullStatusPatch)).1.status = 200 ∧
    (run platformStore nullStatusTrace).organizations.map (fun o => o.subscriptionStatus) =
      [none] ∧
    ¬ statusClosed (run platformStore nullStatusTrace) := by
  refine ⟨?_, by decide, by decide, by decide, by decide, ?_⟩
  · have h : (run platformStore statusTrace).organizations.map
        (fun o => o.subscriptionStatus) = [some "active"] := by decide
    intro o ho
    have hm := List.mem_map_of_mem (fun o => o.subscriptionStatus) ho
    rw [h] at hm
    simp only [List.mem_singleton] at hm
    exact Or.inr (Or.inl hm)
  · intro hc
    have h : (run platformStore nullStatusTrace).organizations.map
        (fun o => o.subscriptionStatus) = [none] := by decide
    have hex : ∃ o ∈ (run platformStore nullStatusTrace).organizations,
        o.subscriptionStatus = none := by
      have hm : (none : Option String) ∈ (run platformStore nullStatusTrace).organizations.map
          (fun o => o.subscriptionStatus) := by rw [h]; exact List.mem_singleton.mpr rfl
      obtain ⟨o, ho, hn⟩ := List.mem_map.mp hm
      exact ⟨o, ho, hn⟩
    obtain ⟨o, ho, hn⟩ := hex
    have := hc o ho
    rw [hn] at this
    simp at this

/-! ## Self-removal and tenant isolation -/

theorem accessGate_pass {s : Store} {caller : User} {roles : List Role}
    (hmem : caller ∈ s.users) (hact : caller.isActive = true)
    (hrole : caller.role ∈ roles) : accessGate s caller (some roles) = none := by
  simp [accessGate, hmem, hact, hrole]

theorem guarded_pass {s : Store} {caller : User} {roles : List Role}
    (handler : Response × Store)
    (hmem : caller ∈ s.users) (hact : caller.isActive = true)
    (hrole : caller.role ∈ roles) : guarded s caller (some roles) handler = handler := by
  simp [guarded, accessGate_pass hmem hact hrole]

theorem findUserInOrganization_self {s : Store} {caller : User} (hmem : caller ∈ s.users) :
    ∃ u, findUserInOrganization s caller.id caller.organizationId = some u ∧
      u.id = caller.id := by
  have hsome : (s.users.find?
      (fun u => u.id == caller.id && u.organizationId == caller.organizationId)).isSome = true := by
    rw [List.find?_isSome]
    exact ⟨caller, hmem, by simp⟩
  obtain ⟨u, hu⟩ := Option.isSome_iff_exists.mp hsome
  refine ⟨u, hu, ?_⟩
  have := List.find?_some hu
  simp only [Bool.and_eq_true, beq_iff_eq] at this
  exact this.1

/-- C23: for every admin caller (a live, active User of the store with role
`admin`), `DELETE /auth/users/:userId` and `DELETE /users/organization/:id`
with the caller's own id answer 400 and return the store unchanged, so the
caller's record stays present and active. -/
theorem self_removal_forbidden (env : Env) (s : Store) (caller : User)
    (hmem : caller ∈ s.users) (hact : caller.isActive = true)
    (hrole : caller.role = Role.admin) :
    handle env s (.deleteUser caller (.objectId caller.id)) =
      (⟨400, .message "Cannot delete your own account"⟩, s) ∧
    handle env s (.deactivateUser caller (.objectId caller.id)) =
      (⟨400, .message "Cannot deactivate yourself"⟩, s) ∧
    caller ∈ (handle env s (.deleteUser caller (.objectId caller.id))).2.users ∧
    caller ∈ (handle env s (.deactivateUser caller (.objectId caller.id))).2.users := by
  obtain ⟨u, hu, hid⟩ := findUserInOrganization_self hmem
  have hr : caller.role ∈ [Role.admin] := by simp [hrole]
  have h1 : handle env s (.deleteUser caller (.objectId caller.id)) =
      (⟨400, .message "Cannot delete your own account"⟩, s) := by
    simp only [handle]
    rw [guarded_pass _ hmem hact hr]
    simp [deleteUser, castObjectId, hu, hid]
  have h2 : handle env s (.deactivateUser caller (.objectId caller.id)) =
      (⟨400, .message "Cannot deactivate yourself"⟩, s) := by
    simp only [handle]
    rw [guarded_pass _ hmem hact hr]
    simp [deactivateUser, castObjectId, hu, hid]
  refine ⟨h1, h2, ?_, ?_⟩
  · rw [h1]; exact hmem
  · rw [h2]; exact hmem

/-- C23, witness: Acme's admin tries to remove the own account on both
routes. -/
theorem self_removal_forbidden_witness :
    handle demoEnv acmeFull (.deleteUser acmeAdmin (.objectId 4)) =
      (⟨400, .message "Cannot delete your own account"⟩, acmeFull) ∧
    handle demoEnv acmeFull (.deactivateUser acmeAdmin (.objectId 4)) =
      (⟨400, .message "Cannot deactivate yourself"⟩, acmeFull) :=
  ⟨(self_removal_forbidden demoEnv acmeFull acmeAdmin (by decide) rfl rfl).1,
   (self_removal_forbidden demoEnv acmeFull acmeAdmin (by decide) rfl rfl).2.1⟩

theorem user_eq_of_id {l : List User} (hids : (l.map (fun u => u.id)).Nodup)
    {u v : User} (hu : u ∈ l) (hv : v ∈ l) (h : u.id = v.id) : u = v :=
  List.inj_on_of_nodup_map hids hu hv h

theorem findUserInOrganization_other {s : Store} {target : User} {organizationId : Id}
    (hids : (s.users.map (fun u => u.id)).Nodup) (ht : target ∈ s.users)
    (horg : target.organizationId ≠ organizationId) :
    findUserInOrganization s target.id organizationId = none := by
  unfold findUserInOrganization
  rw [List.find?_eq_none]
  intro v hv
  simp only [Bool.and_eq_true, beq_iff_eq, not_and]
  intro hid
  have := user_eq_of_id hids hv ht hid
  subst this
  exact horg

/-- C30: in a store whose User documents have distinct ids, for every admin
caller and every User of another organization, `DELETE /auth/users/:userId`,
`PUT /users/organization/:id` and `DELETE /users/organization/:id` targeting
that User answer 404 and return the store unchanged. -/
theorem tenant_isolation (env : Env) (s : Store) (caller target : User) (updates : UserPatch)
    (hids : (s.users.map (fun u => u.id)).Nodup)
    (hmem : caller ∈ s.users) (hact : caller.isActive = true)
    (hrole : caller.role = Role.admin)
    (ht : target ∈ s.users) (horg : target.organizationId ≠ caller.organizationId) :
    handle env s (.deleteUser caller (.objectId target.id)) =
      (⟨404, .message "User not found"⟩, s) ∧
    handle env s (.updateOrganizationUser caller (.objectId target.id) updates) =
      (⟨404, .message "User not found"⟩, s) ∧
    handle env s (.deactivateUser caller (.objectId target.id)) =
      (⟨404, .message "User not found"⟩, s) := by
  have hfind := findUserInOrganization_other hids ht horg
  have hr : caller.role ∈ [Role.admin] := by simp [hrole]
  refine ⟨?_, ?_, ?_⟩
  · simp only [handle]
    rw [guarded_pass _ hmem hact hr]
    simp [deleteUser, castObjectId, hfind]
  · simp only [handle]
    rw [guarded_pass _ hmem hact hr]
    simp [updateOrganizationUser, castObjectId, hfind]
  · simp only [handle]
    rw [guarded_pass _ hmem hact hr]
    simp [deactivateUser, castObjectId, hfind]

/-- C30, witness: Acme's admin targets the admin of Bolt. -/
theorem tenant_isolation_witness :
    handle demoEnv twoOrganizations (.deleteUser acmeAdmin (.objectId 8)) =
      (⟨404, .message "User not found"⟩, twoOrganizations) ∧
    handle demoEnv twoOrganizations
        (.updateOrganizationUser acmeAdmin (.objectId 8) reactivatePatch) =
      (⟨404, .message "User not found"⟩, twoOrganizations) ∧
    handle demoEnv twoOrganizations (.deactivateUser acmeAdmin (.objectId 8)) =
      (⟨404, .message "User not found"⟩, twoOrganizations) :=
  tenant_isolation demoEnv twoOrganizations acmeAdmin
    ((findUserById twoOrganizations 8).getD acmeAdmin) reactivatePatch
    (by decide) (by decide) rfl rfl (by decide) (by decide)

/-! ## Permanent deletion, removal of a user, reactivation -/

/-- C22 (amended): for an existing organization, when both store writes
succeed, `DELETE /organizations/:id/permanent` answers 200 and the store
afterwards holds no Organization with that id and no User whose organizationId
is that id, every other document being kept; for a well-formed identifier no
organization has, the answer is 404 and the store is unchanged. -/
theorem permanent_delete_cascade (env : Env) (s : Store) (id : Id) :
    (∀ o, findOrganizationById s id = some o →
        env.writeOk 0 = true → env.writeOk 1 = true →
        (deleteOrganizationPermanently env s (.objectId id)).1 =
          ⟨200, .message "Organization permanently deleted"⟩ ∧
        (∀ x ∈ (deleteOrganizationPermanently env s (.objectId id)).2.organizations,
          x.id ≠ id) ∧
        (∀ u ∈ (deleteOrganizationPermanently env s (.objectId id)).2.users,
          u.organizationId ≠ id) ∧
        (deleteOrganizationPermanently env s (.objectId id)).2.organizations =
          s.organizations.filter (fun x => !(x.id == id)) ∧
        (deleteOrganizationPermanently env s (.objectId id)).2.users =
          s.users.filter (fun u => !(u.organizationId == id)) ∧
        (deleteOrganizationPermanently env s (.objectId id)).2.plans = s.plans) ∧
    (findOrganizationById s id = none →
      deleteOrganizationPermanently env s (.objectId id) =
        (⟨404, .message "Organization not found"⟩, s)) := by
  constructor
  · intro o ho hw0 hw1
    have hid := findOrganizationById_id ho
    have hres : deleteOrganizationPermanently env s (.objectId id) =
        (⟨200, .message "Organization permanently deleted"⟩,
          { s with
            users := s.users.filter (fun u => !(u.organizationId == id)),
            organizations := s.organizations.filter (fun x => !(x.id == id)) }) := by
      unfold deleteOrganizationPermanently
      simp only [castObjectId, ho, deleteMembers, deleteOrganizationById, hw0, hw1, if_true, hid]
    rw [hres]
    refine ⟨rfl, ?_, ?_, rfl, rfl, rfl⟩
    · intro x hx
      have := (List.mem_filter.mp hx).2
      simpa using this
    · intro u hu
      have := (List.mem_filter.mp hu).2
      simpa using this
  · intro ho
    unfold deleteOrganizationPermanently
    simp only [castObjectId, ho]

/-- C22, witness: Acme is deleted next to Bolt; an unknown id is answered
404. -/
theorem permanent_delete_cascade_witness :
    ((deleteOrganizationPermanently demoEnv twoOrganizations (.objectId 3)).1 =
        ⟨200, .message "Organization permanently deleted"⟩ ∧
      (deleteOrganizationPermanently demoEnv twoOrganizations (.objectId 3)).2.organizations.map
        (fun o => o.id) = [7] ∧
      (deleteOrganizationPermanently demoEnv twoOrganizations (.objectId 3)).2.users.map
        (fun u => (u.id, u.organizationId)) = [(8, 7)]) ∧
    deleteOrganizationPermanently demoEnv twoOrganizations (.objectId 99) =
      (⟨404, .message "Organization not found"⟩, twoOrganizations) :=
  ⟨⟨((permanent_delete_cascade demoEnv twoOrganizations 3).1
        ((findOrganizationById twoOrganizations 3).getD acmeOrganization)
        (by decide) rfl rfl).1, by decide, by decide⟩,
   (permanent_delete_cascade demoEnv twoOrganizations 99).2 (by decide)⟩

/-- C22, counterexample: `DELETE /organizations/99/permanent`, whose path
segment does not cast to an ObjectId and so names no organization; the answer
is 500, not 404 (the store is unchanged). -/
theorem permanent_delete_malformed_counterexample :
    deleteOrganizationPermanently demoEnv twoOrganizations (.malformed "99") =
      (⟨500, .failure "Server error"⟩, twoOrganizations) ∧
    (handle demoEnv { twoOrganizations with users := twoOrganizations.users ++ [operator] }
      (.deleteOrganizationPermanently operator (.malformed "99"))).1.status ≠ 404 := by
  decide

/-- C24 (amended): `DELETE /auth/users/:userId` removes the target: for a
User of the caller's organization other than the caller, when the store write
succeeds, the answer is 200 and the store afterwards holds no User with that
id, every other User being kept; for a well-formed identifier that is not a
User of the caller's organization the answer is 404 and the store is
unchanged. -/
theorem deleteUser_removes (env : Env) (s : Store) (caller : User) (userId : Id) :
    (∀ u, findUserInOrganization s userId caller.organizationId = some u →
        u.id ≠ caller.id → env.writeOk 0 = true →
        deleteUser env s caller (.objectId userId) =
          (⟨200, .message "User deleted successfully"⟩,
            { s with users := s.users.filter (fun v => !(v.id == userId)) }) ∧
        ∀ v ∈ (deleteUser env s caller (.objectId userId)).2.users, v.id ≠ userId) ∧
    (findUserInOrganization s userId caller.organizationId = none →
      deleteUser env s caller (.objectId userId) = (⟨404, .message "User not found"⟩, s)) := by
  constructor
  · intro u hu hne hw
    have hres : deleteUser env s caller (.objectId userId) =
        (⟨200, .message "User deleted successfully"⟩,
          { s with users := s.users.filter (fun v => !(v.id == userId)) }) := by
      unfold deleteUser
      simp only [castObjectId, hu, hne, if_false, deleteUserById, hw, if_true]
    refine ⟨hres, ?_⟩
    rw [hres]
    intro v hv
    have := (List.mem_filter.mp hv).2
    simpa using this
  · intro hu
    unfold deleteUser
    simp only [castObjectId, hu]

/-- C24, witness: Acme's admin removes the member with id 5; an id of no
member is answered 404. -/
theorem deleteUser_removes_witness :
    (deleteUser demoEnv acmeFull acmeAdmin (.objectId 5) =
        (⟨200, .message "User deleted successfully"⟩,
          { acmeFull with users := acmeFull.users.filter (fun v => !(v.id == 5)) }) ∧
      ∀ v ∈ (deleteUser demoEnv acmeFull acmeAdmin (.objectId 5)).2.users, v.id ≠ 5) ∧
    deleteUser demoEnv acmeFull acmeAdmin (.objectId 99) =
      (⟨404, .message "User not found"⟩, acmeFull) :=
  ⟨(deleteUser_removes demoEnv acmeFull acmeAdmin 5).1 acmeMember (by decide) (by decide) rfl,
   (deleteUser_removes demoEnv acmeFull acmeAdmin 99).2 (by decide)⟩

/-- C24, counterexample: Acme's admin sends `DELETE /auth/users/5` for the
member; the call succeeds and afterwards the store holds no User with id 5 (the
member does not remain with `isActive = false`).  `DELETE /auth/users/99`,
whose path segment does not cast to an ObjectId and so names no User, is
answered 500, not 404. -/
theorem deleteUser_not_deactivation_counterexample :
    acmeFull.users.map (fun u => (u.id, u.isActive)) = [(4, true), (5, true)] ∧
    (handle demoEnv acmeFull (.deleteUser acmeAdmin (.objectId 5))).1 =
      ⟨200, .message "User deleted successfully"⟩ ∧
    (handle demoEnv acmeFull (.deleteUser acmeAdmin (.objectId 5))).2.users.map
      (fun u => (u.id, u.isActive)) = [(4, true)] ∧
    findUserById (handle demoEnv acmeFull (.deleteUser acmeAdmin (.objectId 5))).2 5 = none ∧
    handle demoEnv acmeFull (.deleteUser acmeAdmin (.malformed "99")) =
      (⟨500, .failure "Failed to delete user"⟩, acmeFull) := by
  decide

/-- C21 (amended): for an existing, schema-valid organization, when both
store writes succeed, `POST /organizations/:id/toggle-status` flips the
organization's `isActive` and writes the new value on every member User, so a
re-activation leaves every member with `isActive = true`, the individually
deactivated ones included; Users of other organizations are unchanged. -/
theorem toggleStatus_cascade (env : Env) (s : Store) (id : Id) (o : Organization)
    (ho : findOrganizationById s id = some o) (hvalid : validOrganization o = true)
    (hw0 : env.writeOk 0 = true) (hw1 : env.writeOk 1 = true) :
    (toggleStatus env s (.objectId id)).1.status = 200 ∧
    findOrganizationById (toggleStatus env s (.objectId id)).2 id =
      some { o with isActive := !o.isActive, updatedAt := env.now } ∧
    (toggleStatus env s (.objectId id)).2.users =
      s.users.map
        (fun u => if u.organizationId == id then { u with isActive := !o.isActive } else u) ∧
    (o.isActive = false →
      ∀ u ∈ (toggleStatus env s (.objectId id)).2.users, u.organizationId = id →
        u.isActive = true) := by
  have hid := findOrganizationById_id ho
  have hmem := findOrganizationById_mem ho
  have hvalid2 : validOrganization { o with isActive := !o.isActive } = true := hvalid
  have hu := updateOrganization_ok (s := s) hw0 hvalid2
  have hres : (toggleStatus env s (.objectId id)).1.status = 200 ∧
      (toggleStatus env s (.objectId id)).2 =
        { s with
          organizations := (s.organizations.map
            (fun x => if x.id == o.id then { o with isActive := !o.isActive, updatedAt := env.now }
              else x)),
          users := (s.users.map
            (fun u => if u.organizationId == o.id then { u with isActive := !o.isActive }
              else u)) } := by
    unfold toggleStatus
    simp only [castObjectId, ho, hu, setMembersActive, hw1, if_true]
    exact ⟨trivial, trivial⟩
  refine ⟨hres.1, ?_, ?_, ?_⟩
  · rw [hres.2, ← hid]
    exact find_replace_organization s.organizations o.id _ ⟨o, hmem, rfl⟩ rfl
  · rw [hres.2, hid]
  · intro hoff u hu' horg
    rw [hres.2] at hu'
    simp only [List.mem_map] at hu'
    obtain ⟨v, _, hv⟩ := hu'
    by_cases hc : v.organizationId = o.id
    · simp only [hc, beq_self_eq_true, if_true] at hv
      rw [← hv, hoff]
      rfl
    · have hb : (v.organizationId == o.id) = false := by simpa using hc
      simp only [hb, Bool.false_eq_true, if_false] at hv
      subst hv
      exact absurd (horg.trans hid.symm) hc

/-- C21, witness: the suspended Acme is re-activated. -/
theorem toggleStatus_cascade_witness :
    (toggleStatus demoEnv acmeSuspended (.objectId 3)).1.status = 200 ∧
    (findOrganizationById (toggleStatus demoEnv acmeSuspended (.objectId 3)).2 3).map
      (fun o => o.isActive) = some true ∧
    (toggleStatus demoEnv acmeSuspended (.objectId 3)).2.users.map
      (fun u => (u.id, u.isActive)) = [(4, true), (5, true), (6, true)] :=
  ⟨(toggleStatus_cascade demoEnv acmeSuspended 3
      ((findOrganizationById acmeSuspended 3).getD acmeOrganization)
      (by decide) (by decide) rfl rfl).1, by decide, by decide⟩

/-- C21, counterexample: the member with id 5 was deactivated by Acme's admin
while Acme was active; the operator then deactivated Acme and re-activates it
with `POST /organizations/3/toggle-status`; afterwards the member has
`isActive = true`. -/
theorem toggleStatus_resurrects_counterexample :
    (findUserById acmeFull 5).map (fun u => u.isActive) = some true ∧
    (handle demoEnv acmeFull (.deactivateUser acmeAdmin (.objectId 5))).2 = acmeMemberRemoved ∧
    (findUserById acmeSeatReused 5).map (fun u => u.isActive) = some false ∧
    (findOrganizationById acmeSeatReused 3).map (fun o => o.isActive) = some true ∧
    (findOrganizationById acmeSuspended 3).map (fun o => o.isActive) = some false ∧
    (findUserById acmeSuspended 5).map (fun u => u.isActive) = some false ∧
    (toggleStatus demoEnv acmeSuspended (.objectId 3)).1.status = 200 ∧
    (findOrganizationById (toggleStatus demoEnv acmeSuspended (.objectId 3)).2 3).map
      (fun o => o.isActive) = some true ∧
    (findUserById (toggleStatus demoEnv acmeSuspended (.objectId 3)).2 5).map
        (fun u => u.isActive) =
      some true := by
  decide

/-! ## The counter, the superadmin plan change, the admin role, the price in cents -/

/-- C25, failing input: Acme's member with id 5 is already deactivated, the
counter `activeUsers` is 0 and equals the number of active role-`user` members;
the admin sends `DELETE /users/organization/5` again: the call succeeds and the
counter becomes -1. -/
theorem deactivateUser_counter_negative :
    (findUserById acmeMemberRemoved 5).map (fun u => (u.organizationId, u.isActive)) =
      some (3, false) ∧
    (findOrganizationById acmeMemberRemoved 3).map (fun o => o.activeUsers) = some 0 ∧
    countActiveUsers acmeMemberRemoved 3 = 0 ∧
    (handle demoEnv acmeMemberRemoved (.deactivateUser acmeAdmin (.objectId 5))).1 =
      ⟨200, .message "User deactivated successfully"⟩ ∧
    (findOrganizationById
        (handle demoEnv acmeMemberRemoved (.deactivateUser acmeAdmin (.objectId 5))).2
      3).map (fun o => o.activeUsers) = some (-1) := by
  decide

/-- C26, failing input: the operator sends `PUT /organizations/3` with
`{ planId: 2 }` for Acme (registered on Basic); the answer is 200, planId is
the Plus plan and activePlan is still the snapshot of Basic, one seat included;
a planId no plan has is answered 404 with the store unchanged. -/
theorem putOrganization_stale_snapshot :
    (putOrganization demoEnv acmeStore (.objectId 3) planChangePatch).1.status = 200 ∧
    (findOrganizationById (putOrganization demoEnv acmeStore (.objectId 3) planChangePatch).2 3).map
        (fun o => (o.planId, o.activePlan)) =
      some (2, { name := some "Basic", maxUsers := some 1, features := ["core"],
                 price := some 0, billingCycle := some "Trial" }) ∧
    castActivePlan (webhookSnapshot plusPlan) =
      { name := some "Plus", maxUsers := some 5, features := ["core", "reports"],
        price := some 999, billingCycle := some "Yearly" } ∧
    putOrganization demoEnv acmeStore (.objectId 3)
        { planChangePatch with planId := some (.objectId 99) } =
      (⟨404, .message "Plan not found"⟩, acmeStore) := by
  decide

/-- C27, failing input: from the store that holds only the plan catalog, Acme
and Bolt register (one admin each); then Acme's admin sends
`PUT /users/organization/4` (the own id) with `{ organizationId: 5 }`; the
answer is 200, Acme has no admin and Bolt has two. -/
theorem admin_moves_to_other_organization :
    catalogStore.organizations = [] ∧ catalogStore.users = [] ∧
    (run catalogStore twoRegistrations).users.map
        (fun u => (u.id, u.role, u.organizationId)) =
      [(4, Role.admin, 3), (6, Role.admin, 5)] ∧
    (handle demoEnv (run catalogStore twoRegistrations)
      (.updateOrganizationUser acmeAdmin (.objectId 4) moveToSecond)).1.status = 200 ∧
    (run catalogStore adminMoveTrace).users.map
        (fun u => (u.id, u.role, u.organizationId)) =
      [(4, Role.admin, 5), (6, Role.admin, 5)] ∧
    (run catalogStore adminMoveTrace).users.countP
        (fun u => u.organizationId == 3 && u.role == Role.admin) = 0 ∧
    (run catalogStore adminMoveTrace).users.countP
        (fun u => u.organizationId == 5 && u.role == Role.admin) = 2 := by
  decide

/-- C28, failing input: the operator sends `PUT /plans/2` with `{ price: 0 }`
for the Plus plan (price 999); the external price is minted with unit amount
99900 while the Plan record afterwards stores price 0. -/
theorem putPlan_zero_price_amount :
    (findPlanById catalogStore 2).map (fun p => p.price) = some 999 ∧
    (putPlan demoEnv okGateway catalogStore (.objectId 2) freePrice).1.status = 200 ∧
    (putPlan demoEnv okGateway catalogStore (.objectId 2) freePrice).2.2 =
      [.productsCreate "Plus Plan" "Plus Plan with 5 users and 50GB storage",
       .pricesCreate "prod_1" 99900 (some "year"), .pricesUpdate "price_plus"] ∧
    (findPlanById (putPlan demoEnv okGateway catalogStore (.objectId 2) freePrice).2.1 2).map
        (fun p => (p.price, p.stripePriceId)) = some (0, "price_new") ∧
    99900 ≠ 100 * 0 ∧
    (createPlan demoEnv okGateway catalogStore standardPlanBody).2.2 =
      [.productsCreate "Standard Plan" "Standard Plan with 3 users and 10GB storage",
       .pricesCreate "prod_1" 49900 (some "month")] ∧
    (putPlan demoEnv okGateway catalogStore (.objectId 2) raisePrice).2.2 =
      [.productsCreate "Plus Plan" "Plus Plan with 5 users and 50GB storage",
       .pricesCreate "prod_1" 129900 (some "year"), .pricesUpdate "price_plus"] := by
  decide

/-! ## Seat usage outside the add-user routes -/

theorem seatsNotRaised_refl (s : Store) : seatsNotRaised s s := fun _ => Nat.le_refl _

theorem seatsNotRaised_trans {s s1 s2 : Store} (h1 : seatsNotRaised s s1)
    (h2 : seatsNotRaised s1 s2) : seatsNotRaised s s2 :=
  fun i => Nat.le_trans (h2 i) (h1 i)

theorem seatsNotRaised_of_users {s s1 : Store} (h : s1.users = s.users) :
    seatsNotRaised s s1 := by
  intro i
  unfold countActiveUsers
  rw [h]

theorem countP_map_le {p : User → Bool} (f : User → User) (l : List User)
    (h : ∀ v ∈ l, p (f v) = true → p v = true) : (l.map f).countP p ≤ l.countP p := by
  rw [List.countP_map]
  exact List.countP_mono_left (fun v hv hp => h v hv hp)

theorem countP_filter_le {p : User → Bool} (q : User → Bool) (l : List User) :
    (l.filter q).countP p ≤ l.countP p :=
  (List.filter_sublist l).countP_le p

theorem updateOrganization_seats {env : Env} {k : Nat} {s s1 : Store} {o : Organization}
    (h : updateOrganization env k s o = some s1) : seatsNotRaised s s1 :=
  seatsNotRaised_of_users (by rw [updateOrganization_eq h])

theorem insertOrganization_seats {env : Env} {k : Nat} {s s1 : Store} {o : Organization}
    (h : insertOrganization env k s o = some s1) : seatsNotRaised s s1 :=
  seatsNotRaised_of_users (by rw [insertOrganization_eq h])

theorem deleteOrganizationById_seats {env : Env} {k : Nat} {s s1 : Store} {i : Id}
    (h : deleteOrganizationById env k s i = some s1) : seatsNotRaised s s1 := by
  unfold deleteOrganizationById at h
  split at h
  · simp only [Option.some.injEq] at h
    subst h
    exact seatsNotRaised_refl s
  · simp at h

theorem insertPlan_seats {env : Env} {k : Nat} {s s1 : Store} {p : Plan}
    (h : insertPlan env k s p = some s1) : seatsNotRaised s s1 := by
  unfold insertPlan at h
  split at h
  · simp only [Option.some.injEq] at h
    subst h
    exact seatsNotRaised_of_users rfl
  · simp at h

theorem updatePlan_seats {env : Env} {k : Nat} {s s1 : Store} {p : Plan}
    (h : updatePlan env k s p = some s1) : seatsNotRaised s s1 := by
  unfold updatePlan at h
  split at h
  · simp only [Option.some.injEq] at h
    subst h
    exact seatsNotRaised_of_users rfl
  · simp at h

theorem deleteMembers_seats {env : Env} {k : Nat} {s s1 : Store} {i : Id}
    (h : deleteMembers env k s i = some s1) : seatsNotRaised s s1 := by
  unfold deleteMembers at h
  split at h
  · simp only [Option.some.injEq] at h
    subst h
    intro j
    exact countP_filter_le _ _
  · simp at h

theorem deleteUserById_seats {env : Env} {k : Nat} {s s1 : Store} {i : Id}
    (h : deleteUserById env k s i = some s1) : seatsNotRaised s s1 := by
  unfold deleteUserById at h
  split at h
  · simp only [Option.some.injEq] at h
    subst h
    intro j
    exact countP_filter_le _ _
  · simp at h

theorem setMembersInactive_seats {env : Env} {k : Nat} {s s1 : Store} {i : Id}
    (h : setMembersActive env k s i false = some s1) : seatsNotRaised s s1 := by
  rw [setMembersActive_eq h]
  intro j
  unfold countActiveUsers
  apply countP_map_le
  intro v _ hp
  split at hp
  · simp at hp
  · exact hp

theorem updateUser_eq {env : Env} {k : Nat} {s s1 : Store} {u : User}
    (h : updateUser env k s u = some s1) :
    s1 = { s with users := (s.users.map (fun v => if v.id == u.id then u else v)) } := by
  unfold updateUser at h
  split at h
  · simpa using h.symm
  · simp at h

theorem updateUser_inactive_seats {env : Env} {k : Nat} {s s1 : Store} {u : User}
    (h : updateUser env k s u = some s1) (hu : u.isActive = false) : seatsNotRaised s s1 := by
  rw [updateUser_eq h]
  intro j
  unfold countActiveUsers
  apply countP_map_le
  intro v _ hp
  split at hp
  · simp [hu] at hp
  · exact hp

theorem insertUser_admin_seats {env : Env} {k : Nat} {s s1 : Store} {u : User}
    (h : insertUser env k s u = some s1) (hu : u.role = Role.admin) : seatsNotRaised s s1 := by
  rw [insertUser_eq h]
  intro j
  rw [countActiveUsers_append]
  simp [hu]

theorem register_seats (env : Env) (s : Store) (b : RegisterBody) :
    seatsNotRaised s (register env s b).2 := by
  unfold register
  repeat' first | split | dsimp only
  all_goals first
    | exact seatsNotRaised_refl s
    | exact insertOrganization_seats (by assumption)
    | exact seatsNotRaised_trans (insertOrganization_seats (by assumption))
        (insertUser_admin_seats (by assumption) rfl)

theorem deleteUser_seats (env : Env) (s : Store) (caller : User) (userId : IdParam) :
    seatsNotRaised s (deleteUser env s caller userId).2 := by
  unfold deleteUser
  repeat' first | split | dsimp only
  all_goals first
    | exact seatsNotRaised_refl s
    | exact deleteUserById_seats (by assumption)

theorem deactivateUser_seats (env : Env) (s : Store) (caller : User) (id : IdParam) :
    seatsNotRaised s (deactivateUser env s caller id).2 := by
  unfold deactivateUser
  repeat' first | split | dsimp only
  all_goals first
    | exact seatsNotRaised_refl s
    | exact updateUser_inactive_seats (by assumption) rfl
    | exact seatsNotRaised_trans (updateUser_inactive_seats (by assumption) rfl)
        (updateOrganization_seats (by assumption))

theorem createOrganization_seats (env : Env) (s : Store) (b : OrganizationBody) :
    seatsNotRaised s (createOrganization env s b).2 := by
  unfold createOrganization
  repeat' first | split | dsimp only
  all_goals first
    | exact seatsNotRaised_refl s
    | exact insertOrganization_seats (by assumption)

theorem putOrganization_seats (env : Env) (s : Store) (id : IdParam) (updates : OrganizationPatch) :
    seatsNotRaised s (putOrganization env s id updates).2 := by
  unfold putOrganization
  repeat' first | split | dsimp only
  all_goals first
    | exact seatsNotRaised_refl s
    | exact updateOrganization_seats (by assumption)

theorem deactivateOrganization_seats (env : Env) (s : Store) (id : IdParam) :
    seatsNotRaised s (deactivateOrganization env s id).2 := by
  unfold deactivateOrganization
  repeat' first | split | dsimp only
  all_goals first
    | exact seatsNotRaised_refl s
    | exact updateOrganization_seats (by assumption)
    | exact seatsNotRaised_trans (updateOrganization_seats (by assumption))
        (setMembersInactive_seats (by assumption))

theorem deleteOrganizationPermanently_seats (env : Env) (s : Store) (id : IdParam) :
    seatsNotRaised s (deleteOrganizationPermanently env s id).2 := by
  unfold deleteOrganizationPermanently
  repeat' first | split | dsimp only
  all_goals first
    | exact seatsNotRaised_refl s
    | exact deleteMembers_seats (by assumption)
    | exact seatsNotRaised_trans (deleteMembers_seats (by assumption))
        (deleteOrganizationById_seats (by assumption))

theorem createPlan_seats (env : Env) (gw : Gateway) (s : Store) (b : PlanBody) :
    seatsNotRaised s (createPlan env gw s b).2.1 := by
  unfold createPlan
  repeat' first | split | dsimp only
  all_goals first
    | exact seatsNotRaised_refl s
    | exact insertPlan_seats (by assumption)

theorem putPlan_seats (env : Env) (gw : Gateway) (s : Store) (id : IdParam) (updates : PlanPatch) :
    seatsNotRaised s (putPlan env gw s id updates).2.1 := by
  unfold putPlan
  repeat' first | split | dsimp only
  all_goals first
    | exact seatsNotRaised_refl s
    | exact updatePlan_seats (by assumption)

theorem deletePlan_seats (env : Env) (s : Store) (id : IdParam) :
    seatsNotRaised s (deletePlan env s id).2 := by
  unfold deletePlan
  repeat' first | split | dsimp only
  all_goals first
    | exact seatsNotRaised_refl s
    | exact updatePlan_seats (by assumption)

theorem subscribe_seats (env : Env) (gw : Gateway) (s : Store) (caller : User)
    (planId : Option IdParam) : seatsNotRaised s (subscribe env gw s caller planId).2.1 := by
  unfold subscribe
  repeat' first | split | dsimp only
  all_goals first
    | exact seatsNotRaised_refl s
    | (rw [createCheckoutSession_store]; exact seatsNotRaised_refl s)
    | (rw [createCheckoutSession_store]; exact updateOrganization_seats (by assumption))

theorem webhook_seats (env : Env) (s : Store) (request : Except String StripeEvent) :
    seatsNotRaised s (webhook env s request).2 := by
  unfold webhook
  split
  · exact seatsNotRaised_refl s
  · unfold checkoutCompleted
    repeat' first | split | dsimp only
    all_goals first
      | exact seatsNotRaised_refl s
      | exact updateOrganization_seats (by assumption)
  · unfold subscriptionUpdated
    repeat' first | split | dsimp only
    all_goals first
      | exact seatsNotRaised_refl s
      | exact updateOrganization_seats (by assumption)
  · unfold subscriptionDeleted
    repeat' first | split | dsimp only
    all_goals first
      | exact seatsNotRaised_refl s
      | exact updateOrganization_seats (by assumption)
  · exact seatsNotRaised_refl s

theorem guarded_seats (s : Store) (caller : User) (roles : Option (List Role))
    (handler : Response × Store) (hh : seatsNotRaised s handler.2) :
    seatsNotRaised s (guarded s caller roles handler).2 := by
  unfold guarded
  split
  · exact seatsNotRaised_refl s
  · exact hh

theorem hashPatchPassword_fields (env : Env) (p : UserPatch) :
    (hashPatchPassword env p).role = p.role ∧
      (hashPatchPassword env p).organizationId = p.organizationId ∧
      (hashPatchPassword env p).isActive = p.isActive := by
  unfold hashPatchPassword
  split
  · split <;> exact ⟨rfl, rfl, rfl⟩
  · exact ⟨rfl, rfl, rfl⟩

theorem updateProfile_seats (env : Env) (s : Store) (caller : User) (updates : UserPatch)
    (hids : (s.users.map (fun u => u.id)).Nodup)
    (hmem : caller ∈ s.users) (hact : caller.isActive = true) :
    seatsNotRaised s (updateProfile env s caller updates).2 := by
  unfold updateProfile
  dsimp only
  split
  · exact seatsNotRaised_refl s
  · rename_i user hfind
    have huser : user = caller := by
      have h1 := List.find?_some hfind
      have h2 : user ∈ s.users := List.mem_of_find?_eq_some hfind
      exact user_eq_of_id hids h2 hmem (by simpa using h1)
    subst huser
    split
    · exact seatsNotRaised_refl s
    · rename_i s1 hupd
      rw [updateUser_eq hupd]
      intro j
      unfold countActiveUsers
      apply countP_map_le
      intro v hv hp
      obtain ⟨hr, ho, _⟩ := hashPatchPassword_fields env
        { updates with role := none, organizationId := none }
      split at hp
      · rename_i hid
        have hvid : v.id = user.id := by simpa [assignUser] using hid
        have hvu := user_eq_of_id hids hv hmem hvid
        subst hvu
        simp only [assignUser, hr, ho, Option.getD_none, Bool.and_eq_true, beq_iff_eq] at hp
        simp [hp.1.1, hp.2, hact]
      · exact hp

/-- C29 (amended): in a store whose User documents have distinct ids, every
request other than the two add-user calls, `POST /organizations/:id/toggle-status`
and `PUT /users/organization/:id` (in particular `PUT /users/profile`, the
removals, the other organization routes, the plan routes, subscribe and the
webhook) leaves the number of active role-`user` members of every organization
at or below what it was. -/
theorem seat_usage_not_raised (env : Env) (s : Store) (request : Request)
    (organizationId : Id)
    (hids : (s.users.map (fun u => u.id)).Nodup)
    (hreq : mayRaiseSeatUsage request = false) :
    countActiveUsers (handle env s request).2 organizationId ≤
      countActiveUsers s organizationId := by
  revert organizationId
  show seatsNotRaised s (handle env s request).2
  cases request with
  | register b => exact register_seats env s b
  | registerUser caller b => simp [mayRaiseSeatUsage] at hreq
  | deleteUser caller userId => exact guarded_seats _ _ _ _ (deleteUser_seats env s caller userId)
  | createOrganizationUser caller b => simp [mayRaiseSeatUsage] at hreq
  | updateOrganizationUser caller id updates => simp [mayRaiseSeatUsage] at hreq
  | deactivateUser caller id => exact guarded_seats _ _ _ _ (deactivateUser_seats env s caller id)
  | updateProfile caller updates =>
    simp only [handle, guarded]
    cases hg : accessGate s caller none with
    | some rejection => exact seatsNotRaised_refl s
    | none =>
      have hc : caller ∈ s.users ∧ caller.isActive = true := by
        unfold accessGate at hg
        split at hg
        · simp at hg
        · rename_i h
          simpa using h
      exact updateProfile_seats env s caller updates hids hc.1 hc.2
  | createOrganization caller b => exact guarded_seats _ _ _ _ (createOrganization_seats env s b)
  | putOrganization caller id updates =>
    exact guarded_seats _ _ _ _ (putOrganization_seats env s id updates)
  | deactivateOrganization caller id =>
    exact guarded_seats _ _ _ _ (deactivateOrganization_seats env s id)
  | toggleStatus caller id => simp [mayRaiseSeatUsage] at hreq
  | deleteOrganizationPermanently caller id =>
    exact guarded_seats _ _ _ _ (deleteOrganizationPermanently_seats env s id)
  | createPlan caller gw b => exact guarded_seats _ _ _ _ (createPlan_seats env gw s b)
  | putPlan caller gw id updates =>
    exact guarded_seats _ _ _ _ (putPlan_seats env gw s id updates)
  | deletePlan caller id => exact guarded_seats _ _ _ _ (deletePlan_seats env s id)
  | subscribe caller gw planId =>
    exact guarded_seats _ _ _ _ (subscribe_seats env gw s caller planId)
  | webhook request => exact webhook_seats env s request

/-- C29, witness: Acme's admin deactivates a member while Bolt exists. -/
theorem seat_usage_not_raised_witness :
    countActiveUsers
        (handle demoEnv twoOrganizations (.deactivateUser acmeAdmin (.objectId 5))).2 3 ≤
      countActiveUsers twoOrganizations 3 :=
  seat_usage_not_raised demoEnv twoOrganizations (.deactivateUser acmeAdmin (.objectId 5)) 3
    (by decide) rfl

/-- C29, counterexample: Acme is on Basic (one seat); its first member was
deactivated and a second one added.  Re-activating the suspended organization
with `POST /organizations/3/toggle-status` raises the active role-`user`
members from 0 to 2, and `PUT /users/organization/5` with `{ isActive: true }`
raises them from 1 to 2; both exceed the ceiling 1.  A subscription-updated
event raises no count and still takes Acme with two members from the ceiling 5
to the ceiling 1. -/
theorem seat_usage_raised_counterexample :
    (findOrganizationById acmeSuspended 3).map (fun o => o.activePlan.maxUsers) =
      some (some 1) ∧
    countActiveUsers acmeSuspended 3 = 0 ∧
    (toggleStatus demoEnv acmeSuspended (.objectId 3)).1.status = 200 ∧
    countActiveUsers (toggleStatus demoEnv acmeSuspended (.objectId 3)).2 3 = 2 ∧
    countActiveUsers acmeSeatReused 3 = 1 ∧
    (handle demoEnv acmeSeatReused
      (.updateOrganizationUser acmeAdmin (.objectId 5) reactivatePatch)).1.status = 200 ∧
    countActiveUsers
      (handle demoEnv acmeSeatReused
        (.updateOrganizationUser acmeAdmin (.objectId 5) reactivatePatch)).2 3 = 2 ∧
    ((findOrganizationById acmeTwoSeats 3).map (fun o => o.activePlan.maxUsers) =
        some (some 5) ∧
      countActiveUsers acmeTwoSeats 3 = 2 ∧
      (findOrganizationById acmeDowngraded 3).map (fun o => o.activePlan.maxUsers) =
        some (some 1) ∧
      countActiveUsers acmeDowngraded 3 = 2) := by
  decide

/-! ## Global uniqueness of e-mails -/

theorem usersSound_of_users {s s1 : Store} (hu : s1.users = s.users)
    (hn : s.nextId ≤ s1.nextId) (hs : usersSound s) : usersSound s1 := by
  unfold usersSound at hs ⊢
  rw [hu]
  exact ⟨hs.1, fun u h => Nat.lt_of_lt_of_le (hs.2.1 u h) hn, hs.2.2⟩

theorem usersSound_of_sublist {s s1 : Store} (hu : s1.users.Sublist s.users)
    (hn : s.nextId ≤ s1.nextId) (hs : usersSound s) : usersSound s1 := by
  unfold usersSound at hs ⊢
  exact ⟨hs.1.sublist (hu.map _), fun u h => Nat.lt_of_lt_of_le (hs.2.1 u (hu.subset h)) hn,
    hs.2.2.sublist (hu.map _)⟩

theorem replace_ids (l : List User) (u : User) :
    (l.map (fun v => if v.id == u.id then u else v)).map (fun v => v.id) =
      l.map (fun v => v.id) := by
  rw [List.map_map]
  apply List.map_congr_left
  intro v _
  by_cases h : v.id = u.id
  · simp [h]
  · simp [h]

theorem replace_emails_nodup (l : List User) (u : User)
    (hid : (l.map (fun v => v.id)).Nodup) (hem : (l.map (fun v => v.email)).Nodup)
    (hfree : ∀ v ∈ l, v.id = u.id ∨ v.email ≠ u.email) :
    ((l.map (fun v => if v.id == u.id then u else v)).map (fun v => v.email)).Nodup := by
  induction l with
  | nil => simp
  | cons a l ih =>
    simp only [List.map_cons, List.nodup_cons] at hid hem ⊢
    have ih1 := ih hid.2 hem.2 (fun v hv => hfree v (List.mem_cons_of_mem a hv))
    refine ⟨?_, ih1⟩
    intro hmem
    simp only [List.mem_map] at hmem
    obtain ⟨w, ⟨v, hv, hw⟩, he⟩ := hmem
    by_cases ha : a.id = u.id
    · have hb : (a.id == u.id) = true := by simpa using ha
      simp only [hb, if_true] at he
      have hvne : v.id ≠ u.id := by
        intro hvu
        exact hid.1 (List.mem_map.mpr ⟨v, hv, by rw [hvu, ha]⟩)
      have hvb : (v.id == u.id) = false := by simpa using hvne
      simp only [hvb, Bool.false_eq_true, if_false] at hw
      subst hw
      rcases hfree v (List.mem_cons_of_mem a hv) with h | h
      · exact hvne h
      · exact h he
    · have hb : (a.id == u.id) = false := by simpa using ha
      simp only [hb, Bool.false_eq_true, if_false] at he
      by_cases hvu : v.id = u.id
      · have hvb : (v.id == u.id) = true := by simpa using hvu
        simp only [hvb, if_true] at hw
        subst hw
        rcases hfree a (List.mem_cons_self a l) with h | h
        · exact ha h
        · exact h he.symm
      · have hvb : (v.id == u.id) = false := by simpa using hvu
        simp only [hvb, Bool.false_eq_true, if_false] at hw
        subst hw
        exact hem.1 (List.mem_map.mpr ⟨v, hv, he⟩)

theorem emailFree_spec {s : Store} {u : User} (h : emailFree s u = true) :
    ∀ v ∈ s.users, v.id = u.id ∨ v.email ≠ u.email := by
  unfold emailFree at h
  simp only [List.all_eq_true, Bool.or_eq_true, beq_iff_eq, bne_iff_ne, ne_eq] at h
  exact h

theorem insertUser_sound {env : Env} {k : Nat} {s s1 : Store} {u : User}
    (h : insertUser env k s u = some s1) (hid : u.id = s.nextId) (hs : usersSound s) :
    usersSound s1 := by
  unfold insertUser at h
  split at h
  · rename_i hc
    simp only [Bool.and_eq_true] at hc
    have hfree := emailFree_spec hc.2
    simp only [Option.some.injEq] at h
    subst h
    unfold usersSound at hs ⊢
    obtain ⟨h1, h2, h3⟩ := hs
    refine ⟨?_, ?_, ?_⟩
    · simp only [List.map_append, List.map_cons, List.map_nil]
      rw [List.nodup_append]
      refine ⟨h1, List.nodup_singleton _, ?_⟩
      intro a ha hb
      simp only [List.mem_singleton] at hb
      simp only [List.mem_map] at ha
      obtain ⟨v, hv, rfl⟩ := ha
      have hlt := h2 v hv
      rw [hb, hid] at hlt
      exact Nat.lt_irrefl _ hlt
    · intro v hv
      simp only [List.mem_append, List.mem_singleton] at hv
      rcases hv with hv | rfl
      · exact Nat.lt_succ_of_lt (h2 v hv)
      · show v.id < s.nextId + 1
        rw [hid]
        exact Nat.lt_succ_self _
    · simp only [List.map_append, List.map_cons, List.map_nil]
      rw [List.nodup_append]
      refine ⟨h3, List.nodup_singleton _, ?_⟩
      intro a ha hb
      simp only [List.mem_singleton] at hb
      simp only [List.mem_map] at ha
      obtain ⟨v, hv, rfl⟩ := ha
      rcases hfree v hv with h | h
      · have hlt := h2 v hv
        rw [h, hid] at hlt
        exact Nat.lt_irrefl _ hlt
      · exact h hb
  · simp at h

theorem updateUser_sound {env : Env} {k : Nat} {s s1 : Store} {u : User}
    (h : updateUser env k s u = some s1) (hs : usersSound s) : usersSound s1 := by
  unfold updateUser at h
  split at h
  · rename_i hc
    simp only [Bool.and_eq_true] at hc
    have hfree := emailFree_spec hc.2
    simp only [Option.some.injEq] at h
    subst h
    unfold usersSound at hs ⊢
    obtain ⟨h1, h2, h3⟩ := hs
    refine ⟨?_, ?_, ?_⟩
    · show ((s.users.map (fun v => if v.id == u.id then u else v)).map (fun v => v.id)).Nodup
      rw [replace_ids]; exact h1
    · intro v hv
      have hm : v.id ∈ (s.users.map (fun v => if v.id == u.id then u else v)).map
          (fun v => v.id) := List.mem_map.mpr ⟨v, hv, rfl⟩
      rw [replace_ids] at hm
      obtain ⟨w, hw, hwv⟩ := List.mem_map.mp hm
      show v.id < s.nextId
      rw [← hwv]
      exact h2 w hw
    · exact replace_emails_nodup s.users u h1 h3 hfree
  · simp at h

theorem setMembersActive_sound {env : Env} {k : Nat} {s s1 : Store} {i : Id} {v : Bool}
    (h : setMembersActive env k s i v = some s1) (hs : usersSound s) : usersSound s1 := by
  rw [setMembersActive_eq h]
  unfold usersSound at hs ⊢
  obtain ⟨h1, h2, h3⟩ := hs
  have hidm : (s.users.map (fun u : User => if u.organizationId == i then
      { u with isActive := v } else u)).map (fun u => u.id) = s.users.map (fun u => u.id) := by
    rw [List.map_map]
    apply List.map_congr_left
    intro u _
    simp only [Function.comp]
    split <;> rfl
  have hemm : (s.users.map (fun u : User => if u.organizationId == i then
      { u with isActive := v } else u)).map (fun u => u.email) =
      s.users.map (fun u => u.email) := by
    rw [List.map_map]
    apply List.map_congr_left
    intro u _
    simp only [Function.comp]
    split <;> rfl
  refine ⟨?_, ?_, ?_⟩
  · show ((s.users.map _).map (fun u : User => u.id)).Nodup
    rw [hidm]; exact h1
  · intro u hu
    have hm : u.id ∈ (s.users.map (fun u : User => if u.organizationId == i then
        { u with isActive := v } else u)).map (fun u => u.id) := List.mem_map.mpr ⟨u, hu, rfl⟩
    rw [hidm] at hm
    obtain ⟨w, hw, hwv⟩ := List.mem_map.mp hm
    show u.id < s.nextId
    rw [← hwv]
    exact h2 w hw
  · show ((s.users.map _).map (fun u : User => u.email)).Nodup
    rw [hemm]; exact h3

theorem deleteMembers_sound {env : Env} {k : Nat} {s s1 : Store} {i : Id}
    (h : deleteMembers env k s i = some s1) (hs : usersSound s) : usersSound s1 := by
  unfold deleteMembers at h
  split at h
  · simp only [Option.some.injEq] at h
    subst h
    exact usersSound_of_sublist (s := s) (List.filter_sublist _) (Nat.le_refl _) hs
  · simp at h

theorem deleteUserById_sound {env : Env} {k : Nat} {s s1 : Store} {i : Id}
    (h : deleteUserById env k s i = some s1) (hs : usersSound s) : usersSound s1 := by
  unfold deleteUserById at h
  split at h
  · simp only [Option.some.injEq] at h
    subst h
    exact usersSound_of_sublist (s := s) (List.filter_sublist _) (Nat.le_refl _) hs
  · simp at h

theorem updateOrganization_sound {env : Env} {k : Nat} {s s1 : Store} {o : Organization}
    (h : updateOrganization env k s o = some s1) (hs : usersSound s) : usersSound s1 := by
  rw [updateOrganization_eq h]
  exact usersSound_of_users (s := s) rfl (Nat.le_refl _) hs

theorem insertOrganization_sound {env : Env} {k : Nat} {s s1 : Store} {o : Organization}
    (h : insertOrganization env k s o = some s1) (hs : usersSound s) : usersSound s1 := by
  rw [insertOrganization_eq h]
  exact usersSound_of_users (s := s) rfl (Nat.le_succ s.nextId) hs

theorem deleteOrganizationById_sound {env : Env} {k : Nat} {s s1 : Store} {i : Id}
    (h : deleteOrganizationById env k s i = some s1) (hs : usersSound s) : usersSound s1 := by
  unfold deleteOrganizationById at h
  split at h
  · simp only [Option.some.injEq] at h
    subst h
    exact usersSound_of_users (s := s) rfl (Nat.le_refl _) hs
  · simp at h

theorem insertPlan_sound {env : Env} {k : Nat} {s s1 : Store} {p : Plan}
    (h : insertPlan env k s p = some s1) (hs : usersSound s) : usersSound s1 := by
  unfold insertPlan at h
  split at h
  · simp only [Option.some.injEq] at h
    subst h
    exact usersSound_of_users (s := s) rfl (Nat.le_succ s.nextId) hs
  · simp at h

theorem updatePlan_sound {env : Env} {k : Nat} {s s1 : Store} {p : Plan}
    (h : updatePlan env k s p = some s1) (hs : usersSound s) : usersSound s1 := by
  unfold updatePlan at h
  split at h
  · simp only [Option.some.injEq] at h
    subst h
    exact usersSound_of_users (s := s) rfl (Nat.le_refl _) hs
  · simp at h

theorem registerUser_sound (env : Env) (s : Store) (caller : User) (b : RegisterUserBody)
    (hs : usersSound s) : usersSound (registerUser env s caller b).2 := by
  unfold registerUser
  repeat' first | split | dsimp only
  all_goals first
    | exact hs
    | exact insertUser_sound (by assumption) rfl hs
    | exact updateOrganization_sound (by assumption) (insertUser_sound (by assumption) rfl hs)

theorem register_sound (env : Env) (s : Store) (b : RegisterBody)
    (hs : usersSound s) : usersSound (register env s b).2 := by
  unfold register
  repeat' first | split | dsimp only
  all_goals first
    | exact hs
    | exact insertOrganization_sound (by assumption) hs
    | exact insertUser_sound (by assumption) rfl (insertOrganization_sound (by assumption) hs)

theorem createOrganizationUser_sound (env : Env) (s : Store) (caller : User)
    (b : CreateUserBody) (hs : usersSound s) :
    usersSound (createOrganizationUser env s caller b).2 := by
  unfold createOrganizationUser
  repeat' first | split | dsimp only
  all_goals first
    | exact hs
    | exact insertUser_sound (by assumption) rfl hs
    | exact updateOrganization_sound (by assumption) (insertUser_sound (by assumption) rfl hs)

theorem updateOrganizationUser_sound (env : Env) (s : Store) (caller : User) (id : IdParam)
    (updates : UserPatch) (hs : usersSound s) :
    usersSound (updateOrganizationUser env s caller id updates).2 := by
  unfold updateOrganizationUser
  repeat' first | split | dsimp only
  all_goals first
    | exact hs
    | exact updateUser_sound (by assumption) hs

theorem updateProfile_sound (env : Env) (s : Store) (caller : User)
    (updates : UserPatch) (hs : usersSound s) :
    usersSound (updateProfile env s caller updates).2 := by
  unfold updateProfile
  repeat' first | split | dsimp only
  all_goals first
    | exact hs
    | exact updateUser_sound (by assumption) hs

theorem deleteUser_sound (env : Env) (s : Store) (caller : User) (userId : IdParam)
    (hs : usersSound s) : usersSound (deleteUser env s caller userId).2 := by
  unfold deleteUser
  repeat' first | split | dsimp only
  all_goals first
    | exact hs
    | exact deleteUserById_sound (by assumption) hs

theorem deactivateUser_sound (env : Env) (s : Store) (caller : User) (id : IdParam)
    (hs : usersSound s) : usersSound (deactivateUser env s caller id).2 := by
  unfold deactivateUser
  repeat' first | split | dsimp only
  all_goals first
    | exact hs
    | exact updateUser_sound (by assumption) hs
    | exact updateOrganization_sound (by assumption) (updateUser_sound (by assumption) hs)

theorem createOrganization_sound (env : Env) (s : Store) (b : OrganizationBody)
    (hs : usersSound s) : usersSound (createOrganization env s b).2 := by
  unfold createOrganization
  repeat' first | split | dsimp only
  all_goals first
    | exact hs
    | exact insertOrganization_sound (by assumption) hs

theorem putOrganization_sound (env : Env) (s : Store) (id : IdParam) (updates : OrganizationPatch)
    (hs : usersSound s) : usersSound (putOrganization env s id updates).2 := by
  unfold putOrganization
  repeat' first | split | dsimp only
  all_goals first
    | exact hs
    | exact updateOrganization_sound (by assumption) hs

theorem deactivateOrganization_sound (env : Env) (s : Store) (id : IdParam)
    (hs : usersSound s) : usersSound (deactivateOrganization env s id).2 := by
  unfold deactivateOrganization
  repeat' first | split | dsimp only
  all_goals first
    | exact hs
    | exact updateOrganization_sound (by assumption) hs
    | exact setMembersActive_sound (by assumption)
        (updateOrganization_sound (by assumption) hs)

theorem toggleStatus_sound (env : Env) (s : Store) (id : IdParam)
    (hs : usersSound s) : usersSound (toggleStatus env s id).2 := by
  unfold toggleStatus
  repeat' first | split | dsimp only
  all_goals first
    | exact hs
    | exact updateOrganization_sound (by assumption) hs
    | exact setMembersActive_sound (by assumption)
        (updateOrganization_sound (by assumption) hs)

theorem deleteOrganizationPermanently_sound (env : Env) (s : Store) (id : IdParam)
    (hs : usersSound s) : usersSound (deleteOrganizationPermanently env s id).2 := by
  unfold deleteOrganizationPermanently
  repeat' first | split | dsimp only
  all_goals first
    | exact hs
    | exact deleteMembers_sound (by assumption) hs
    | exact deleteOrganizationById_sound (by assumption)
        (deleteMembers_sound (by assumption) hs)

theorem createPlan_sound (env : Env) (gw : Gateway) (s : Store) (b : PlanBody)
    (hs : usersSound s) : usersSound (createPlan env gw s b).2.1 := by
  unfold createPlan
  repeat' first | split | dsimp only
  all_goals first
    | exact hs
    | exact insertPlan_sound (by assumption) hs

theorem putPlan_sound (env : Env) (gw : Gateway) (s : Store) (id : IdParam) (updates : PlanPatch)
    (hs : usersSound s) : usersSound (putPlan env gw s id updates).2.1 := by
  unfold putPlan
  repeat' first | split | dsimp only
  all_goals first
    | exact hs
    | exact updatePlan_sound (by assumption) hs

theorem deletePlan_sound (env : Env) (s : Store) (id : IdParam)
    (hs : usersSound s) : usersSound (deletePlan env s id).2 := by
  unfold deletePlan
  repeat' first | split | dsimp only
  all_goals first
    | exact hs
    | exact updatePlan_sound (by assumption) hs

theorem subscribe_sound (env : Env) (gw : Gateway) (s : Store) (caller : User)
    (planId : Option IdParam) (hs : usersSound s) :
    usersSound (subscribe env gw s caller planId).2.1 := by
  unfold subscribe
  repeat' first | split | dsimp only
  all_goals first
    | exact hs
    | (rw [createCheckoutSession_store]; exact hs)
    | (rw [createCheckoutSession_store]; exact updateOrganization_sound (by assumption) hs)

theorem webhook_sound (env : Env) (s : Store) (request : Except String StripeEvent)
    (hs : usersSound s) : usersSound (webhook env s request).2 := by
  unfold webhook
  split
  · exact hs
  · unfold checkoutCompleted
    repeat' first | split | dsimp only
    all_goals first
      | exact hs
      | exact updateOrganization_sound (by assumption) hs
  · unfold subscriptionUpdated
    repeat' first | split | dsimp only
    all_goals first
      | exact hs
      | exact updateOrganization_sound (by assumption) hs
  · unfold subscriptionDeleted
    repeat' first | split | dsimp only
    all_goals first
      | exact hs
      | exact updateOrganization_sound (by assumption) hs
  · exact hs

theorem guarded_sound (s : Store) (caller : User) (roles : Option (List Role))
    (handler : Response × Store) (hs : usersSound s) (hh : usersSound handler.2) :
    usersSound (guarded s caller roles handler).2 := by
  unfold guarded
  split
  · exact hs
  · exact hh

theorem handle_sound (env : Env) (s : Store) (request : Request) (hs : usersSound s) :
    usersSound (handle env s request).2 := by
  cases request with
  | register b => exact register_sound env s b hs
  | registerUser caller b =>
    exact guarded_sound _ _ _ _ hs (registerUser_sound env s caller b hs)
  | deleteUser caller userId =>
    exact guarded_sound _ _ _ _ hs (deleteUser_sound env s caller userId hs)
  | createOrganizationUser caller b =>
    exact guarded_sound _ _ _ _ hs (createOrganizationUser_sound env s caller b hs)
  | updateOrganizationUser caller id updates =>
    exact guarded_sound _ _ _ _ hs (updateOrganizationUser_sound env s caller id updates hs)
  | deactivateUser caller id =>
    exact guarded_sound _ _ _ _ hs (deactivateUser_sound env s caller id hs)
  | updateProfile caller updates =>
    exact guarded_sound _ _ _ _ hs (updateProfile_sound env s caller updates hs)
  | createOrganization caller b =>
    exact guarded_sound _ _ _ _ hs (createOrganization_sound env s b hs)
  | putOrganization caller id updates =>
    exact guarded_sound _ _ _ _ hs (putOrganization_sound env s id updates hs)
  | deactivateOrganization caller id =>
    exact guarded_sound _ _ _ _ hs (deactivateOrganization_sound env s id hs)
  | toggleStatus caller id =>
    exact guarded_sound _ _ _ _ hs (toggleStatus_sound env s id hs)
  | deleteOrganizationPermanently caller id =>
    exact guarded_sound _ _ _ _ hs (deleteOrganizationPermanently_sound env s id hs)
  | createPlan caller gw b =>
    exact guarded_sound _ _ _ _ hs (createPlan_sound env gw s b hs)
  | putPlan caller gw id updates =>
    exact guarded_sound _ _ _ _ hs (putPlan_sound env gw s id updates hs)
  | deletePlan caller id =>
    exact guarded_sound _ _ _ _ hs (deletePlan_sound env s id hs)
  | subscribe caller gw planId =>
    exact guarded_sound _ _ _ _ hs (subscribe_sound env gw s caller planId hs)
  | webhook request => exact webhook_sound env s request hs

/-- C8: global uniqueness of e-mails is an invariant of the API: from a store
whose User ids are distinct and below the allocator and in which no two Users
share an e-mail, every sequence of requests (registration, add-user, the two
user updates, removals, organization and plan operations, subscribe, webhooks;
each with its own clock, write outcomes, caller and body) leads to a store in
which no two Users share an e-mail. -/
theorem email_uniqueness_invariant (s : Store) (trace : List (Env × Request))
    (hids : (s.users.map (fun u => u.id)).Nodup) (hfresh : ∀ u ∈ s.users, u.id < s.nextId)
    (hs : (s.users.map (fun u => u.email)).Nodup) :
    ((run s trace).users.map (fun u => u.email)).Nodup := by
  have key : ∀ (t : List (Env × Request)) (st : Store), usersSound st →
      usersSound (t.foldl (fun st step => (handle step.1 st step.2).2) st) := by
    intro t
    induction t with
    | nil => intro st h; exact h
    | cons step rest ih =>
      intro st h
      rw [List.foldl_cons]
      exact ih _ (handle_sound step.1 st step.2 h)
  exact (key trace s ⟨hids, hfresh, hs⟩).2.2

/-- C8, witness: Acme registers and adds a member; the admin then sends
`PUT /users/organization/5` with the admin's own e-mail and the member sends
`PUT /users/profile` with it.  Both updates are refused by the unique index
(500) and the two e-mails stay distinct. -/
theorem email_uniqueness_invariant_witness :
    ((run catalogStore emailTrace).users.map (fun u => u.email)).Nodup ∧
    (run catalogStore emailTrace).users.map (fun u => u.email) = ["a@acme.com", "b@acme.com"] ∧
    handle demoEnv acmeFull (.updateOrganizationUser acmeAdmin (.objectId 5) takeAdminEmail) =
      (⟨500, .failure "Server error"⟩, acmeFull) ∧
    handle demoEnv acmeFull (.updateProfile acmeMember takeAdminEmail) =
      (⟨500, .failure "Server error"⟩, acmeFull) :=
  ⟨email_uniqueness_invariant catalogStore emailTrace (by decide) (by decide) (by decide),
    by decide, by decide, by decide⟩

end SaaS
